import Mathlib

/-!
# Visitor pass management: pass lifecycle and check-in / check-out engine

A shallow embedding of `controllers/passController.js`,
`controllers/checkLogController.js`, `controllers/visitorController.js`,
`getAppointments` of `controllers/appointmentController.js`,
`utils/qrGenerator.js`, `middleware/auth.js`, `routes/checklogs.js` and the
schemas in `models/`.

Modelling conventions.
* The three collections are lists of records in insertion order.  A handler is
  a function from the request and the store to a response and the next store.
* Every store read and write succeeds, except in the executions that are
  named as failing or interleaved; a handler runs at one instant `now`
  (milliseconds since the epoch), which stands for each `new Date()` and
  `Date.now()` of the handler.
* Record fields carry the types the schemas declare.
* `save` validates the document before the `pre('save')` hooks of the schema
  run, and a document that fails a validator is not written: `save` rejects and
  the handler answers 500.  The validators modelled are those a handler can
  fail with the values it assigns: the required texts of a visitor, the required
  `passNumber` of a pass, and the range of `temperature` of a check log.  The
  other paths of a stored document are taken to have passed validation when the
  document was written.
* The setter `trim` is `String.prototype.trim`; the setter `lowercase` is
  modelled on ASCII letters, and request text is taken to hold no other cased
  letter.
* An exception reaching the outer `catch` of a handler is the response
  500 `Server error`.
-/

namespace VisitorPass

abbrev ObjId := Nat

abbrev Time := Int

/-- Values of `Visitor.status` (models/Visitor.js). -/
inductive VisitorStatus
  | pending | approved | rejected | checked_in | checked_out
  deriving DecidableEq, Repr

/-- Values of `Pass.status` (models/Pass.js). -/
inductive PassStatus
  | active | expired | revoked
  deriving DecidableEq, Repr

/-- Values of `Pass.accessLevel` (models/Pass.js). -/
inductive AccessLevel
  | standard | vip | restricted
  deriving DecidableEq, Repr

/-- Values of `CheckLog.type` (models/CheckLog.js). -/
inductive CheckType
  | check_in | check_out
  deriving DecidableEq, Repr

/-- Values of `CheckLog.method` (models/CheckLog.js). -/
inductive CheckMethod
  | qr_scan | manual | facial_recognition
  deriving DecidableEq, Repr

/-- The text a pass status interpolates to in a template string. -/
def PassStatus.text : PassStatus → String
  | .active => "active"
  | .expired => "expired"
  | .revoked => "revoked"

/-- The object `qrData` built by `generatePassQR`, as it reads back after
`JSON.stringify` and `JSON.parse`: a `null` or absent member is `none`. -/
structure QrPayload where
  passId : Option ObjId
  visitorId : Option ObjId
  passNumber : Option String
  token : Option String
  issuedAt : Option Time
  expiresAt : Option Time
  deriving DecidableEq, Repr

/-- A document of the `Visitor` collection. -/
structure Visitor where
  _id : ObjId
  name : String
  email : String
  phone : String
  company : Option String
  purpose : String
  hostId : ObjId
  photo : Option String
  idProof : Option String
  status : VisitorStatus
  expectedArrival : Time
  expectedDeparture : Time
  actualArrival : Option Time
  actualDeparture : Option Time
  notes : Option String
  deriving DecidableEq, Repr

/-- A document of the `Pass` collection.  `qrCode` is the payload the QR image
encodes; an unset `passNumber` is the empty string. -/
structure Pass where
  _id : ObjId
  visitorId : ObjId
  passNumber : String
  qrCode : QrPayload
  pdfUrl : Option String
  issuedBy : ObjId
  issuedAt : Time
  expiresAt : Time
  status : PassStatus
  accessLevel : AccessLevel
  validFrom : Time
  validTo : Time
  deriving DecidableEq, Repr

/-- A document of the `CheckLog` collection. -/
structure CheckLog where
  _id : ObjId
  visitorId : ObjId
  passId : ObjId
  type : CheckType
  timestamp : Time
  location : Option String
  checkedBy : ObjId
  method : CheckMethod
  notes : Option String
  temperature : Option Int
  deviceInfo : Option String
  deriving DecidableEq, Repr

/-- The authenticated identity `req.user`. -/
structure User where
  _id : ObjId
  role : String
  deriving DecidableEq, Repr

/-- The entity store. -/
structure Store where
  visitors : List Visitor
  passes : List Pass
  checkLogs : List CheckLog
  deriving DecidableEq, Repr

/-- What `JSON.parse` returns for the text of `qrData`. -/
inductive JsonValue
  | null
  | primitive
  | object (payload : QrPayload)
  deriving DecidableEq, Repr

/-- The member `qrData` of a request body: falsy (absent or empty), a text
`JSON.parse` throws on, or a text it parses. -/
inductive QrData
  | missing
  | malformed
  | json (value : JsonValue)
  deriving DecidableEq, Repr

/-- The JSON answer of a handler with its HTTP status. -/
structure Response where
  status : Nat
  message : String
  pass : Option Pass := none
  visitor : Option Visitor := none
  checkLog : Option CheckLog := none
  pdfBuffer : Option String := none
  photoUrl : Option String := none
  deriving DecidableEq, Repr

/-- The values a handler draws from outside the store: the clock,
`Math.random().toString(36)`, `crypto.randomBytes(32).toString('hex')`, and
the rendered badge. -/
structure Env where
  now : Time
  random36 : String
  token : String
  pdfBuffer : String
  deriving DecidableEq, Repr

/-- Body of `POST /api/passes`. -/
structure IssueBody where
  visitorId : ObjId
  validFrom : Time
  validTo : Time
  accessLevel : Option AccessLevel
  deriving DecidableEq, Repr

/-- Body of `POST /api/checklogs/checkin`. -/
structure CheckInBody where
  qrData : QrData
  location : Option String
  temperature : Option Int
  notes : Option String
  deriving DecidableEq, Repr

/-- Body of `POST /api/checklogs/checkout`. -/
structure CheckOutBody where
  qrData : QrData
  location : Option String
  notes : Option String
  deriving DecidableEq, Repr

/-! ## Store primitives -/

/-- Replace the first element satisfying `q` (an `updateOne`). -/
def replaceFirst {α : Type} (q : α → Bool) (a : α) : List α → List α
  | [] => []
  | x :: xs => if q x then a :: xs else x :: replaceFirst q a xs

/-- A fresh identifier for a collection whose identifiers are `ids`. -/
def freshId (ids : List ObjId) : ObjId :=
  ids.foldr max 0 + 1

/-- `Visitor.findById`. -/
def Store.findVisitor (s : Store) (id : ObjId) : Option Visitor :=
  s.visitors.find? (fun v => v._id == id)

/-- `Pass.findById` on an identifier. -/
def Store.findPass (s : Store) (id : ObjId) : Option Pass :=
  s.passes.find? (fun p => p._id == id)

/-- `Pass.findById` on a payload member: `null` and `undefined` find nothing. -/
def Store.findPassById (s : Store) (id : Option ObjId) : Option Pass :=
  id.bind s.findPass

/-- `pass.save()` on a loaded document. -/
def Store.savePass (s : Store) (p : Pass) : Store :=
  { s with passes := replaceFirst (fun x => x._id == p._id) p s.passes }

/-- `visitor.save()` on a loaded document. -/
def Store.saveVisitor (s : Store) (v : Visitor) : Store :=
  { s with visitors := replaceFirst (fun x => x._id == v._id) v s.visitors }

/-- The insertion that ends `pass.save()` on a new document. -/
def Store.insertPass (s : Store) (p : Pass) : Store :=
  { s with passes := s.passes ++ [p] }

/-- The insertion that ends `checkLog.save()` on a new document. -/
def Store.insertCheckLog (s : Store) (l : CheckLog) : Store :=
  { s with checkLogs := s.checkLogs ++ [l] }

/-- The statuses the issuance query `status: { $in: ['active', 'expired'] }`
selects. -/
def PassStatus.blocking : PassStatus → Bool
  | .active => true
  | .expired => true
  | .revoked => false

/-- `Pass.findOne({ visitorId, status: { $in: ['active', 'expired'] } })`. -/
def Store.findBlockingPass (s : Store) (visitorId : ObjId) : Option Pass :=
  s.passes.find? (fun p => p.visitorId == visitorId && p.status.blocking)

/-- The head of a list sorted by `timestamp` descending. -/
def latestLog : List CheckLog → Option CheckLog
  | [] => none
  | l :: ls =>
    match latestLog ls with
    | none => some l
    | some m => if l.timestamp < m.timestamp then some m else some l

/-- Milliseconds in `24 * 60 * 60 * 1000`. -/
def dayMs : Int := 24 * 60 * 60 * 1000

/-- The filter of the `CheckLog.findOne` in `checkInVisitor`:
`visitorId`, `type: 'check_in'` and the `$or` of the two timestamp clauses. -/
def checkInQuery (now : Time) (visitorId : ObjId) (l : CheckLog) : Bool :=
  l.visitorId == visitorId && l.type == CheckType.check_in &&
    (decide (now - dayMs ≤ l.timestamp) ||
      (l.type == CheckType.check_out && decide (now - dayMs ≤ l.timestamp)))

/-- The lookup `CheckLog.findOne(...).sort({ timestamp: -1 })` of
`checkInVisitor`. -/
def Store.findExistingCheckIn (s : Store) (now : Time) (visitorId : ObjId) :
    Option CheckLog :=
  latestLog (s.checkLogs.filter (checkInQuery now visitorId))

/-! ## Setters and validators of the schemas -/

/-- The characters `String.prototype.trim` strips: the white space and the
line terminators of ECMAScript. -/
def jsWhiteSpace (c : Char) : Bool :=
  [0x09, 0x0A, 0x0B, 0x0C, 0x0D, 0x20, 0xA0, 0x1680, 0x2028, 0x2029, 0x202F, 0x205F,
    0x3000, 0xFEFF].contains c.toNat ||
    (decide (0x2000 ≤ c.toNat) && decide (c.toNat ≤ 0x200A))

/-- The setter `trim: true`: `String.prototype.trim`. -/
def jsTrim (s : String) : String :=
  String.mk (((s.toList.dropWhile jsWhiteSpace).reverse.dropWhile jsWhiteSpace).reverse)

/-- The setter `lowercase: true`, on ASCII letters. -/
def toLowerCase (s : String) : String :=
  String.mk (s.toList.map Char.toLower)

/-- The validators of the visitor schema on the texts a request supplies:
`name`, `email`, `phone` and `purpose` are required, and a required text must
not be empty. -/
def visitorValid (v : Visitor) : Bool :=
  v.name != "" && v.email != "" && v.phone != "" && v.purpose != ""

/-- The validator of the pass schema that a new document can fail: the
required `passNumber` must not be empty. -/
def passValid (p : Pass) : Bool :=
  p.passNumber != ""

/-- The validators `min: 30` and `max: 45` of the path `temperature`; an absent
value is not validated. -/
def temperatureValid : Option Int → Bool
  | none => true
  | some t => decide (30 ≤ t) && decide (t ≤ 45)

/-- The validators of the check-log schema on the members a request
supplies. -/
def checkLogValid (l : CheckLog) : Bool :=
  temperatureValid l.temperature

/-! ## utils/qrGenerator.js and the pre-save hook of models/Pass.js -/

/-- The object `passData` of `issuePass`. -/
structure PassData where
  _id : Option ObjId
  visitorId : ObjId
  passNumber : String
  issuedAt : Time
  expiresAt : Time
  deriving DecidableEq, Repr

/-- `generatePassQR`: the payload the QR image encodes, and the token. -/
def generatePassQR (token : String) (passData : PassData) : QrPayload × String :=
  ({ passId := passData._id
     visitorId := some passData.visitorId
     passNumber := some passData.passNumber
     token := some token
     issuedAt := some passData.issuedAt
     expiresAt := some passData.expiresAt }, token)

/-- `s.slice(-6)`. -/
def lastSix (s : String) : String :=
  String.mk (s.toList.drop (s.toList.length - 6))

/-- `s.substring(2, 8).toUpperCase()`. -/
def randomBlock (s : String) : String :=
  String.mk (((s.toList.drop 2).take 6).map Char.toUpper)

/-- The number the pre-save hook builds from `Date.now()` and
`Math.random().toString(36)`. -/
def generatePassNumber (now : Time) (random36 : String) : String :=
  "PASS-" ++ lastSix (toString now) ++ "-" ++ randomBlock random36

/-- The `pre('save')` hook of the pass schema. -/
def passPreSave (env : Env) (p : Pass) : Pass :=
  if p.passNumber = "" then
    { p with passNumber := generatePassNumber env.now env.random36 }
  else p

/-- `pass.save()` on a new document: the document is validated, then the
`pre('save')` hook runs, then the document is inserted.  A document that fails
validation is not written and `save` rejects (`none`). -/
def Store.saveNewPass (s : Store) (env : Env) (p : Pass) : Option (Pass × Store) :=
  if passValid p then
    some (passPreSave env p, s.insertPass (passPreSave env p))
  else none

/-! ## controllers/passController.js -/

/-- The answer of the outer `catch` of every handler. -/
def serverError : Response :=
  { status := 500, message := "Server error" }

/-- `parsedData.passId`: a `TypeError` on `null`, `undefined` on a value that
is not an object. -/
def JsonValue.passId : JsonValue → Except Unit (Option ObjId)
  | .null => .error ()
  | .primitive => .ok none
  | .object payload => .ok payload.passId

/-- The object `passData` that `issuePass` hands to `generatePassQR`. -/
def issuePassData (env : Env) (body : IssueBody) : PassData :=
  { _id := none
    visitorId := body.visitorId
    passNumber := ""
    issuedAt := env.now
    expiresAt := body.validTo }

/-- The document `new Pass({...})` of `issuePass`: `passNumber` is not among
the members given, and `qrCode` encodes the payload built from `passData`. -/
def issuePassDocument (env : Env) (user : User) (body : IssueBody) (s : Store) : Pass :=
  { _id := freshId (s.passes.map (fun p => p._id))
    visitorId := body.visitorId
    passNumber := ""
    qrCode := (generatePassQR env.token (issuePassData env body)).1
    pdfUrl := none
    issuedBy := user._id
    issuedAt := env.now
    expiresAt := body.validTo
    status := PassStatus.active
    accessLevel := body.accessLevel.getD AccessLevel.standard
    validFrom := body.validFrom
    validTo := body.validTo }

/-- `issuePass`.  The first `pass.save()` rejects when the new document fails
validation, and the outer `catch` then answers 500. -/
def issuePass (env : Env) (user : User) (body : IssueBody) (s : Store) :
    Response × Store :=
  match s.findVisitor body.visitorId with
  | none => ({ status := 404, message := "Visitor not found" }, s)
  | some visitor =>
    if visitor.status ≠ VisitorStatus.approved then
      ({ status := 400, message := "Visitor must be approved before issuing pass" }, s)
    else
      match s.findBlockingPass body.visitorId with
      | some _ =>
        ({ status := 400, message := "Active pass already exists for this visitor" }, s)
      | none =>
        match s.saveNewPass env (issuePassDocument env user body s) with
        | none => (serverError, s)
        | some (pass1, s1) =>
          let pdfUrl := "/pdfs/" ++ ("pass-" ++ pass1.passNumber ++ ".pdf")
          let pass2 := passPreSave env { pass1 with pdfUrl := some pdfUrl }
          let s2 := s1.savePass pass2
          ({ status := 201, message := "Pass issued successfully", pass := some pass2,
             pdfBuffer := some env.pdfBuffer }, s2)

/-- `revokePass`. -/
def revokePass (id : ObjId) (s : Store) : Response × Store :=
  match s.findPass id with
  | none => ({ status := 404, message := "Pass not found" }, s)
  | some pass =>
    if pass.status = PassStatus.revoked then
      ({ status := 400, message := "Pass is already revoked" }, s)
    else
      let pass1 := { pass with status := PassStatus.revoked }
      ({ status := 200, message := "Pass revoked successfully", pass := some pass1 },
        s.savePass pass1)

/-- `verifyPass`.  The populated `pass.visitorId` is `null` when the visitor
document is gone, and reading its `status` then throws. -/
def verifyPass (now : Time) (qrData : QrData) (s : Store) : Response × Store :=
  match qrData with
  | .missing => ({ status := 400, message := "QR data is required" }, s)
  | .malformed => ({ status := 400, message := "Invalid QR code data" }, s)
  | .json parsedData =>
    match parsedData.passId with
    | .error _ => (serverError, s)
    | .ok passId =>
      match s.findPassById passId with
      | none => ({ status := 404, message := "Pass not found" }, s)
      | some pass =>
        if pass.status ≠ PassStatus.active then
          ({ status := 400, message := "Pass is " ++ pass.status.text, pass := some pass }, s)
        else if pass.expiresAt < now then
          let pass1 := { pass with status := PassStatus.expired }
          ({ status := 400, message := "Pass has expired", pass := some pass1 },
            s.savePass pass1)
        else
          match s.findVisitor pass.visitorId with
          | none => (serverError, s)
          | some visitor =>
            if visitor.status ≠ VisitorStatus.approved then
              ({ status := 400, message := "Visitor is not approved", pass := some pass }, s)
            else
              ({ status := 200, message := "Pass is valid", pass := some pass,
                 visitor := some visitor }, s)

/-! ## controllers/checkLogController.js -/

/-- The test `existingCheckIn && existingCheckIn.type === 'check_in'`. -/
def alreadyCheckedIn : Option CheckLog → Bool
  | none => false
  | some existingCheckIn => existingCheckIn.type == CheckType.check_in

/-- `checkInVisitor`.  `checkLog.save()` rejects when the new document fails
validation, and the outer `catch` then answers 500. -/
def checkInVisitor (now : Time) (user : User) (body : CheckInBody) (s : Store) :
    Response × Store :=
  match body.qrData with
  | .missing => ({ status := 400, message := "QR data is required" }, s)
  | .malformed => ({ status := 400, message := "Invalid QR code data" }, s)
  | .json parsedData =>
    match parsedData.passId with
    | .error _ => (serverError, s)
    | .ok passId =>
      match s.findPassById passId with
      | none => ({ status := 404, message := "Pass not found" }, s)
      | some pass =>
        if pass.status ≠ PassStatus.active then
          ({ status := 400, message := "Pass is " ++ pass.status.text }, s)
        else if pass.expiresAt < now then
          ({ status := 400, message := "Pass has expired" },
            s.savePass { pass with status := PassStatus.expired })
        else
          match s.findVisitor pass.visitorId with
          | none => ({ status := 404, message := "Visitor not found" }, s)
          | some visitor =>
            let existingCheckIn := s.findExistingCheckIn now visitor._id
            if alreadyCheckedIn existingCheckIn then
              ({ status := 400, message := "Visitor is already checked in" }, s)
            else
              let checkLog : CheckLog :=
                { _id := freshId (s.checkLogs.map (fun l => l._id))
                  visitorId := visitor._id
                  passId := pass._id
                  type := CheckType.check_in
                  timestamp := now
                  location := body.location.map jsTrim
                  checkedBy := user._id
                  method := CheckMethod.qr_scan
                  notes := body.notes.map jsTrim
                  temperature := body.temperature
                  deviceInfo := none }
              if checkLogValid checkLog then
                let s1 := s.insertCheckLog checkLog
                let visitor1 :=
                  { visitor with status := VisitorStatus.checked_in, actualArrival := some now }
                ({ status := 201, message := "Visitor checked in successfully",
                   checkLog := some checkLog, visitor := some visitor1 },
                  s1.saveVisitor visitor1)
              else (serverError, s)

/-- `checkOutVisitor`. -/
def checkOutVisitor (now : Time) (user : User) (body : CheckOutBody) (s : Store) :
    Response × Store :=
  match body.qrData with
  | .missing => ({ status := 400, message := "QR data is required" }, s)
  | .malformed => ({ status := 400, message := "Invalid QR code data" }, s)
  | .json parsedData =>
    match parsedData.passId with
    | .error _ => (serverError, s)
    | .ok passId =>
      match s.findPassById passId with
      | none => ({ status := 404, message := "Pass not found" }, s)
      | some pass =>
        match s.findVisitor pass.visitorId with
        | none => ({ status := 404, message := "Visitor not found" }, s)
        | some visitor =>
          if visitor.status ≠ VisitorStatus.checked_in then
            ({ status := 400, message := "Visitor is not checked in" }, s)
          else
            let checkLog : CheckLog :=
              { _id := freshId (s.checkLogs.map (fun l => l._id))
                visitorId := visitor._id
                passId := pass._id
                type := CheckType.check_out
                timestamp := now
                location := body.location.map jsTrim
                checkedBy := user._id
                method := CheckMethod.qr_scan
                notes := body.notes.map jsTrim
                temperature := none
                deviceInfo := none }
            let s1 := s.insertCheckLog checkLog
            let visitor1 :=
              { visitor with status := VisitorStatus.checked_out, actualDeparture := some now }
            ({ status := 201, message := "Visitor checked out successfully",
               checkLog := some checkLog, visitor := some visitor1 },
              s1.saveVisitor visitor1)

/-! ## controllers/visitorController.js -/

/-- The text a visitor status interpolates to in a template string. -/
def VisitorStatus.text : VisitorStatus → String
  | .pending => "pending"
  | .approved => "approved"
  | .rejected => "rejected"
  | .checked_in => "checked_in"
  | .checked_out => "checked_out"

/-- Body of `POST /api/visitors`. -/
structure CreateVisitorBody where
  name : String
  email : String
  phone : String
  company : Option String
  purpose : String
  hostId : ObjId
  expectedArrival : Time
  expectedDeparture : Time
  notes : Option String
  deriving DecidableEq, Repr

/-- Body of `PUT /api/visitors/:id`: each member is present or absent.  The
members after `status` are ones a request may carry and the handler never
reads. -/
structure UpdateVisitorBody where
  name : Option String
  email : Option String
  phone : Option String
  company : Option String
  purpose : Option String
  expectedArrival : Option Time
  expectedDeparture : Option Time
  notes : Option String
  status : Option VisitorStatus
  hostId : Option ObjId
  photo : Option String
  idProof : Option String
  actualArrival : Option Time
  actualDeparture : Option Time
  deriving DecidableEq, Repr

/-- The insertion that ends `visitor.save()` on a new document. -/
def Store.insertVisitor (s : Store) (v : Visitor) : Store :=
  { s with visitors := s.visitors ++ [v] }

/-- `createVisitor`.  The `User` collection is the parameter `users`; the
schema trims the text members and lower-cases `email`, and `visitor.save()`
rejects when a required text is empty. -/
def createVisitor (users : List User) (body : CreateVisitorBody) (s : Store) :
    Response × Store :=
  match users.find? (fun u => u._id == body.hostId) with
  | none => ({ status := 400, message := "Invalid host selected" }, s)
  | some host =>
    if !(["employee", "admin"].contains host.role) then
      ({ status := 400, message := "Invalid host selected" }, s)
    else
      let visitor : Visitor :=
        { _id := freshId (s.visitors.map (fun v => v._id))
          name := jsTrim body.name
          email := jsTrim (toLowerCase body.email)
          phone := jsTrim body.phone
          company := body.company.map jsTrim
          purpose := jsTrim body.purpose
          hostId := body.hostId
          photo := none
          idProof := none
          status := VisitorStatus.pending
          expectedArrival := body.expectedArrival
          expectedDeparture := body.expectedDeparture
          actualArrival := none
          actualDeparture := none
          notes := body.notes.map jsTrim }
      if visitorValid visitor then
        ({ status := 201, message := "Visitor registered successfully",
           visitor := some visitor }, s.insertVisitor visitor)
      else (serverError, s)

/-- The `allowedFields.forEach` of `updateVisitor`: a member of the body that
is present overwrites the field; `status` only when `allowStatus`. -/
def applyAllowedFields (allowStatus : Bool) (body : UpdateVisitorBody)
    (visitor : Visitor) : Visitor :=
  { visitor with
    name := (body.name.map jsTrim).getD visitor.name
    email := (body.email.map (fun e => jsTrim (toLowerCase e))).getD visitor.email
    phone := (body.phone.map jsTrim).getD visitor.phone
    company :=
      match body.company with
      | some c => some (jsTrim c)
      | none => visitor.company
    purpose := (body.purpose.map jsTrim).getD visitor.purpose
    expectedArrival := body.expectedArrival.getD visitor.expectedArrival
    expectedDeparture := body.expectedDeparture.getD visitor.expectedDeparture
    notes :=
      match body.notes with
      | some n => some (jsTrim n)
      | none => visitor.notes
    status := if allowStatus then body.status.getD visitor.status else visitor.status }

/-- `updateVisitor`.  `visitor.save()` rejects when a required text has been
made empty, and the outer `catch` then answers 500. -/
def updateVisitor (id : ObjId) (user : User) (body : UpdateVisitorBody) (s : Store) :
    Response × Store :=
  match s.findVisitor id with
  | none => ({ status := 404, message := "Visitor not found" }, s)
  | some visitor =>
    if user.role = "employee" ∧ visitor.hostId ≠ user._id then
      ({ status := 403, message := "Access denied" }, s)
    else
      let visitor1 :=
        applyAllowedFields (["admin", "security"].contains user.role) body visitor
      if visitorValid visitor1 then
        ({ status := 200, message := "Visitor updated successfully",
           visitor := some visitor1 }, s.saveVisitor visitor1)
      else (serverError, s)

/-- The handler of `uploadPhoto`; `file` is `req.file.filename` when a file was
uploaded. -/
def uploadPhoto (id : ObjId) (file : Option String) (s : Store) : Response × Store :=
  match s.findVisitor id with
  | none => ({ status := 404, message := "Visitor not found" }, s)
  | some visitor =>
    match file with
    | none => ({ status := 400, message := "No file uploaded" }, s)
    | some filename =>
      let visitor1 := { visitor with photo := some ("/uploads/" ++ filename) }
      ({ status := 200, message := "Photo uploaded successfully",
         photoUrl := visitor1.photo }, s.saveVisitor visitor1)

/-- `updateVisitorStatus`; `status` is the member of the body, absent or a
status. -/
def updateVisitorStatus (id : ObjId) (user : User) (status : Option VisitorStatus)
    (s : Store) : Response × Store :=
  match status with
  | none => ({ status := 400, message := "Invalid status" }, s)
  | some status =>
    if !([VisitorStatus.approved, VisitorStatus.rejected].contains status) then
      ({ status := 400, message := "Invalid status" }, s)
    else
      match s.findVisitor id with
      | none => ({ status := 404, message := "Visitor not found" }, s)
      | some visitor =>
        let canApprove :=
          ["admin", "security"].contains user.role ||
            (user.role == "employee" && visitor.hostId == user._id)
        if !canApprove then
          ({ status := 403, message := "Access denied" }, s)
        else
          let visitor1 := { visitor with status := status }
          ({ status := 200, message := "Visitor " ++ status.text ++ " successfully",
             visitor := some visitor1 }, s.saveVisitor visitor1)

/-! ## Sequential executions -/

/-- One call of the pass and check-log API. -/
inductive Op
  | issue (env : Env) (user : User) (body : IssueBody)
  | revoke (id : ObjId)
  | verify (now : Time) (qrData : QrData)
  | checkIn (now : Time) (user : User) (body : CheckInBody)
  | checkOut (now : Time) (user : User) (body : CheckOutBody)

/-- The store after one call. -/
def Op.apply : Op → Store → Store
  | .issue env user body, s => (issuePass env user body s).2
  | .revoke id, s => (revokePass id s).2
  | .verify now qrData, s => (verifyPass now qrData s).2
  | .checkIn now user body, s => (checkInVisitor now user body s).2
  | .checkOut now user body, s => (checkOutVisitor now user body s).2

/-- The store after a sequence of calls executed one at a time. -/
def run : List Op → Store → Store
  | [], s => s
  | op :: ops, s => run ops (op.apply s)

/-- The number of passes of a visitor whose status is `active` or `expired`. -/
def blockingCount (visitorId : ObjId) (passes : List Pass) : Nat :=
  (passes.filter (fun p => p.visitorId == visitorId && p.status.blocking)).length

/-- Each visitor has at most one pass whose status is `active` or `expired`. -/
def OnePassPerVisitor (s : Store) : Prop :=
  ∀ visitorId : ObjId, blockingCount visitorId s.passes ≤ 1

/-- One call of the API that can write a visitor, a pass or a check log. -/
inductive ApiOp
  | pass (op : Op)
  | createVisitor (users : List User) (body : CreateVisitorBody)
  | updateVisitor (id : ObjId) (user : User) (body : UpdateVisitorBody)
  | uploadPhoto (id : ObjId) (file : Option String)
  | updateVisitorStatus (id : ObjId) (user : User) (status : Option VisitorStatus)

/-- The store after one call of the API. -/
def ApiOp.apply : ApiOp → Store → Store
  | .pass op, s => op.apply s
  | .createVisitor users body, s => (VisitorPass.createVisitor users body s).2
  | .updateVisitor id user body, s => (VisitorPass.updateVisitor id user body s).2
  | .uploadPhoto id file, s => (VisitorPass.uploadPhoto id file s).2
  | .updateVisitorStatus id user status, s =>
    (VisitorPass.updateVisitorStatus id user status s).2

/-- The store after a sequence of API calls executed one at a time. -/
def runApi : List ApiOp → Store → Store
  | [], s => s
  | op :: ops, s => runApi ops (op.apply s)

/-- The store with no document. -/
def emptyStore : Store :=
  { visitors := [], passes := [], checkLogs := [] }

/-- The check logs of one visitor, in insertion order. -/
def logsOf (visitorId : ObjId) (logs : List CheckLog) : List CheckLog :=
  logs.filter (fun l => l.visitorId == visitorId)

/-- The most recent log of a list: the greatest timestamp, and among equal
timestamps the log inserted last. -/
def mostRecentLog : List CheckLog → Option CheckLog
  | [] => none
  | l :: ls =>
    match mostRecentLog ls with
    | none => some l
    | some m => if m.timestamp < l.timestamp then some l else some m

/-- The type of the most recent check log of a visitor. -/
def Store.mostRecentType (s : Store) (visitorId : ObjId) : Option CheckType :=
  (mostRecentLog (logsOf visitorId s.checkLogs)).map (fun l => l.type)

/-- Status and log agree: a visitor with status `checked_in` has a most recent
check log of type `check_in`, one with status `checked_out` a most recent check
log of type `check_out`. -/
def StatusLogConsistent (s : Store) : Prop :=
  ∀ v ∈ s.visitors,
    (v.status = VisitorStatus.checked_in →
      s.mostRecentType v._id = some CheckType.check_in) ∧
    (v.status = VisitorStatus.checked_out →
      s.mostRecentType v._id = some CheckType.check_out)

/-- The `_id` index of the visitor collection is unique. -/
def UniqueVisitorIds (s : Store) : Prop :=
  (s.visitors.map (fun v => v._id)).Nodup

/-- The clock of a check-in or check-out is not earlier than any timestamp
already logged. -/
def Op.clockOk : Op → Store → Prop
  | .checkIn now _ _, s => ∀ l ∈ s.checkLogs, l.timestamp ≤ now
  | .checkOut now _ _, s => ∀ l ∈ s.checkLogs, l.timestamp ≤ now
  | _, _ => True

/-- A call that keeps the clock monotone and, when it is an `updateVisitor` of
an admin or security user, carries neither status `checked_in` nor
`checked_out`. -/
def ApiOp.admissible : ApiOp → Store → Prop
  | .pass op, s => op.clockOk s
  | .updateVisitor _ user body, _ =>
    ["admin", "security"].contains user.role = true →
      body.status ≠ some VisitorStatus.checked_in ∧
        body.status ≠ some VisitorStatus.checked_out
  | _, _ => True

/-- Every call of the sequence is admissible in the store it runs on. -/
def admissibleRun : List ApiOp → Store → Prop
  | [], _ => True
  | op :: ops, s => op.admissible s ∧ admissibleRun ops (op.apply s)

/-- The check log `checkInVisitor` appends when it answers 201. -/
def checkInLogOf (now : Time) (user : User) (body : CheckInBody) (pass : Pass)
    (visitor : Visitor) (s : Store) : CheckLog :=
  { _id := freshId (s.checkLogs.map (fun l => l._id))
    visitorId := visitor._id
    passId := pass._id
    type := CheckType.check_in
    timestamp := now
    location := body.location.map jsTrim
    checkedBy := user._id
    method := CheckMethod.qr_scan
    notes := body.notes.map jsTrim
    temperature := body.temperature
    deviceInfo := none }

/-- The check log `checkOutVisitor` appends when it answers 201. -/
def checkOutLogOf (now : Time) (user : User) (body : CheckOutBody) (pass : Pass)
    (visitor : Visitor) (s : Store) : CheckLog :=
  { _id := freshId (s.checkLogs.map (fun l => l._id))
    visitorId := visitor._id
    passId := pass._id
    type := CheckType.check_out
    timestamp := now
    location := body.location.map jsTrim
    checkedBy := user._id
    method := CheckMethod.qr_scan
    notes := body.notes.map jsTrim
    temperature := none
    deviceInfo := none }

/-- Two passes that agree on every field other than `status` and `expiresAt`. -/
def SameButStatusExpiry (p q : Pass) : Prop :=
  q = { p with status := q.status, expiresAt := q.expiresAt }

/-- Two visitors that agree on every field other than `status`. -/
def SameButStatus (v w : Visitor) : Prop :=
  w = { v with status := w.status }


/-! ## middleware/auth.js and the routers -/

/-- `authorizeRoles(...roles)`: the answer that ends the request, or the user
the request goes on with when the middleware calls `next()`. -/
def authorizeRoles (roles : List String) (user : Option User) : Except Response User :=
  match user with
  | none => Except.error { status := 401, message := "Authentication required" }
  | some u =>
    if !(roles.contains u.role) then
      Except.error { status := 403, message := "Insufficient permissions" }
    else Except.ok u

/-- A route `router.METHOD(path, authorizeRoles(...roles), handler)`: the
handler runs only when the guard calls `next()`. -/
def guardedRoute (roles : List String) (handler : User → Store → Response × Store)
    (user : Option User) (s : Store) : Response × Store :=
  match authorizeRoles roles user with
  | Except.error response => (response, s)
  | Except.ok u => handler u s

/-- `router.post('/', authorizeRoles('admin', 'security'), issuePass)`. -/
def postPass (env : Env) (body : IssueBody) : Option User → Store → Response × Store :=
  guardedRoute ["admin", "security"] (fun u => issuePass env u body)

/-- `router.put('/:id/revoke', authorizeRoles('admin', 'security'), revokePass)`. -/
def putPassRevoke (id : ObjId) : Option User → Store → Response × Store :=
  guardedRoute ["admin", "security"] (fun _ => revokePass id)

/-- `router.post('/verify', authorizeRoles('admin', 'security'), verifyPass)`. -/
def postPassVerify (now : Time) (qrData : QrData) : Option User → Store → Response × Store :=
  guardedRoute ["admin", "security"] (fun _ => verifyPass now qrData)

/-- `router.post('/checkin', authorizeRoles('admin', 'security'), checkInVisitor)`. -/
def postCheckIn (now : Time) (body : CheckInBody) : Option User → Store → Response × Store :=
  guardedRoute ["admin", "security"] (fun u => checkInVisitor now u body)

/-- `router.post('/checkout', authorizeRoles('admin', 'security'), checkOutVisitor)`. -/
def postCheckOut (now : Time) (body : CheckOutBody) : Option User → Store → Response × Store :=
  guardedRoute ["admin", "security"] (fun u => checkOutVisitor now u body)

/-- HTTP methods the routers register. -/
inductive Method
  | get | post | put | delete
  deriving DecidableEq, Repr

/-- A segment of a route path: fixed text, or a named parameter such as `:id`. -/
inductive Segment
  | literal (text : String)
  | param (name : String)
  deriving DecidableEq, Repr

/-- The handlers exported by controllers/checkLogController.js. -/
inductive CheckLogHandler
  | getCheckLogs | getCheckLogById | getVisitorCheckHistory
  | checkInVisitor | checkOutVisitor | getCheckLogStats
  deriving DecidableEq, Repr

/-- One `router.METHOD(path, [authorizeRoles(...roles)], handler)` of
routes/checklogs.js. -/
structure Route where
  method : Method
  path : List Segment
  guard : Option (List String)
  handler : CheckLogHandler
  deriving DecidableEq, Repr

/-- The routes of routes/checklogs.js in registration order. -/
def checklogRoutes : List Route :=
  [ { method := Method.get, path := [], guard := none,
      handler := CheckLogHandler.getCheckLogs },
    { method := Method.get, path := [Segment.param "id"], guard := none,
      handler := CheckLogHandler.getCheckLogById },
    { method := Method.get, path := [Segment.literal "visitor", Segment.param "visitorId"],
      guard := none, handler := CheckLogHandler.getVisitorCheckHistory },
    { method := Method.post, path := [Segment.literal "checkin"],
      guard := some ["admin", "security"], handler := CheckLogHandler.checkInVisitor },
    { method := Method.post, path := [Segment.literal "checkout"],
      guard := some ["admin", "security"], handler := CheckLogHandler.checkOutVisitor },
    { method := Method.get, path := [Segment.literal "stats"],
      guard := some ["admin", "security"], handler := CheckLogHandler.getCheckLogStats } ]

/-- A path segment of a request against a segment of a route: fixed text
matches without regard to case, a parameter matches any segment. -/
def Segment.accepts : Segment → String → Bool
  | .literal text, seg => text.toList.map Char.toLower == seg.toList.map Char.toLower
  | .param _, _ => true

/-- A request path, as its non-empty segments, against a route path. -/
def pathMatches : List Segment → List String → Bool
  | [], [] => true
  | p :: ps, x :: xs => p.accepts x && pathMatches ps xs
  | _, _ => false

/-- Express dispatch: the first registered route whose method and path match
handles the request (none of the handlers calls `next()`). -/
def dispatch (routes : List Route) (method : Method) (path : List String) : Option Route :=
  routes.find? (fun r => r.method == method && pathMatches r.path path)


/-! ## Executions of check-in and check-out that interleave or fail -/

/-- The documents `checkInVisitor` holds once none of its reads has ended the
request. -/
structure CheckInDocs where
  pass : Pass
  visitor : Visitor
  deriving DecidableEq, Repr

/-- The part of `checkInVisitor` up to and including the already-checked-in
test: the answer that ends the request, with the store the expiry write may
have changed, or the loaded documents. -/
def checkInReads (now : Time) (body : CheckInBody) (s : Store) :
    Except (Response × Store) CheckInDocs :=
  match body.qrData with
  | .missing => Except.error ({ status := 400, message := "QR data is required" }, s)
  | .malformed => Except.error ({ status := 400, message := "Invalid QR code data" }, s)
  | .json parsedData =>
    match parsedData.passId with
    | .error _ => Except.error (serverError, s)
    | .ok passId =>
      match s.findPassById passId with
      | none => Except.error ({ status := 404, message := "Pass not found" }, s)
      | some pass =>
        if pass.status ≠ PassStatus.active then
          Except.error ({ status := 400, message := "Pass is " ++ pass.status.text }, s)
        else if pass.expiresAt < now then
          Except.error ({ status := 400, message := "Pass has expired" },
            s.savePass { pass with status := PassStatus.expired })
        else
          match s.findVisitor pass.visitorId with
          | none => Except.error ({ status := 404, message := "Visitor not found" }, s)
          | some visitor =>
            if alreadyCheckedIn (s.findExistingCheckIn now visitor._id) then
              Except.error ({ status := 400, message := "Visitor is already checked in" }, s)
            else Except.ok { pass := pass, visitor := visitor }

/-- The part of `checkInVisitor` after the already-checked-in test: the two
writes and the answer, on the store as it is when they run. -/
def checkInWrites (now : Time) (user : User) (body : CheckInBody) (docs : CheckInDocs)
    (s : Store) : Response × Store :=
  let checkLog := checkInLogOf now user body docs.pass docs.visitor s
  if checkLogValid checkLog then
    let s1 := s.insertCheckLog checkLog
    let visitor1 :=
      { docs.visitor with status := VisitorStatus.checked_in, actualArrival := some now }
    ({ status := 201, message := "Visitor checked in successfully",
       checkLog := some checkLog, visitor := some visitor1 },
      s1.saveVisitor visitor1)
  else (serverError, s)

/-- Two `checkInVisitor` calls interleaved so that the second call does its
reads after the reads of the first and before the writes of the first.  The
result is the two answers and the final store. -/
def checkInBothReadFirst (now₁ : Time) (user₁ : User) (body₁ : CheckInBody)
    (now₂ : Time) (user₂ : User) (body₂ : CheckInBody) (s : Store) :
    Response × Response × Store :=
  match checkInReads now₁ body₁ s with
  | Except.error (response₁, s₁) =>
    let r₂ := checkInVisitor now₂ user₂ body₂ s₁
    (response₁, r₂.1, r₂.2)
  | Except.ok docs₁ =>
    match checkInReads now₂ body₂ s with
    | Except.error (response₂, s₂) =>
      let r₁ := checkInWrites now₁ user₁ body₁ docs₁ s₂
      (r₁.1, response₂, r₁.2)
    | Except.ok docs₂ =>
      let r₁ := checkInWrites now₁ user₁ body₁ docs₁ s
      let r₂ := checkInWrites now₂ user₂ body₂ docs₂ r₁.2
      (r₁.1, r₂.1, r₂.2)

/-- The execution of `checkInVisitor` in which `visitor.save()` rejects after
`checkLog.save()` has resolved: the outer `catch` answers 500.  When the check
log fails validation `checkLog.save()` rejects first and nothing is written. -/
def checkInVisitorSaveFails (now : Time) (user : User) (body : CheckInBody) (s : Store) :
    Response × Store :=
  match checkInReads now body s with
  | Except.error r => r
  | Except.ok docs =>
    if checkLogValid (checkInLogOf now user body docs.pass docs.visitor s) then
      (serverError, s.insertCheckLog (checkInLogOf now user body docs.pass docs.visitor s))
    else (serverError, s)

/-- The execution of `checkOutVisitor` in which `visitor.save()` rejects after
`checkLog.save()` has resolved: the outer `catch` answers 500. -/
def checkOutVisitorSaveFails (now : Time) (user : User) (body : CheckOutBody) (s : Store) :
    Response × Store :=
  match body.qrData with
  | .missing => ({ status := 400, message := "QR data is required" }, s)
  | .malformed => ({ status := 400, message := "Invalid QR code data" }, s)
  | .json parsedData =>
    match parsedData.passId with
    | .error _ => (serverError, s)
    | .ok passId =>
      match s.findPassById passId with
      | none => ({ status := 404, message := "Pass not found" }, s)
      | some pass =>
        match s.findVisitor pass.visitorId with
        | none => ({ status := 404, message := "Visitor not found" }, s)
        | some visitor =>
          if visitor.status ≠ VisitorStatus.checked_in then
            ({ status := 400, message := "Visitor is not checked in" }, s)
          else
            (serverError,
              s.insertCheckLog (checkOutLogOf now user body pass visitor s))


/-! ## controllers/appointmentController.js: getAppointments -/

/-- Values of `Appointment.status` (models/Appointment.js). -/
inductive AppointmentStatus
  | pending | approved | rejected | completed | cancelled
  deriving DecidableEq, Repr

/-- A document of the `Appointment` collection. -/
structure Appointment where
  _id : ObjId
  visitorId : ObjId
  hostId : ObjId
  title : String
  description : Option String
  date : Time
  startTime : String
  endTime : String
  status : AppointmentStatus
  location : Option String
  attendees : List ObjId
  notes : Option String
  deriving DecidableEq, Repr

/-- One member of a `$or` list of the filter `getAppointments` builds. -/
inductive OrClause
  | titleRegex (pattern : String)
  | descriptionRegex (pattern : String)
  | hostId (id : ObjId)
  | attendees (id : ObjId)
  deriving DecidableEq, Repr

/-- The filter document `query` of `getAppointments`; an absent key is
`none`. -/
structure AppointmentQuery where
  status : Option AppointmentStatus
  visitorId : Option ObjId
  date : Option (Time × Time)
  or : Option (List OrClause)
  deriving DecidableEq, Repr

/-- `req.query` of `GET /api/appointments`. -/
structure AppointmentsParams where
  page : Option Nat
  limit : Option Nat
  status : Option AppointmentStatus
  visitorId : Option ObjId
  date : Option Time
  search : Option String
  deriving DecidableEq, Repr

/-- The answer of `getAppointments`; `totalPages` is absent when `limit` is 0. -/
structure AppointmentsResponse where
  appointments : List Appointment
  totalPages : Option Nat
  currentPage : Nat
  total : Nat
  deriving DecidableEq, Repr

/-- `setHours(0, 0, 0, 0)` and `setHours(23, 59, 59, 999)` on a date, for a
server whose local time is UTC. -/
def dayBounds (date : Time) : Time × Time :=
  (date - date % dayMs, date - date % dayMs + dayMs - 1)

/-- The filter `getAppointments` builds, assignment by assignment: the
permission filter of an employee is assigned to the key `$or` after the search
filter was. -/
def buildAppointmentQuery (user : User) (params : AppointmentsParams) : AppointmentQuery :=
  let q0 : AppointmentQuery := { status := none, visitorId := none, date := none, or := none }
  let q1 := match params.status with
    | some status => { q0 with status := some status }
    | none => q0
  let q2 := match params.visitorId with
    | some visitorId => { q1 with visitorId := some visitorId }
    | none => q1
  let q3 := match params.date with
    | some date => { q2 with date := some (dayBounds date) }
    | none => q2
  let q4 := match params.search with
    | some search =>
      if search = "" then q3
      else { q3 with or := some [OrClause.titleRegex search, OrClause.descriptionRegex search] }
    | none => q3
  if user.role = "employee" then
    { q4 with or := some [OrClause.hostId user._id, OrClause.attendees user._id] }
  else q4

/-- Whether a document satisfies one member of a `$or`; `regexI pattern text`
is the test `{ $regex: pattern, $options: 'i' }` on a text. -/
def OrClause.holds (regexI : String → String → Bool) (a : Appointment) : OrClause → Bool
  | .titleRegex pattern => regexI pattern a.title
  | .descriptionRegex pattern =>
    match a.description with
    | some description => regexI pattern description
    | none => false
  | .hostId id => a.hostId == id
  | .attendees id => a.attendees.contains id

/-- Whether a document satisfies the filter. -/
def AppointmentQuery.holds (regexI : String → String → Bool) (q : AppointmentQuery)
    (a : Appointment) : Bool :=
  (match q.status with
    | some status => a.status == status
    | none => true) &&
  (match q.visitorId with
    | some visitorId => a.visitorId == visitorId
    | none => true) &&
  (match q.date with
    | some (startOfDay, endOfDay) => decide (startOfDay ≤ a.date) && decide (a.date ≤ endOfDay)
    | none => true) &&
  (match q.or with
    | some clauses => clauses.any (fun c => c.holds regexI a)
    | none => true)

/-- The order `sort({ date: -1, startTime: -1 })`: `a` comes before `b`. -/
def appointmentBefore (a b : Appointment) : Bool :=
  decide (b.date < a.date) || (a.date == b.date && decide (b.startTime < a.startTime))

/-- Insertion of a document into a list sorted by `appointmentBefore`. -/
def insertAppointment (a : Appointment) : List Appointment → List Appointment
  | [] => [a]
  | b :: bs => if appointmentBefore b a then b :: insertAppointment a bs else a :: b :: bs

/-- The documents sorted by `sort({ date: -1, startTime: -1 })`. -/
def sortAppointments : List Appointment → List Appointment
  | [] => []
  | a :: as => insertAppointment a (sortAppointments as)

/-- `getAppointments` on the collection `appointments`: the page of the sorted
matches, and the count of matches. -/
def getAppointments (regexI : String → String → Bool) (user : User)
    (params : AppointmentsParams) (appointments : List Appointment) : AppointmentsResponse :=
  let page := params.page.getD 1
  let limit := params.limit.getD 10
  let query := buildAppointmentQuery user params
  let found := sortAppointments (appointments.filter (query.holds regexI))
  let skipped := found.drop ((page - 1) * limit)
  let total := (appointments.filter (query.holds regexI)).length
  { appointments := if limit = 0 then skipped else skipped.take limit
    totalPages := if limit = 0 then none else some ((total + limit - 1) / limit)
    currentPage := page
    total := total }

/-- Whether a list of characters starts with another. -/
def startsWithChars : List Char → List Char → Bool
  | [], _ => true
  | _ :: _, [] => false
  | p :: ps, c :: cs => p == c && startsWithChars ps cs

/-- Whether a list of characters occurs in another. -/
def containsChars (pattern : List Char) : List Char → Bool
  | [] => pattern.isEmpty
  | c :: cs => startsWithChars pattern (c :: cs) || containsChars pattern cs

/-- The test `{ $regex: pattern, $options: 'i' }` for a pattern of plain
characters. -/
def plainRegexI (pattern text : String) : Bool :=
  containsChars (pattern.toList.map Char.toLower) (text.toList.map Char.toLower)


/-! ## Sample data -/

/-- An approved visitor. -/
def sampleVisitor : Visitor :=
  { _id := 1, name := "Ada", email := "ada@example.com", phone := "5550100",
    company := none, purpose := "meeting", hostId := 7, photo := none, idProof := none,
    status := VisitorStatus.approved, expectedArrival := 1000, expectedDeparture := 2000,
    actualArrival := none, actualDeparture := none, notes := none }

/-- A store holding one approved visitor and nothing else. -/
def sampleStore : Store :=
  { visitors := [sampleVisitor], passes := [], checkLogs := [] }

def sampleEnv : Env :=
  { now := 5000, random36 := "0.k3j9x2abcd", token := "ab12", pdfBuffer := "pdf" }

def sampleUser : User :=
  { _id := 9, role := "security" }

/-- A request for a pass valid from 5000 to 9000 for the sample visitor. -/
def sampleIssue : IssueBody :=
  { visitorId := 1, validFrom := 5000, validTo := 9000, accessLevel := none }

/-- A pass of the sample visitor that expires at 9000. -/
def samplePass : Pass :=
  { _id := 1, visitorId := 1, passNumber := "PASS-5000-K3J9X2",
    qrCode := { passId := none, visitorId := some 1, passNumber := some "",
                token := some "ab12", issuedAt := some 5000, expiresAt := some 9000 },
    pdfUrl := some "/pdfs/pass-PASS-5000-K3J9X2.pdf", issuedBy := 9, issuedAt := 5000,
    expiresAt := 9000, status := PassStatus.active, accessLevel := AccessLevel.standard,
    validFrom := 5000, validTo := 9000 }

/-- A store with the sample visitor and the sample pass in the given states. -/
def storeWith (passStatus : PassStatus) (visitorStatus : VisitorStatus) : Store :=
  { visitors := [{ sampleVisitor with status := visitorStatus }],
    passes := [{ samplePass with status := passStatus }],
    checkLogs := [] }

/-- A scanned payload that names the pass with identifier 1. -/
def samplePayload : QrPayload :=
  { passId := some 1, visitorId := some 1, passNumber := some "PASS-5000-K3J9X2",
    token := some "ab12", issuedAt := some 5000, expiresAt := some 9000 }

/-- The sample visitor after a check-in at 95000000 and a check-out at
96000000. -/
def returningVisitor : Visitor :=
  { sampleVisitor with
    status := VisitorStatus.checked_out
    actualArrival := some 95000000
    actualDeparture := some 96000000 }

/-- A pass of the sample visitor that expires at 200000000. -/
def longPass : Pass :=
  { samplePass with expiresAt := 200000000, validTo := 200000000 }

def checkInLog : CheckLog :=
  { _id := 1, visitorId := 1, passId := 1, type := CheckType.check_in,
    timestamp := 95000000, location := none, checkedBy := 9,
    method := CheckMethod.qr_scan, notes := none, temperature := none,
    deviceInfo := none }

def checkOutLog : CheckLog :=
  { _id := 2, visitorId := 1, passId := 1, type := CheckType.check_out,
    timestamp := 96000000, location := none, checkedBy := 9,
    method := CheckMethod.qr_scan, notes := none, temperature := none,
    deviceInfo := none }

/-- The store after the sample visitor checked in and then out. -/
def returningStore : Store :=
  { visitors := [returningVisitor], passes := [longPass],
    checkLogs := [checkInLog, checkOutLog] }

/-- A check-in request scanning the payload that names pass 1. -/
def sampleCheckIn : CheckInBody :=
  { qrData := QrData.json (JsonValue.object samplePayload), location := none,
    temperature := none, notes := none }

/-- A check-out request scanning the payload that names pass 1. -/
def sampleCheckOut : CheckOutBody :=
  { qrData := QrData.json (JsonValue.object samplePayload), location := none,
    notes := none }

def sampleHost : User :=
  { _id := 7, role := "employee" }

def sampleAdmin : User :=
  { _id := 8, role := "admin" }

/-- A registration of a visitor hosted by the sample host. -/
def sampleCreate : CreateVisitorBody :=
  { name := "Ada", email := "ada@example.com", phone := "5550100", company := none,
    purpose := "meeting", hostId := 7, expectedArrival := 1000, expectedDeparture := 2000,
    notes := none }

/-- An update that carries only `status: 'checked_in'`. -/
def forceCheckedIn : UpdateVisitorBody :=
  { name := none, email := none, phone := none, company := none, purpose := none,
    expectedArrival := none, expectedDeparture := none, notes := none,
    status := some VisitorStatus.checked_in, hostId := none, photo := none,
    idProof := none, actualArrival := none, actualDeparture := none }

/-- The sample visitor checked in at 95000000 and never checked out. -/
def staleStore : Store :=
  { visitors := [{ sampleVisitor with status := VisitorStatus.checked_in,
                                      actualArrival := some 95000000 }],
    passes := [{ samplePass with expiresAt := 900000000, validTo := 900000000 }],
    checkLogs := [checkInLog] }

/-- An appointment hosted by the sample host whose title and description do not
hold the text `budget`. -/
def lunchAppointment : Appointment :=
  { _id := 1, visitorId := 1, hostId := 7, title := "Lunch", description := some "Canteen",
    date := 5000, startTime := "12:00", endTime := "13:00",
    status := AppointmentStatus.pending, location := none, attendees := [], notes := none }

/-- A request for the appointments that match the text `budget`. -/
def searchBudget : AppointmentsParams :=
  { page := none, limit := none, status := none, visitorId := none, date := none,
    search := some "budget" }


/-! ## Lemmas on the store primitives -/

theorem le_foldr_max (ids : List ObjId) : ∀ x ∈ ids, x ≤ ids.foldr max 0 := by
  induction ids with
  | nil => intro x hx; cases hx
  | cons y ys ih =>
    intro x hx
    rcases List.mem_cons.mp hx with h | h
    · subst h; exact le_max_left _ _
    · exact le_trans (ih x h) (le_max_right _ _)

theorem lt_freshId (ids : List ObjId) : ∀ x ∈ ids, x < freshId ids := by
  intro x hx
  exact Nat.lt_succ_of_le (le_foldr_max ids x hx)

theorem replaceFirst_length {α : Type} (q : α → Bool) (a : α) (l : List α) :
    (replaceFirst q a l).length = l.length := by
  induction l with
  | nil => rfl
  | cons x xs ih =>
    unfold replaceFirst
    split
    · simp
    · simp [ih]

theorem replaceFirst_of_find_none {α : Type} (q : α → Bool) (a : α) (l : List α)
    (h : l.find? q = none) : replaceFirst q a l = l := by
  induction l with
  | nil => rfl
  | cons x xs ih =>
    unfold replaceFirst
    by_cases hq : q x = true
    · simp [List.find?, hq] at h
    · have hq1 : q x = false := by simpa using hq
      have hrest : xs.find? q = none := by simpa [List.find?, hq1] using h
      simp [hq1, ih hrest]

theorem replaceFirst_append_last {α : Type} (q : α → Bool) (a b : α) (l : List α)
    (hl : ∀ x ∈ l, q x = false) (hb : q b = true) :
    replaceFirst q a (l ++ [b]) = l ++ [a] := by
  induction l with
  | nil => simp [replaceFirst, hb]
  | cons x xs ih =>
    have hx : q x = false := hl x (List.mem_cons_self _ _)
    have hxs : ∀ y ∈ xs, q y = false := fun y hy => hl y (List.mem_cons_of_mem _ hy)
    simp [replaceFirst, hx, ih hxs]

theorem blockingCount_cons (visitorId : ObjId) (p : Pass) (l : List Pass) :
    blockingCount visitorId (p :: l) =
      (if (p.visitorId == visitorId && p.status.blocking) = true then 1 else 0) +
        blockingCount visitorId l := by
  unfold blockingCount
  by_cases h : (p.visitorId == visitorId && p.status.blocking) = true
  · simp [List.filter, h, Nat.add_comm]
  · simp [List.filter, h]

theorem blockingCount_append (visitorId : ObjId) (l₁ l₂ : List Pass) :
    blockingCount visitorId (l₁ ++ l₂) =
      blockingCount visitorId l₁ + blockingCount visitorId l₂ := by
  simp [blockingCount]

theorem blockingCount_eq_zero_of_find_none (visitorId : ObjId) (l : List Pass)
    (h : l.find? (fun p => p.visitorId == visitorId && p.status.blocking) = none) :
    blockingCount visitorId l = 0 := by
  unfold blockingCount
  rw [List.length_eq_zero, List.filter_eq_nil_iff]
  intro a ha
  have := List.find?_eq_none.mp h a ha
  simpa using this

/-- Rewriting the first pass that has a given identifier with a pass that
counts for a visitor only if the old one did cannot raise any count. -/
theorem blockingCount_replaceFirst_le (visitorId : ObjId) (q : Pass → Bool)
    (old new : Pass) (l : List Pass) (hfind : l.find? q = some old)
    (hcount : (new.visitorId == visitorId && new.status.blocking) = true →
      (old.visitorId == visitorId && old.status.blocking) = true) :
    blockingCount visitorId (replaceFirst q new l) ≤ blockingCount visitorId l := by
  induction l with
  | nil => simp [List.find?] at hfind
  | cons x xs ih =>
    by_cases hq : q x = true
    · have hx : x = old := by simpa [List.find?, hq] using hfind
      subst hx
      simp only [replaceFirst, hq, if_true, blockingCount_cons]
      by_cases hn : (new.visitorId == visitorId && new.status.blocking) = true
      · simp [hn, hcount hn]
      · simp [hn]
    · have hq' : q x = false := by simpa using hq
      have hrest : xs.find? q = some old := by simpa [List.find?, hq'] using hfind
      simp only [replaceFirst, hq', blockingCount_cons]
      have := ih hrest
      simp only [Bool.false_eq_true, if_false, blockingCount_cons]
      omega

theorem find_replaceFirst {α : Type} (q : α → Bool) (a old : α) (l : List α)
    (hfind : l.find? q = some old) (ha : q a = true) :
    (replaceFirst q a l).find? q = some a := by
  induction l with
  | nil => simp [List.find?] at hfind
  | cons x xs ih =>
    by_cases hq : q x = true
    · simp [replaceFirst, hq, List.find?, ha]
    · have hq1 : q x = false := by simpa using hq
      have hrest : xs.find? q = some old := by simpa [List.find?, hq1] using hfind
      simp [replaceFirst, hq1, List.find?, ih hrest]

/-- The first match splits the list, and `replaceFirst` rewrites that one
position. -/
theorem replaceFirst_split {α : Type} (q : α → Bool) (a old : α) (l : List α)
    (hfind : l.find? q = some old) :
    ∃ before after, l = before ++ old :: after ∧
      replaceFirst q a l = before ++ a :: after ∧ ∀ y ∈ before, q y = false := by
  induction l with
  | nil => simp [List.find?] at hfind
  | cons x xs ih =>
    by_cases hq : q x = true
    · have hx : x = old := by simpa [List.find?, hq] using hfind
      subst hx
      exact ⟨[], xs, rfl, by simp [replaceFirst, hq], by simp⟩
    · have hq1 : q x = false := by simpa using hq
      have hrest : xs.find? q = some old := by simpa [List.find?, hq1] using hfind
      obtain ⟨before, after, h1, h2, h3⟩ := ih hrest
      refine ⟨x :: before, after, by simp [h1], by simp [replaceFirst, hq1, h2], ?_⟩
      intro y hy
      rcases List.mem_cons.mp hy with h | h
      · subst h; exact hq1
      · exact h3 y h

/-! ## Lemmas on `issuePass` -/

theorem generatePassNumber_ne_empty (now : Time) (random36 : String) :
    generatePassNumber now random36 ≠ "" := by
  intro h
  have hlen := congrArg String.length h
  simp only [generatePassNumber, String.length_append] at hlen
  have h5 : "PASS-".length = 5 := by decide
  have h0 : "".length = 0 := by decide
  omega

/-- The document `issuePass` hands to its first `save` fails validation: its
`passNumber` is still empty when the validators run, so nothing is written. -/
theorem saveNewPass_issuePassDocument (env : Env) (user : User) (body : IssueBody)
    (s : Store) : s.saveNewPass env (issuePassDocument env user body s) = none := by
  simp [Store.saveNewPass, passValid, issuePassDocument]

/-- Past its three guards `issuePass` answers 500 and leaves the store as it
is. -/
theorem issuePass_past_guards (env : Env) (user : User) (body : IssueBody) (s : Store)
    (visitor : Visitor) (hv : s.findVisitor body.visitorId = some visitor)
    (ha : visitor.status = VisitorStatus.approved)
    (hb : s.findBlockingPass body.visitorId = none) :
    issuePass env user body s = (serverError, s) := by
  simp only [issuePass, hv, ha, hb, ne_eq, not_true_eq_false, if_false,
    saveNewPass_issuePassDocument]

/-- `issuePass` writes nothing, answers no 201 and carries no pass. -/
theorem issuePass_store (env : Env) (user : User) (body : IssueBody) (s : Store) :
    (issuePass env user body s).2 = s ∧ (issuePass env user body s).1.status ≠ 201 ∧
      (issuePass env user body s).1.pass = none := by
  cases hv : s.findVisitor body.visitorId with
  | none => simp [issuePass, hv]
  | some visitor =>
    by_cases ha : visitor.status = VisitorStatus.approved
    · cases hb : s.findBlockingPass body.visitorId with
      | some blocker => simp [issuePass, hv, ha, hb]
      | none =>
        rw [issuePass_past_guards env user body s visitor hv ha hb]
        exact ⟨rfl, by simp [serverError], rfl⟩
    · simp [issuePass, hv, ha]

/-! ## The one-pass-per-visitor invariant -/

theorem findPass_id (s : Store) (id : ObjId) (pass : Pass)
    (h : s.findPass id = some pass) : pass._id = id := by
  have := List.find?_some h
  simpa using this

theorem onePass_of_passes_eq (s s' : Store) (h : s'.passes = s.passes)
    (hinv : OnePassPerVisitor s) : OnePassPerVisitor s' := by
  intro v
  rw [h]
  exact hinv v

/-- Saving a loaded pass whose visitor is unchanged and whose status counts only
if it did before keeps the invariant. -/
theorem savePass_preserves (s : Store) (id : ObjId) (old new : Pass)
    (hfind : s.findPass id = some old) (hid : new._id = old._id)
    (hvis : new.visitorId = old.visitorId)
    (hst : new.status.blocking = true → old.status.blocking = true)
    (hinv : OnePassPerVisitor s) : OnePassPerVisitor (s.savePass new) := by
  intro v
  have hold := findPass_id s id old hfind
  have hq : s.passes.find? (fun x => x._id == new._id) = some old := by
    rw [hid, hold]; exact hfind
  refine le_trans (blockingCount_replaceFirst_le v _ old new s.passes hq ?_) (hinv v)
  intro h
  simp only [Bool.and_eq_true] at h ⊢
  exact ⟨by rw [← hvis]; exact h.1, hst h.2⟩

theorem issuePass_preserves (env : Env) (user : User) (body : IssueBody) (s : Store)
    (hinv : OnePassPerVisitor s) : OnePassPerVisitor (issuePass env user body s).2 := by
  rw [(issuePass_store env user body s).1]
  exact hinv

theorem revokePass_preserves (id : ObjId) (s : Store) (hinv : OnePassPerVisitor s) :
    OnePassPerVisitor (revokePass id s).2 := by
  cases hp : s.findPass id with
  | none => simpa [revokePass, hp] using hinv
  | some pass =>
    by_cases hr : pass.status = PassStatus.revoked
    · simpa [revokePass, hp, hr] using hinv
    · simp only [revokePass, hp, hr, if_false]
      exact savePass_preserves s id pass _ hp rfl rfl (by simp [PassStatus.blocking]) hinv

/-- The lazy expiry write keeps the invariant. -/
theorem expire_preserves (s : Store) (id : ObjId) (pass : Pass)
    (hp : s.findPass id = some pass) (hact : pass.status = PassStatus.active)
    (hinv : OnePassPerVisitor s) :
    OnePassPerVisitor (s.savePass { pass with status := PassStatus.expired }) :=
  savePass_preserves s id pass _ hp rfl rfl (by simp [hact, PassStatus.blocking]) hinv

/-- The store after `verifyPass`: the same store, or the looked-up active pass
rewritten as expired. -/
theorem verifyPass_store (now : Time) (qrData : QrData) (s : Store) :
    (verifyPass now qrData s).2 = s ∨
      ∃ payload id pass, qrData = QrData.json (JsonValue.object payload) ∧
        payload.passId = some id ∧ s.findPass id = some pass ∧
        pass.status = PassStatus.active ∧ pass.expiresAt < now ∧
        (verifyPass now qrData s).2 = s.savePass { pass with status := PassStatus.expired } := by
  cases qrData with
  | missing => left; rfl
  | malformed => left; rfl
  | json value =>
    cases value with
    | null => left; rfl
    | primitive => left; rfl
    | object payload =>
      cases hid : payload.passId with
      | none => left; simp [verifyPass, JsonValue.passId, hid, Store.findPassById]
      | some id =>
        cases hp : s.findPass id with
        | none => left; simp [verifyPass, JsonValue.passId, hid, Store.findPassById, hp]
        | some pass =>
          by_cases hact : pass.status = PassStatus.active
          · by_cases hexp : pass.expiresAt < now
            · right
              refine ⟨payload, id, pass, rfl, hid, hp, hact, hexp, ?_⟩
              simp [verifyPass, JsonValue.passId, hid, Store.findPassById, hp, hact, hexp]
            · left
              cases hv : s.findVisitor pass.visitorId with
              | none =>
                simp [verifyPass, JsonValue.passId, hid, Store.findPassById, hp, hact, hexp, hv]
              | some visitor =>
                by_cases ha : visitor.status = VisitorStatus.approved
                · simp [verifyPass, JsonValue.passId, hid, Store.findPassById, hp, hact, hexp,
                    hv, ha]
                · simp [verifyPass, JsonValue.passId, hid, Store.findPassById, hp, hact, hexp,
                    hv, ha]
          · left
            simp [verifyPass, JsonValue.passId, hid, Store.findPassById, hp, hact]

theorem verifyPass_preserves (now : Time) (qrData : QrData) (s : Store)
    (hinv : OnePassPerVisitor s) : OnePassPerVisitor (verifyPass now qrData s).2 := by
  rcases verifyPass_store now qrData s with h | ⟨_, id, pass, _, _, hp, hact, _, h⟩
  · rw [h]; exact hinv
  · rw [h]; exact expire_preserves s id pass hp hact hinv

/-- The pass collection after `checkInVisitor`: unchanged, or the scanned
active pass rewritten as expired. -/
theorem checkInVisitor_passes (now : Time) (user : User) (body : CheckInBody) (s : Store) :
    (checkInVisitor now user body s).2.passes = s.passes ∨
      ∃ id pass, s.findPass id = some pass ∧ pass.status = PassStatus.active ∧
        pass.expiresAt < now ∧
        (checkInVisitor now user body s).2 =
          s.savePass { pass with status := PassStatus.expired } := by
  obtain ⟨qrData, location, temperature, notes⟩ := body
  cases qrData with
  | missing => left; rfl
  | malformed => left; rfl
  | json value =>
    cases value with
    | null => left; rfl
    | primitive => left; rfl
    | object payload =>
      cases hid : payload.passId with
      | none => left; simp [checkInVisitor, JsonValue.passId, hid, Store.findPassById]
      | some id =>
        cases hp : s.findPass id with
        | none => left; simp [checkInVisitor, JsonValue.passId, hid, Store.findPassById, hp]
        | some pass =>
          by_cases hact : pass.status = PassStatus.active
          · by_cases hexp : pass.expiresAt < now
            · right
              refine ⟨id, pass, hp, hact, hexp, ?_⟩
              simp [checkInVisitor, JsonValue.passId, hid, Store.findPassById, hp, hact, hexp]
            · left
              cases hv : s.findVisitor pass.visitorId with
              | none =>
                simp [checkInVisitor, JsonValue.passId, hid, Store.findPassById, hp, hact,
                  hexp, hv]
              | some visitor =>
                by_cases hin : alreadyCheckedIn (s.findExistingCheckIn now visitor._id) = true
                · simp [checkInVisitor, JsonValue.passId, hid, Store.findPassById, hp, hact,
                    hexp, hv, hin]
                · cases hval : temperatureValid temperature <;>
                    simp [checkInVisitor, JsonValue.passId, hid, Store.findPassById, hp, hact,
                      hexp, hv, hin, checkLogValid, hval, Store.insertCheckLog,
                      Store.saveVisitor]
          · left
            simp [checkInVisitor, JsonValue.passId, hid, Store.findPassById, hp, hact]

theorem checkInVisitor_preserves (now : Time) (user : User) (body : CheckInBody) (s : Store)
    (hinv : OnePassPerVisitor s) :
    OnePassPerVisitor (checkInVisitor now user body s).2 := by
  rcases checkInVisitor_passes now user body s with h | ⟨id, pass, hp, hact, _, h⟩
  · exact onePass_of_passes_eq s _ h hinv
  · rw [h]; exact expire_preserves s id pass hp hact hinv

/-- `checkOutVisitor` writes no pass. -/
theorem checkOutVisitor_passes (now : Time) (user : User) (body : CheckOutBody) (s : Store) :
    (checkOutVisitor now user body s).2.passes = s.passes := by
  unfold checkOutVisitor
  repeat' split
  all_goals rfl

theorem checkOutVisitor_preserves (now : Time) (user : User) (body : CheckOutBody)
    (s : Store) (hinv : OnePassPerVisitor s) :
    OnePassPerVisitor (checkOutVisitor now user body s).2 :=
  onePass_of_passes_eq s _ (checkOutVisitor_passes now user body s) hinv

theorem apply_preserves (op : Op) (s : Store) (hinv : OnePassPerVisitor s) :
    OnePassPerVisitor (op.apply s) := by
  cases op with
  | issue env user body => exact issuePass_preserves env user body s hinv
  | revoke id => exact revokePass_preserves id s hinv
  | verify now qrData => exact verifyPass_preserves now qrData s hinv
  | checkIn now user body => exact checkInVisitor_preserves now user body s hinv
  | checkOut now user body => exact checkOutVisitor_preserves now user body s hinv

/-! ## Claims on issuance -/

/-- C1 (the code departs from the claim): `issuePass` builds the payload of the
QR code from `passData` before the pass document exists, and never builds it
again.  The payload the document's `qrCode` encodes therefore carries no pass
identifier and an empty pass number, which is not the number the `pre('save')`
hook generates for the document, and `verifyPass` on that payload answers 404
`Pass not found` at every time and on every store. -/
theorem issued_qr_payload_names_no_pass (env : Env) (user : User) (body : IssueBody)
    (now : Time) (s s' : Store) :
    (issuePassDocument env user body s).qrCode =
        (generatePassQR env.token (issuePassData env body)).1 ∧
      (issuePassDocument env user body s).qrCode.passId = none ∧
      (issuePassDocument env user body s).qrCode.passId ≠
        some (issuePassDocument env user body s)._id ∧
      (issuePassDocument env user body s).qrCode.passNumber = some "" ∧
      (issuePassDocument env user body s).qrCode.passNumber ≠
        some (passPreSave env (issuePassDocument env user body s)).passNumber ∧
      verifyPass now
          (QrData.json (JsonValue.object (issuePassDocument env user body s).qrCode)) s' =
        ({ status := 404, message := "Pass not found" }, s') := by
  refine ⟨rfl, rfl, by simp [issuePassDocument, generatePassQR, issuePassData], rfl, ?_, rfl⟩
  intro h
  have h1 : "" = generatePassNumber env.now env.random36 := by
    simpa [issuePassDocument, generatePassQR, issuePassData, passPreSave] using h
  exact generatePassNumber_ne_empty _ _ h1.symm

/-- C2: the property that each visitor has at most one pass whose status is
`active` or `expired` holds in every store reached from a store satisfying it by
a sequence of `issuePass`, `revokePass`, `verifyPass`, `checkInVisitor` and
`checkOutVisitor` calls executed one at a time. -/
theorem one_pass_per_visitor_reachable (ops : List Op) (s : Store)
    (hinv : OnePassPerVisitor s) : OnePassPerVisitor (run ops s) := by
  induction ops generalizing s with
  | nil => exact hinv
  | cons op ops ih => exact ih (op.apply s) (apply_preserves op s hinv)

theorem one_pass_per_visitor_reachable_witness :
    OnePassPerVisitor (storeWith PassStatus.active VisitorStatus.approved) ∧
      OnePassPerVisitor
        (run [Op.checkIn 6000 sampleUser sampleCheckIn,
              Op.issue sampleEnv sampleUser sampleIssue,
              Op.verify 9500 (QrData.json (JsonValue.object samplePayload)),
              Op.issue sampleEnv sampleUser sampleIssue,
              Op.checkOut 9600 sampleUser sampleCheckOut,
              Op.revoke 1,
              Op.issue sampleEnv sampleUser sampleIssue]
          (storeWith PassStatus.active VisitorStatus.approved)) :=
  ⟨fun _ => List.length_filter_le _ _,
    one_pass_per_visitor_reachable _ (storeWith PassStatus.active VisitorStatus.approved)
      (fun _ => List.length_filter_le _ _)⟩

/-- C3: `issuePass` answers 404 `Visitor not found` when no visitor has the
given identifier; otherwise 400 when the visitor is not approved; otherwise 400
when some pass of that visitor is `active` or `expired`; in the three cases the
store is unchanged and the answer carries no pass. -/
theorem issuePass_rejections (env : Env) (user : User) (body : IssueBody) (s : Store) :
    (s.findVisitor body.visitorId = none →
      issuePass env user body s =
        ({ status := 404, message := "Visitor not found" }, s)) ∧
    (∀ visitor, s.findVisitor body.visitorId = some visitor →
      visitor.status ≠ VisitorStatus.approved →
      issuePass env user body s =
        ({ status := 400, message := "Visitor must be approved before issuing pass" }, s)) ∧
    (∀ visitor, s.findVisitor body.visitorId = some visitor →
      visitor.status = VisitorStatus.approved →
      (∃ p ∈ s.passes, p.visitorId = body.visitorId ∧
        (p.status = PassStatus.active ∨ p.status = PassStatus.expired)) →
      issuePass env user body s =
        ({ status := 400, message := "Active pass already exists for this visitor" }, s)) := by
  refine ⟨?_, ?_, ?_⟩
  · intro hv
    simp [issuePass, hv]
  · intro visitor hv ha
    simp [issuePass, hv, ha]
  · intro visitor hv ha hex
    obtain ⟨p, hp, hvis, hst⟩ := hex
    cases hb : s.findBlockingPass body.visitorId with
    | some blocker => simp [issuePass, hv, ha, hb]
    | none =>
      exfalso
      have := List.find?_eq_none.mp hb p hp
      rcases hst with h | h <;> simp [hvis, h, PassStatus.blocking] at this

theorem issuePass_rejections_witness :
    issuePass sampleEnv sampleUser { sampleIssue with visitorId := 2 } sampleStore =
        ({ status := 404, message := "Visitor not found" }, sampleStore) ∧
      issuePass sampleEnv sampleUser sampleIssue
          (storeWith PassStatus.revoked VisitorStatus.pending) =
        ({ status := 400, message := "Visitor must be approved before issuing pass" },
          storeWith PassStatus.revoked VisitorStatus.pending) ∧
      issuePass sampleEnv sampleUser sampleIssue
          (storeWith PassStatus.expired VisitorStatus.approved) =
        ({ status := 400, message := "Active pass already exists for this visitor" },
          storeWith PassStatus.expired VisitorStatus.approved) :=
  ⟨(issuePass_rejections sampleEnv sampleUser { sampleIssue with visitorId := 2 }
      sampleStore).1 rfl,
    (issuePass_rejections sampleEnv sampleUser sampleIssue
      (storeWith PassStatus.revoked VisitorStatus.pending)).2.1 _ rfl (by decide),
    (issuePass_rejections sampleEnv sampleUser sampleIssue
      (storeWith PassStatus.expired VisitorStatus.approved)).2.2 _ rfl rfl
      ⟨_, List.mem_singleton.mpr rfl, rfl, Or.inr rfl⟩⟩

/-- C4 (the code departs from the claim): the document `issuePass` saves has no
`passNumber` when it is validated, because the number is generated by the
`pre('save')` hook and the hook runs after validation.  So `issuePass` never
answers 201 and never writes, and for an approved visitor none of whose passes
is `active` or `expired` it answers 500 `Server error` with the store
unchanged. -/
theorem issuePass_persists_nothing :
    (∀ (env : Env) (user : User) (body : IssueBody) (s : Store),
        (issuePass env user body s).2 = s ∧ (issuePass env user body s).1.status ≠ 201) ∧
      sampleStore.findVisitor sampleIssue.visitorId = some sampleVisitor ∧
      sampleVisitor.status = VisitorStatus.approved ∧ sampleStore.passes = [] ∧
      issuePass sampleEnv sampleUser sampleIssue sampleStore =
        ({ status := 500, message := "Server error" }, sampleStore) ∧
      issuePass sampleEnv sampleUser sampleIssue
          (storeWith PassStatus.revoked VisitorStatus.approved) =
        ({ status := 500, message := "Server error" },
          storeWith PassStatus.revoked VisitorStatus.approved) := by
  refine ⟨fun env user body s => ⟨(issuePass_store env user body s).1,
    (issuePass_store env user body s).2.1⟩, rfl, rfl, rfl, ?_, ?_⟩
  · exact issuePass_past_guards sampleEnv sampleUser sampleIssue sampleStore sampleVisitor
      rfl rfl rfl
  · exact issuePass_past_guards sampleEnv sampleUser sampleIssue
      (storeWith PassStatus.revoked VisitorStatus.approved)
      { sampleVisitor with status := VisitorStatus.approved } rfl rfl rfl

/-! ## Claims on verification -/

/-- The answer of `verifyPass` once the payload names a pass. -/
theorem verifyPass_found (now : Time) (payload : QrPayload) (id : ObjId) (pass : Pass)
    (s : Store) (hid : payload.passId = some id) (hp : s.findPass id = some pass) :
    verifyPass now (QrData.json (JsonValue.object payload)) s =
      if pass.status ≠ PassStatus.active then
        ({ status := 400, message := "Pass is " ++ pass.status.text, pass := some pass }, s)
      else if pass.expiresAt < now then
        ({ status := 400, message := "Pass has expired",
           pass := some { pass with status := PassStatus.expired } },
          s.savePass { pass with status := PassStatus.expired })
      else
        match s.findVisitor pass.visitorId with
        | none => (serverError, s)
        | some visitor =>
          if visitor.status ≠ VisitorStatus.approved then
            ({ status := 400, message := "Visitor is not approved", pass := some pass }, s)
          else
            ({ status := 200, message := "Pass is valid", pass := some pass,
               visitor := some visitor }, s) := by
  simp only [verifyPass, JsonValue.passId, hid, Store.findPassById, Option.bind, hp]

/-- C5: `verifyPass` answers 200 exactly when the payload's `passId` names an
existing pass whose status is `active`, the current time is not later than
`expiresAt`, and the owning visitor's status is `approved`; the answer is then
`Pass is valid` with that pass and visitor.  When the pass conditions hold and
the visitor has another status the answer is 400 `Visitor is not approved` and
the store is unchanged. -/
theorem verifyPass_valid_iff (now : Time) (qrData : QrData) (s : Store) :
    ((verifyPass now qrData s).1.status = 200 ↔
      ∃ payload id pass visitor, qrData = QrData.json (JsonValue.object payload) ∧
        payload.passId = some id ∧ s.findPass id = some pass ∧
        pass.status = PassStatus.active ∧ now ≤ pass.expiresAt ∧
        s.findVisitor pass.visitorId = some visitor ∧
        visitor.status = VisitorStatus.approved) ∧
    (∀ payload id pass visitor, qrData = QrData.json (JsonValue.object payload) →
      payload.passId = some id → s.findPass id = some pass →
      pass.status = PassStatus.active → now ≤ pass.expiresAt →
      s.findVisitor pass.visitorId = some visitor →
      (visitor.status = VisitorStatus.approved →
        verifyPass now qrData s =
          ({ status := 200, message := "Pass is valid", pass := some pass,
             visitor := some visitor }, s)) ∧
      (visitor.status ≠ VisitorStatus.approved →
        verifyPass now qrData s =
          ({ status := 400, message := "Visitor is not approved", pass := some pass }, s))) := by
  have hsecond : ∀ payload id pass visitor,
      qrData = QrData.json (JsonValue.object payload) →
      payload.passId = some id → s.findPass id = some pass →
      pass.status = PassStatus.active → now ≤ pass.expiresAt →
      s.findVisitor pass.visitorId = some visitor →
      (visitor.status = VisitorStatus.approved →
        verifyPass now qrData s =
          ({ status := 200, message := "Pass is valid", pass := some pass,
             visitor := some visitor }, s)) ∧
      (visitor.status ≠ VisitorStatus.approved →
        verifyPass now qrData s =
          ({ status := 400, message := "Visitor is not approved", pass := some pass }, s)) := by
    intro payload id pass visitor hq hid hp hact hle hv
    subst hq
    have hexp : ¬ pass.expiresAt < now := not_lt.mpr hle
    rw [verifyPass_found now payload id pass s hid hp]
    constructor
    · intro ha
      simp [hact, hexp, hv, ha]
    · intro ha
      simp [hact, hexp, hv, ha]
  refine ⟨⟨?_, ?_⟩, hsecond⟩
  · intro h200
    cases qrData with
    | missing => simp [verifyPass] at h200
    | malformed => simp [verifyPass] at h200
    | json value =>
      cases value with
      | null => simp [verifyPass, JsonValue.passId, serverError] at h200
      | primitive => simp [verifyPass, JsonValue.passId, Store.findPassById] at h200
      | object payload =>
        cases hid : payload.passId with
        | none => simp [verifyPass, JsonValue.passId, hid, Store.findPassById] at h200
        | some id =>
          cases hp : s.findPass id with
          | none => simp [verifyPass, JsonValue.passId, hid, Store.findPassById, hp] at h200
          | some pass =>
            rw [verifyPass_found now payload id pass s hid hp] at h200
            by_cases hact : pass.status = PassStatus.active
            · by_cases hexp : pass.expiresAt < now
              · simp [hact, hexp] at h200
              · cases hv : s.findVisitor pass.visitorId with
                | none => simp [hact, hexp, hv, serverError] at h200
                | some visitor =>
                  by_cases ha : visitor.status = VisitorStatus.approved
                  · exact ⟨payload, id, pass, visitor, rfl, hid, hp, hact,
                      not_lt.mp hexp, hv, ha⟩
                  · simp [hact, hexp, hv, ha] at h200
            · simp [hact] at h200
  · rintro ⟨payload, id, pass, visitor, hq, hid, hp, hact, hle, hv, ha⟩
    rw [(hsecond payload id pass visitor hq hid hp hact hle hv).1 ha]

theorem verifyPass_valid_iff_witness :
    verifyPass 9000 (QrData.json (JsonValue.object samplePayload))
        (storeWith PassStatus.active VisitorStatus.approved) =
      ({ status := 200, message := "Pass is valid", pass := some samplePass,
         visitor := some sampleVisitor },
        storeWith PassStatus.active VisitorStatus.approved) ∧
    verifyPass 9000 (QrData.json (JsonValue.object samplePayload))
        (storeWith PassStatus.active VisitorStatus.checked_in) =
      ({ status := 400, message := "Visitor is not approved", pass := some samplePass },
        storeWith PassStatus.active VisitorStatus.checked_in) :=
  ⟨((verifyPass_valid_iff 9000 (QrData.json (JsonValue.object samplePayload))
      (storeWith PassStatus.active VisitorStatus.approved)).2
      samplePayload 1 samplePass sampleVisitor rfl rfl rfl rfl (by decide) rfl).1 rfl,
    ((verifyPass_valid_iff 9000 (QrData.json (JsonValue.object samplePayload))
      (storeWith PassStatus.active VisitorStatus.checked_in)).2
      samplePayload 1 samplePass { sampleVisitor with status := VisitorStatus.checked_in }
      rfl rfl rfl rfl (by decide) rfl).2 (by decide)⟩

/-- C6: for a pass whose status is not `active`, `verifyPass` answers 400 with
the message `Pass is ` followed by the pass's status and leaves the store
unchanged, whatever the current time, `expiresAt` and the visitor's status. -/
theorem verifyPass_inactive (now : Time) (payload : QrPayload) (id : ObjId) (pass : Pass)
    (s : Store) (hid : payload.passId = some id) (hp : s.findPass id = some pass)
    (hst : pass.status ≠ PassStatus.active) :
    verifyPass now (QrData.json (JsonValue.object payload)) s =
      ({ status := 400, message := "Pass is " ++ pass.status.text, pass := some pass }, s) := by
  rw [verifyPass_found now payload id pass s hid hp]
  simp [hst]

theorem verifyPass_inactive_witness :
    verifyPass 9500 (QrData.json (JsonValue.object samplePayload))
        (storeWith PassStatus.revoked VisitorStatus.rejected) =
      ({ status := 400, message := "Pass is revoked",
         pass := some { samplePass with status := PassStatus.revoked } },
        storeWith PassStatus.revoked VisitorStatus.rejected) :=
  verifyPass_inactive 9500 samplePayload 1 { samplePass with status := PassStatus.revoked }
    (storeWith PassStatus.revoked VisitorStatus.rejected) rfl rfl (by decide)

/-- C7: for an `active` pass and a current time strictly later than
`expiresAt`, `verifyPass` answers 400 `Pass has expired` and the store differs
by that pass being saved with status `expired`, so that looking the pass up
afterwards returns it as `expired`; the visitor is not consulted. -/
theorem verifyPass_expires (now : Time) (payload : QrPayload) (id : ObjId) (pass : Pass)
    (s : Store) (hid : payload.passId = some id) (hp : s.findPass id = some pass)
    (hact : pass.status = PassStatus.active) (hexp : pass.expiresAt < now) :
    (verifyPass now (QrData.json (JsonValue.object payload)) s).1 =
        { status := 400, message := "Pass has expired",
          pass := some { pass with status := PassStatus.expired } } ∧
      (verifyPass now (QrData.json (JsonValue.object payload)) s).2 =
        s.savePass { pass with status := PassStatus.expired } ∧
      (verifyPass now (QrData.json (JsonValue.object payload)) s).2.findPass id =
        some { pass with status := PassStatus.expired } := by
  have hpid := findPass_id s id pass hp
  rw [verifyPass_found now payload id pass s hid hp]
  simp only [hact, ne_eq, not_true_eq_false, if_false, hexp, if_true, true_and]
  show (replaceFirst (fun x => x._id == pass._id) _ s.passes).find?
    (fun p => p._id == id) = _
  rw [hpid]
  exact find_replaceFirst _ _ pass s.passes hp (by simp [hpid])

theorem verifyPass_expires_witness :
    (verifyPass 9001 (QrData.json (JsonValue.object samplePayload))
        (storeWith PassStatus.active VisitorStatus.rejected)).1 =
        { status := 400, message := "Pass has expired",
          pass := some { samplePass with status := PassStatus.expired } } ∧
      (verifyPass 9001 (QrData.json (JsonValue.object samplePayload))
        (storeWith PassStatus.active VisitorStatus.rejected)).2 =
        (storeWith PassStatus.active VisitorStatus.rejected).savePass
          { samplePass with status := PassStatus.expired } ∧
      (verifyPass 9001 (QrData.json (JsonValue.object samplePayload))
        (storeWith PassStatus.active VisitorStatus.rejected)).2.findPass 1 =
        some { samplePass with status := PassStatus.expired } :=
  verifyPass_expires 9001 samplePayload 1 samplePass
    (storeWith PassStatus.active VisitorStatus.rejected) rfl rfl rfl (by decide)

/-- C8: `verifyPass` leaves the store as it is, or rewrites exactly one record:
the looked-up pass, whose status goes from `active` to `expired` with every
other field kept; visitors, check logs and every other pass are unchanged, and
nothing is created or deleted. -/
theorem verifyPass_frame (now : Time) (qrData : QrData) (s : Store) :
    (verifyPass now qrData s).2 = s ∨
      ∃ payload id pass before after,
        qrData = QrData.json (JsonValue.object payload) ∧ payload.passId = some id ∧
        s.findPass id = some pass ∧ pass.status = PassStatus.active ∧
        s.passes = before ++ pass :: after ∧
        (∀ other ∈ before, other._id ≠ id) ∧
        (verifyPass now qrData s).2 =
          { visitors := s.visitors
            passes := before ++ { pass with status := PassStatus.expired } :: after
            checkLogs := s.checkLogs } := by
  rcases verifyPass_store now qrData s with h | ⟨payload, id, pass, hq, hid, hp, hact, _, h⟩
  · exact Or.inl h
  · right
    have hpid := findPass_id s id pass hp
    obtain ⟨before, after, h1, h2, h3⟩ :=
      replaceFirst_split (fun x : Pass => x._id == id)
        { pass with status := PassStatus.expired } pass s.passes hp
    refine ⟨payload, id, pass, before, after, hq, hid, hp, hact, h1, ?_, ?_⟩
    · intro other ho
      simpa using h3 other ho
    · rw [h]
      subst hpid
      simp only [Store.savePass, h2]

/-- C9 (the code departs from the claim): when `qrData` is the JSON text
`null`, reading `passId` of the parsed value throws, and `verifyPass`,
`checkInVisitor` and `checkOutVisitor` answer 500 `Server error` on every
store. -/
theorem json_null_answers_server_error (now : Time) (user : User) (s : Store) :
    (verifyPass now (QrData.json JsonValue.null) s).1 =
        { status := 500, message := "Server error" } ∧
      (checkInVisitor now user
        { qrData := QrData.json JsonValue.null, location := none, temperature := none,
          notes := none } s).1 = { status := 500, message := "Server error" } ∧
      (checkOutVisitor now user
        { qrData := QrData.json JsonValue.null, location := none, notes := none } s).1 =
        { status := 500, message := "Server error" } :=
  ⟨rfl, rfl, rfl⟩

/-- C10 (the code departs from the claim): in the store where the visitor
checked in at 95000000 and out at 96000000, the most recent log of the visitor
within 24 hours of 100000000 is the check-out, the scanned pass is active and
unexpired, and `checkInVisitor` still answers 400
`Visitor is already checked in` and writes nothing. -/
theorem checkIn_after_checkOut_rejected :
    latestLog (returningStore.checkLogs.filter
        (fun l => l.visitorId == 1 && decide (100000000 - dayMs ≤ l.timestamp))) =
      some checkOutLog ∧
    checkOutLog.type = CheckType.check_out ∧
    returningStore.findPass 1 = some longPass ∧
    longPass.status = PassStatus.active ∧ (100000000 : Time) ≤ longPass.expiresAt ∧
    checkInVisitor 100000000 sampleUser sampleCheckIn returningStore =
      ({ status := 400, message := "Visitor is already checked in" }, returningStore) := by
  refine ⟨by decide, rfl, rfl, rfl, by decide, by decide⟩

/-! ## Lemmas on `checkInVisitor` and `checkOutVisitor` -/

theorem findVisitor_id (s : Store) (id : ObjId) (visitor : Visitor)
    (h : s.findVisitor id = some visitor) : visitor._id = id := by
  have := List.find?_some h
  simpa using this

theorem latestLog_mem (logs : List CheckLog) (x : CheckLog)
    (h : latestLog logs = some x) : x ∈ logs := by
  induction logs generalizing x with
  | nil => simp [latestLog] at h
  | cons l ls ih =>
    unfold latestLog at h
    cases hm : latestLog ls with
    | none =>
      simp only [hm, Option.some.injEq] at h
      subst h; exact List.mem_cons_self _ _
    | some m =>
      simp only [hm] at h
      split at h
      · simp only [Option.some.injEq] at h
        subst h; exact List.mem_cons_of_mem _ (ih m hm)
      · simp only [Option.some.injEq] at h
        subst h; exact List.mem_cons_self _ _

theorem latestLog_eq_none (logs : List CheckLog) (h : latestLog logs = none) :
    logs = [] := by
  cases logs with
  | nil => rfl
  | cons l ls =>
    unfold latestLog at h
    cases hm : latestLog ls with
    | none => simp [hm] at h
    | some m =>
      simp only [hm] at h
      split at h <;> simp at h

theorem checkInQuery_iff (now : Time) (visitorId : ObjId) (l : CheckLog) :
    checkInQuery now visitorId l = true ↔
      l.visitorId = visitorId ∧ l.type = CheckType.check_in ∧ now - dayMs ≤ l.timestamp := by
  unfold checkInQuery
  constructor
  · intro h
    simp only [Bool.and_eq_true, Bool.or_eq_true, beq_iff_eq, decide_eq_true_eq] at h
    obtain ⟨⟨h1, h2⟩, h3⟩ := h
    refine ⟨h1, h2, ?_⟩
    rcases h3 with h3 | ⟨_, h3⟩ <;> exact h3
  · rintro ⟨h1, h2, h3⟩
    simp [h1, h2, h3]

/-- The guard of `checkInVisitor` fires exactly when the visitor has a log of
type `check_in` with a timestamp in the trailing 24 hours. -/
theorem alreadyCheckedIn_iff (s : Store) (now : Time) (visitorId : ObjId) :
    alreadyCheckedIn (s.findExistingCheckIn now visitorId) = true ↔
      ∃ l ∈ s.checkLogs, l.visitorId = visitorId ∧ l.type = CheckType.check_in ∧
        now - dayMs ≤ l.timestamp := by
  unfold Store.findExistingCheckIn
  constructor
  · intro h
    cases hl : latestLog (s.checkLogs.filter (checkInQuery now visitorId)) with
    | none => simp [hl, alreadyCheckedIn] at h
    | some x =>
      have hx := latestLog_mem _ x hl
      rw [List.mem_filter] at hx
      exact ⟨x, hx.1, (checkInQuery_iff now visitorId x).mp hx.2⟩
  · rintro ⟨l, hl, hq⟩
    have hmem : l ∈ s.checkLogs.filter (checkInQuery now visitorId) :=
      List.mem_filter.mpr ⟨hl, (checkInQuery_iff now visitorId l).mpr hq⟩
    cases hx : latestLog (s.checkLogs.filter (checkInQuery now visitorId)) with
    | none =>
      rw [latestLog_eq_none _ hx] at hmem
      cases hmem
    | some x =>
      have hx1 := latestLog_mem _ x hx
      rw [List.mem_filter] at hx1
      have := ((checkInQuery_iff now visitorId x).mp hx1.2).2.1
      simp [alreadyCheckedIn, this]

/-- The answer of `checkInVisitor` once the payload names a pass. -/
theorem checkInVisitor_found (now : Time) (user : User) (body : CheckInBody)
    (payload : QrPayload) (id : ObjId) (pass : Pass) (s : Store)
    (hq : body.qrData = QrData.json (JsonValue.object payload))
    (hid : payload.passId = some id) (hp : s.findPass id = some pass) :
    checkInVisitor now user body s =
      if pass.status ≠ PassStatus.active then
        ({ status := 400, message := "Pass is " ++ pass.status.text }, s)
      else if pass.expiresAt < now then
        ({ status := 400, message := "Pass has expired" },
          s.savePass { pass with status := PassStatus.expired })
      else
        match s.findVisitor pass.visitorId with
        | none => ({ status := 404, message := "Visitor not found" }, s)
        | some visitor =>
          if alreadyCheckedIn (s.findExistingCheckIn now visitor._id) = true then
            ({ status := 400, message := "Visitor is already checked in" }, s)
          else if temperatureValid body.temperature = true then
            ({ status := 201, message := "Visitor checked in successfully",
               checkLog := some (checkInLogOf now user body pass visitor s),
               visitor := some { visitor with status := VisitorStatus.checked_in,
                                              actualArrival := some now } },
              (s.insertCheckLog (checkInLogOf now user body pass visitor s)).saveVisitor
                { visitor with status := VisitorStatus.checked_in,
                               actualArrival := some now })
          else (serverError, s) := by
  simp only [checkInVisitor, hq, JsonValue.passId, hid, Store.findPassById, Option.bind, hp,
    checkInLogOf, checkLogValid]

/-- The answer of `checkOutVisitor` once the payload names a pass. -/
theorem checkOutVisitor_found (now : Time) (user : User) (body : CheckOutBody)
    (payload : QrPayload) (id : ObjId) (pass : Pass) (s : Store)
    (hq : body.qrData = QrData.json (JsonValue.object payload))
    (hid : payload.passId = some id) (hp : s.findPass id = some pass) :
    checkOutVisitor now user body s =
      match s.findVisitor pass.visitorId with
      | none => ({ status := 404, message := "Visitor not found" }, s)
      | some visitor =>
        if visitor.status ≠ VisitorStatus.checked_in then
          ({ status := 400, message := "Visitor is not checked in" }, s)
        else
          ({ status := 201, message := "Visitor checked out successfully",
             checkLog := some (checkOutLogOf now user body pass visitor s),
             visitor := some { visitor with status := VisitorStatus.checked_out,
                                            actualDeparture := some now } },
            (s.insertCheckLog (checkOutLogOf now user body pass visitor s)).saveVisitor
              { visitor with status := VisitorStatus.checked_out,
                             actualDeparture := some now }) := by
  simp only [checkOutVisitor, hq, JsonValue.passId, hid, Store.findPassById, Option.bind, hp,
    checkOutLogOf]

/-- A check-in answered 201 went through every guard. -/
theorem checkInVisitor_created (now : Time) (user : User) (body : CheckInBody) (s : Store)
    (h : (checkInVisitor now user body s).1.status = 201) :
    ∃ payload id pass visitor,
      body.qrData = QrData.json (JsonValue.object payload) ∧ payload.passId = some id ∧
      s.findPass id = some pass ∧ pass.status = PassStatus.active ∧
      now ≤ pass.expiresAt ∧ s.findVisitor pass.visitorId = some visitor ∧
      alreadyCheckedIn (s.findExistingCheckIn now visitor._id) = false ∧
      checkInVisitor now user body s =
        ({ status := 201, message := "Visitor checked in successfully",
           checkLog := some (checkInLogOf now user body pass visitor s),
           visitor := some { visitor with status := VisitorStatus.checked_in,
                                          actualArrival := some now } },
          (s.insertCheckLog (checkInLogOf now user body pass visitor s)).saveVisitor
            { visitor with status := VisitorStatus.checked_in,
                           actualArrival := some now }) := by
  obtain ⟨qrData, location, temperature, notes⟩ := body
  cases qrData with
  | missing => simp [checkInVisitor] at h
  | malformed => simp [checkInVisitor] at h
  | json value =>
    cases value with
    | null => simp [checkInVisitor, JsonValue.passId, serverError] at h
    | primitive => simp [checkInVisitor, JsonValue.passId, Store.findPassById] at h
    | object payload =>
      cases hid : payload.passId with
      | none => simp [checkInVisitor, JsonValue.passId, hid, Store.findPassById] at h
      | some id =>
        cases hp : s.findPass id with
        | none => simp [checkInVisitor, JsonValue.passId, hid, Store.findPassById, hp] at h
        | some pass =>
          have hf := checkInVisitor_found now user
            { qrData := QrData.json (JsonValue.object payload), location := location,
              temperature := temperature, notes := notes } payload id pass s rfl hid hp
          rw [hf] at h
          by_cases hact : pass.status = PassStatus.active
          · by_cases hexp : pass.expiresAt < now
            · simp [hact, hexp] at h
            · cases hv : s.findVisitor pass.visitorId with
              | none => simp [hact, hexp, hv] at h
              | some visitor =>
                by_cases hin : alreadyCheckedIn (s.findExistingCheckIn now visitor._id) = true
                · simp [hact, hexp, hv, hin] at h
                · by_cases hval : temperatureValid temperature = true
                  · refine ⟨payload, id, pass, visitor, rfl, hid, hp, hact, not_lt.mp hexp, hv,
                      by simpa using hin, ?_⟩
                    rw [hf]
                    simp [hact, hexp, hv, hin, hval]
                  · simp [hact, hexp, hv, hin, hval, serverError] at h
          · simp [hact] at h

/-- A check-in answered 201 carried no temperature or one within the range of
the schema. -/
theorem checkInVisitor_created_valid (now : Time) (user : User) (body : CheckInBody)
    (s : Store) (h : (checkInVisitor now user body s).1.status = 201) :
    temperatureValid body.temperature = true := by
  obtain ⟨payload, id, pass, visitor, hq, hid, hp, hact, hle, hv, hin, _⟩ :=
    checkInVisitor_created now user body s h
  rw [checkInVisitor_found now user body payload id pass s hq hid hp] at h
  by_cases hval : temperatureValid body.temperature = true
  · exact hval
  · simp [hact, not_lt.mpr hle, hv, hin, hval, serverError] at h

/-- C11: with an active, unexpired pass, `checkInVisitor` answers 400
`Visitor is already checked in` and leaves the store unchanged whenever the
store holds a `check_in` log of the visitor with a timestamp at or after the
current time minus 24 hours, whatever other logs there are.  When every
`check_in` log of the visitor is older than 24 hours the guard lets the call
through: the answer is not `Visitor is already checked in`, and it is 201 with
the check log appended unless the temperature of the request fails the range of
the schema, in which case it is 500 with nothing written. -/
theorem checkIn_blocked_within_window (now : Time) (user : User) (body : CheckInBody)
    (payload : QrPayload) (id : ObjId) (pass : Pass) (visitor : Visitor) (s : Store)
    (hq : body.qrData = QrData.json (JsonValue.object payload))
    (hid : payload.passId = some id) (hp : s.findPass id = some pass)
    (hact : pass.status = PassStatus.active) (hle : now ≤ pass.expiresAt)
    (hv : s.findVisitor pass.visitorId = some visitor) :
    ((∃ l ∈ s.checkLogs, l.visitorId = visitor._id ∧ l.type = CheckType.check_in ∧
        now - dayMs ≤ l.timestamp) →
      checkInVisitor now user body s =
        ({ status := 400, message := "Visitor is already checked in" }, s)) ∧
    ((∀ l ∈ s.checkLogs, l.visitorId = visitor._id → l.type = CheckType.check_in →
        l.timestamp < now - dayMs) →
      (checkInVisitor now user body s).1 ≠
          { status := 400, message := "Visitor is already checked in" } ∧
        (temperatureValid body.temperature = true →
          (checkInVisitor now user body s).1.status = 201 ∧
            (checkInVisitor now user body s).2.checkLogs =
              s.checkLogs ++ [checkInLogOf now user body pass visitor s]) ∧
        (temperatureValid body.temperature = false →
          checkInVisitor now user body s = ({ status := 500, message := "Server error" }, s))) := by
  have hexp : ¬ pass.expiresAt < now := not_lt.mpr hle
  rw [checkInVisitor_found now user body payload id pass s hq hid hp]
  constructor
  · intro hlog
    have hin := (alreadyCheckedIn_iff s now visitor._id).mpr hlog
    simp [hact, hexp, hv, hin]
  · intro hold
    have hin : ¬ alreadyCheckedIn (s.findExistingCheckIn now visitor._id) = true := by
      intro hin
      obtain ⟨l, hl, h1, h2, h3⟩ := (alreadyCheckedIn_iff s now visitor._id).mp hin
      exact absurd h3 (not_le.mpr (hold l hl h1 h2))
    refine ⟨?_, ?_, ?_⟩
    · cases hval : temperatureValid body.temperature <;>
        simp [hact, hexp, hv, hin, hval, serverError]
    · intro hval
      simp [hact, hexp, hv, hin, hval, Store.saveVisitor, Store.insertCheckLog]
    · intro hval
      simp [hact, hexp, hv, hin, hval, serverError]

theorem checkIn_blocked_within_window_witness :
    checkInVisitor 100000000 sampleUser sampleCheckIn returningStore =
        ({ status := 400, message := "Visitor is already checked in" }, returningStore) ∧
      (checkInVisitor 181400001 sampleUser sampleCheckIn returningStore).1.status = 201 ∧
      checkInVisitor 181400001 sampleUser { sampleCheckIn with temperature := some 20 }
          returningStore = ({ status := 500, message := "Server error" }, returningStore) :=
  ⟨(checkIn_blocked_within_window 100000000 sampleUser sampleCheckIn samplePayload 1
      longPass returningVisitor returningStore rfl rfl rfl rfl (by decide) rfl).1
      ⟨checkInLog, by decide, rfl, rfl, by decide⟩,
    (((checkIn_blocked_within_window 181400001 sampleUser sampleCheckIn samplePayload 1
      longPass returningVisitor returningStore rfl rfl rfl rfl (by decide) rfl).2
      (by decide)).2.1 rfl).1,
    ((checkIn_blocked_within_window 181400001 sampleUser
      { sampleCheckIn with temperature := some 20 } samplePayload 1
      longPass returningVisitor returningStore rfl rfl rfl rfl (by decide) rfl).2
      (by decide)).2.2 (by decide)⟩

theorem findVisitor_saveVisitor (s : Store) (id : ObjId) (old new : Visitor)
    (hfind : s.findVisitor id = some old) (hid : new._id = id) :
    (s.saveVisitor new).findVisitor id = some new := by
  show (replaceFirst (fun x => x._id == new._id) new s.visitors).find?
    (fun v => v._id == id) = some new
  rw [hid]
  exact find_replaceFirst _ new old s.visitors hfind (by simp [hid])

/-- C12: after a `checkInVisitor` answered 201 at time `t`, a second
`checkInVisitor` scanning the same pass at a time `t'` with `t ≤ t'`,
`t' ≤ t + 24h` and `t' ≤ pass.expiresAt`, run on the store the first call left,
answers 400 `Visitor is already checked in` and leaves that store unchanged. -/
theorem checkIn_twice_rejected (t t' : Time) (user user' : User)
    (body body' : CheckInBody) (payload payload' : QrPayload) (id : ObjId) (pass : Pass)
    (s : Store)
    (hq : body.qrData = QrData.json (JsonValue.object payload))
    (hid : payload.passId = some id)
    (hq' : body'.qrData = QrData.json (JsonValue.object payload'))
    (hid' : payload'.passId = some id)
    (hp : s.findPass id = some pass)
    (hfirst : (checkInVisitor t user body s).1.status = 201)
    (_hafter : t ≤ t') (hwindow : t' ≤ t + dayMs) (hvalid : t' ≤ pass.expiresAt) :
    checkInVisitor t' user' body' (checkInVisitor t user body s).2 =
      ({ status := 400, message := "Visitor is already checked in" },
        (checkInVisitor t user body s).2) := by
  obtain ⟨payload0, id0, pass0, visitor, hq0, hid0, hp0, hact, _, hv, _, hres⟩ :=
    checkInVisitor_created t user body s hfirst
  have hpay : payload0 = payload := by
    rw [hq] at hq0
    injection hq0 with h1
    injection h1 with h2
    exact h2.symm
  subst hpay
  have hidEq : id0 = id := by
    rw [hid] at hid0
    injection hid0 with h1
    exact h1.symm
  subst hidEq
  have hpassEq : pass0 = pass := by
    rw [hp] at hp0
    injection hp0 with h1
    exact h1.symm
  subst hpassEq
  rw [hres]
  have hvid := findVisitor_id s pass0.visitorId visitor hv
  have hp1 : ((s.insertCheckLog (checkInLogOf t user body pass0 visitor s)).saveVisitor
      { visitor with status := VisitorStatus.checked_in, actualArrival := some t }).findPass
        id0 = some pass0 := hp
  have hv1 : ((s.insertCheckLog (checkInLogOf t user body pass0 visitor s)).saveVisitor
      { visitor with status := VisitorStatus.checked_in, actualArrival := some t }).findVisitor
        pass0.visitorId =
        some { visitor with status := VisitorStatus.checked_in, actualArrival := some t } :=
    findVisitor_saveVisitor (s.insertCheckLog (checkInLogOf t user body pass0 visitor s))
      pass0.visitorId visitor _ hv hvid
  have hexp : ¬ pass0.expiresAt < t' := not_lt.mpr hvalid
  rw [checkInVisitor_found t' user' body' payload' id0 pass0 _ hq' hid' hp1]
  have hin := (alreadyCheckedIn_iff
    ((s.insertCheckLog (checkInLogOf t user body pass0 visitor s)).saveVisitor
      { visitor with status := VisitorStatus.checked_in, actualArrival := some t })
    t' visitor._id).mpr
    ⟨checkInLogOf t user body pass0 visitor s,
      by simp [Store.saveVisitor, Store.insertCheckLog], rfl, rfl,
      sub_le_iff_le_add.mpr hwindow⟩
  simp only [hact, ne_eq, not_true_eq_false, if_false, hexp, hv1, hin, if_true]

theorem checkIn_twice_rejected_witness :
    (checkInVisitor 6000 sampleUser sampleCheckIn
        (storeWith PassStatus.active VisitorStatus.approved)).1.status = 201 ∧
      checkInVisitor 9000 sampleUser sampleCheckIn
          (checkInVisitor 6000 sampleUser sampleCheckIn
            (storeWith PassStatus.active VisitorStatus.approved)).2 =
        ({ status := 400, message := "Visitor is already checked in" },
          (checkInVisitor 6000 sampleUser sampleCheckIn
            (storeWith PassStatus.active VisitorStatus.approved)).2) :=
  ⟨by decide,
    checkIn_twice_rejected 6000 9000 sampleUser sampleUser sampleCheckIn sampleCheckIn
      samplePayload samplePayload 1 samplePass
      (storeWith PassStatus.active VisitorStatus.approved) rfl rfl rfl rfl rfl
      (by decide) (by decide) (by decide) (by decide)⟩

/-- Saving a loaded visitor rewrites the one position it was loaded from. -/
theorem saveVisitor_split (s : Store) (id : ObjId) (old new : Visitor)
    (hfind : s.findVisitor id = some old) (hid : new._id = id) :
    ∃ before after, s.visitors = before ++ old :: after ∧
      (∀ other ∈ before, other._id ≠ id) ∧
      (s.saveVisitor new).visitors = before ++ new :: after := by
  obtain ⟨before, after, h1, h2, h3⟩ :=
    replaceFirst_split (fun x : Visitor => x._id == id) new old s.visitors hfind
  refine ⟨before, after, h1, ?_, ?_⟩
  · intro other ho
    simpa using h3 other ho
  · show replaceFirst (fun x => x._id == new._id) new s.visitors = _
    rw [hid]; exact h2

/-- C13: whenever `checkInVisitor` answers 201, the next store is the prior
store with one check log appended (type `check_in`, the visitor of the scanned
pass, the scanned pass, `checkedBy` the actor, method `qr_scan`, timestamp the
current time) and with the one visitor document of the pass rewritten with
status `checked_in` and `actualArrival` the current time; passes, the other
visitors and the existing check logs are as before. -/
theorem checkIn_created_effect (now : Time) (user : User) (body : CheckInBody) (s : Store)
    (h : (checkInVisitor now user body s).1.status = 201) :
    ∃ payload id pass visitor log before after,
      body.qrData = QrData.json (JsonValue.object payload) ∧ payload.passId = some id ∧
      s.findPass id = some pass ∧ s.findVisitor pass.visitorId = some visitor ∧
      s.visitors = before ++ visitor :: after ∧
      (∀ other ∈ before, other._id ≠ pass.visitorId) ∧
      log.type = CheckType.check_in ∧ log.visitorId = visitor._id ∧
      log.visitorId = pass.visitorId ∧ log.passId = pass._id ∧
      log.checkedBy = user._id ∧ log.method = CheckMethod.qr_scan ∧
      log.timestamp = now ∧
      (checkInVisitor now user body s).2 =
        { visitors :=
            before ++ { visitor with status := VisitorStatus.checked_in,
                                     actualArrival := some now } :: after
          passes := s.passes
          checkLogs := s.checkLogs ++ [log] } := by
  obtain ⟨payload, id, pass, visitor, hq, hid, hp, _, _, hv, _, hres⟩ :=
    checkInVisitor_created now user body s h
  have hvid := findVisitor_id s pass.visitorId visitor hv
  obtain ⟨before, after, h1, h2, h3⟩ :=
    saveVisitor_split (s.insertCheckLog (checkInLogOf now user body pass visitor s))
      pass.visitorId visitor
      { visitor with status := VisitorStatus.checked_in, actualArrival := some now } hv hvid
  refine ⟨payload, id, pass, visitor, checkInLogOf now user body pass visitor s, before, after,
    hq, hid, hp, hv, h1, h2, rfl, rfl, hvid, rfl, rfl, rfl, rfl, ?_⟩
  rw [hres]
  have h3' : replaceFirst (fun x : Visitor => x._id == visitor._id)
      { visitor with status := VisitorStatus.checked_in, actualArrival := some now }
      s.visitors =
      before ++ { visitor with status := VisitorStatus.checked_in,
                               actualArrival := some now } :: after := h3
  simp only [Store.saveVisitor, Store.insertCheckLog, h3']

theorem checkIn_created_effect_witness :
    (checkInVisitor 6000 sampleUser sampleCheckIn
        (storeWith PassStatus.active VisitorStatus.approved)).1.status = 201 ∧
      ∃ log : CheckLog, log.type = CheckType.check_in ∧ log.timestamp = 6000 ∧
        (checkInVisitor 6000 sampleUser sampleCheckIn
          (storeWith PassStatus.active VisitorStatus.approved)).2.checkLogs = [log] := by
  refine ⟨by decide, ?_⟩
  obtain ⟨_, _, _, _, log, _, _, _, _, _, _, _, _, h7, _, _, _, _, _, h13, hstore⟩ :=
    checkIn_created_effect 6000 sampleUser sampleCheckIn
      (storeWith PassStatus.active VisitorStatus.approved) (by decide)
  exact ⟨log, h7, h13, by rw [hstore]; rfl⟩

/-- C14: `checkInVisitor` answers 404 `Pass not found` with the store unchanged
when the payload names no pass; 400 `Pass is ` followed by the status with the
store unchanged when the pass is not `active`, whatever the time; and 400
`Pass has expired` when the pass is `active` and the current time is later than
`expiresAt`, the store then differing only by that pass being `expired`.  None
of the three depends on the check logs or the visitor, and none appends a check
log or writes a visitor. -/
theorem checkIn_pass_rejections (now : Time) (user : User) (body : CheckInBody)
    (payload : QrPayload) (s : Store)
    (hq : body.qrData = QrData.json (JsonValue.object payload)) :
    (s.findPassById payload.passId = none →
      checkInVisitor now user body s =
        ({ status := 404, message := "Pass not found" }, s)) ∧
    (∀ id pass, payload.passId = some id → s.findPass id = some pass →
      pass.status ≠ PassStatus.active →
      checkInVisitor now user body s =
        ({ status := 400, message := "Pass is " ++ pass.status.text }, s)) ∧
    (∀ id pass, payload.passId = some id → s.findPass id = some pass →
      pass.status = PassStatus.active → pass.expiresAt < now →
      (checkInVisitor now user body s).1 =
          { status := 400, message := "Pass has expired" } ∧
        ∃ before after, s.passes = before ++ pass :: after ∧
          (checkInVisitor now user body s).2 =
            { visitors := s.visitors
              passes := before ++ { pass with status := PassStatus.expired } :: after
              checkLogs := s.checkLogs }) := by
  refine ⟨?_, ?_, ?_⟩
  · intro hnone
    simp [checkInVisitor, hq, JsonValue.passId, hnone]
  · intro id pass hid hp hst
    rw [checkInVisitor_found now user body payload id pass s hq hid hp]
    simp [hst]
  · intro id pass hid hp hact hexp
    rw [checkInVisitor_found now user body payload id pass s hq hid hp]
    have hpid := findPass_id s id pass hp
    subst hpid
    obtain ⟨before, after, h1, h2, _⟩ :=
      replaceFirst_split (fun x : Pass => x._id == pass._id)
        { pass with status := PassStatus.expired } pass s.passes hp
    simp only [hact, ne_eq, not_true_eq_false, if_false, hexp, if_true, true_and]
    exact ⟨before, after, h1, by simp only [Store.savePass, h2]⟩

theorem checkIn_pass_rejections_witness :
    checkInVisitor 9500 sampleUser sampleCheckIn sampleStore =
        ({ status := 404, message := "Pass not found" }, sampleStore) ∧
      checkInVisitor 9500 sampleUser sampleCheckIn
          (storeWith PassStatus.revoked VisitorStatus.approved) =
        ({ status := 400, message := "Pass is revoked" },
          storeWith PassStatus.revoked VisitorStatus.approved) ∧
      (checkInVisitor 9500 sampleUser sampleCheckIn
          (storeWith PassStatus.active VisitorStatus.approved)).1 =
        { status := 400, message := "Pass has expired" } :=
  ⟨(checkIn_pass_rejections 9500 sampleUser sampleCheckIn samplePayload sampleStore rfl).1
      rfl,
    (checkIn_pass_rejections 9500 sampleUser sampleCheckIn samplePayload
      (storeWith PassStatus.revoked VisitorStatus.approved) rfl).2.1 1
      { samplePass with status := PassStatus.revoked } rfl rfl (by decide),
    ((checkIn_pass_rejections 9500 sampleUser sampleCheckIn samplePayload
      (storeWith PassStatus.active VisitorStatus.approved) rfl).2.2 1 samplePass rfl rfl rfl
      (by decide)).1⟩

/-- C15: for an existing pass and owning visitor, `checkOutVisitor` answers 201
exactly when the visitor's status is `checked_in`.  It then appends one check
log of type `check_out` for that visitor and pass and rewrites the visitor with
status `checked_out` and `actualDeparture` the current time, and a further
check-out scanning the same pass on the resulting store answers 400
`Visitor is not checked in`.  With any other status it answers 400
`Visitor is not checked in` and leaves the store unchanged. -/
theorem checkOut_iff_checked_in (now : Time) (user : User) (body : CheckOutBody)
    (payload : QrPayload) (id : ObjId) (pass : Pass) (visitor : Visitor) (s : Store)
    (hq : body.qrData = QrData.json (JsonValue.object payload))
    (hid : payload.passId = some id) (hp : s.findPass id = some pass)
    (hv : s.findVisitor pass.visitorId = some visitor) :
    ((checkOutVisitor now user body s).1.status = 201 ↔
      visitor.status = VisitorStatus.checked_in) ∧
    (visitor.status = VisitorStatus.checked_in →
      ∃ log before after,
        log.type = CheckType.check_out ∧ log.visitorId = visitor._id ∧
        log.passId = pass._id ∧ log.timestamp = now ∧
        s.visitors = before ++ visitor :: after ∧
        checkOutVisitor now user body s =
          ({ status := 201, message := "Visitor checked out successfully",
             checkLog := some log,
             visitor := some { visitor with status := VisitorStatus.checked_out,
                                            actualDeparture := some now } },
           { visitors :=
               before ++ { visitor with status := VisitorStatus.checked_out,
                                        actualDeparture := some now } :: after
             passes := s.passes
             checkLogs := s.checkLogs ++ [log] }) ∧
        ∀ (now' : Time) (user' : User) (body' : CheckOutBody) (payload' : QrPayload),
          body'.qrData = QrData.json (JsonValue.object payload') →
          payload'.passId = some id →
          checkOutVisitor now' user' body' (checkOutVisitor now user body s).2 =
            ({ status := 400, message := "Visitor is not checked in" },
              (checkOutVisitor now user body s).2)) ∧
    (visitor.status ≠ VisitorStatus.checked_in →
      checkOutVisitor now user body s =
        ({ status := 400, message := "Visitor is not checked in" }, s)) := by
  have hf := checkOutVisitor_found now user body payload id pass s hq hid hp
  have hvid := findVisitor_id s pass.visitorId visitor hv
  refine ⟨?_, ?_, ?_⟩
  · rw [hf]
    by_cases hst : visitor.status = VisitorStatus.checked_in
    · simp [hv, hst]
    · simp [hv, hst]
  · intro hst
    obtain ⟨before, after, h1, _, h3⟩ :=
      saveVisitor_split (s.insertCheckLog (checkOutLogOf now user body pass visitor s))
        pass.visitorId visitor
        { visitor with status := VisitorStatus.checked_out, actualDeparture := some now }
        hv hvid
    have h3' : replaceFirst (fun x : Visitor => x._id == visitor._id)
        { visitor with status := VisitorStatus.checked_out, actualDeparture := some now }
        s.visitors =
        before ++ { visitor with status := VisitorStatus.checked_out,
                                 actualDeparture := some now } :: after := h3
    have hres : checkOutVisitor now user body s =
        ({ status := 201, message := "Visitor checked out successfully",
           checkLog := some (checkOutLogOf now user body pass visitor s),
           visitor := some { visitor with status := VisitorStatus.checked_out,
                                          actualDeparture := some now } },
          (s.insertCheckLog (checkOutLogOf now user body pass visitor s)).saveVisitor
            { visitor with status := VisitorStatus.checked_out,
                           actualDeparture := some now }) := by
      rw [hf]; simp [hv, hst]
    refine ⟨checkOutLogOf now user body pass visitor s, before, after, rfl, rfl, rfl, rfl,
      h1, ?_, ?_⟩
    · rw [hres]
      simp only [Store.saveVisitor, Store.insertCheckLog, h3']
    · intro now' user' body' payload' hq' hid'
      rw [hres]
      have hp1 : ((s.insertCheckLog (checkOutLogOf now user body pass visitor s)).saveVisitor
          { visitor with status := VisitorStatus.checked_out,
                         actualDeparture := some now }).findPass id = some pass := hp
      have hv1 := findVisitor_saveVisitor
        (s.insertCheckLog (checkOutLogOf now user body pass visitor s))
        pass.visitorId visitor
        { visitor with status := VisitorStatus.checked_out, actualDeparture := some now }
        hv hvid
      rw [checkOutVisitor_found now' user' body' payload' id pass _ hq' hid' hp1]
      simp [hv1]
  · intro hst
    rw [hf]
    simp [hv, hst]

theorem checkOut_iff_checked_in_witness :
    (checkOutVisitor 7000 sampleUser sampleCheckOut
        (storeWith PassStatus.active VisitorStatus.checked_in)).1.status = 201 ∧
      checkOutVisitor 7000 sampleUser sampleCheckOut
          (storeWith PassStatus.active VisitorStatus.approved) =
        ({ status := 400, message := "Visitor is not checked in" },
          storeWith PassStatus.active VisitorStatus.approved) :=
  ⟨(checkOut_iff_checked_in 7000 sampleUser sampleCheckOut samplePayload 1 samplePass
      { sampleVisitor with status := VisitorStatus.checked_in }
      (storeWith PassStatus.active VisitorStatus.checked_in) rfl rfl rfl rfl).1.mpr rfl,
    (checkOut_iff_checked_in 7000 sampleUser sampleCheckOut samplePayload 1 samplePass
      sampleVisitor (storeWith PassStatus.active VisitorStatus.approved)
      rfl rfl rfl rfl).2.2 (by decide)⟩

/-- Looking a pass up by identifier in two collections that agree up to
`status` and `expiresAt` finds nothing in both, or two passes that agree up to
those fields. -/
theorem find_sameButStatusExpiry (id : ObjId) (l₁ l₂ : List Pass)
    (h : List.Forall₂ SameButStatusExpiry l₁ l₂) :
    (l₁.find? (fun p => p._id == id) = none ∧ l₂.find? (fun p => p._id == id) = none) ∨
      ∃ p q, l₁.find? (fun p => p._id == id) = some p ∧
        l₂.find? (fun p => p._id == id) = some q ∧ SameButStatusExpiry p q := by
  induction h with
  | nil => left; exact ⟨rfl, rfl⟩
  | @cons p q _ _ hpq _ ih =>
    have hidEq : q._id = p._id := by
      have := congrArg Pass._id hpq
      simpa using this
    by_cases hp : p._id = id
    · right
      exact ⟨p, q, by simp [List.find?, hp], by simp [List.find?, hidEq, hp], hpq⟩
    · have hb : (p._id == id) = false := by simpa using hp
      have hb' : (q._id == id) = false := by rw [hidEq]; exact hb
      rcases ih with ⟨h1, h2⟩ | ⟨p', q', h1, h2, h3⟩
      · left
        exact ⟨by simp [List.find?, hb, h1], by simp [List.find?, hb', h2]⟩
      · right
        exact ⟨p', q', by simp [List.find?, hb, h1], by simp [List.find?, hb', h2], h3⟩

/-- C16: on two stores with the same visitors and check logs whose passes
agree on every field other than `status` and `expiresAt`, `checkOutVisitor`
gives the same answer and the same visitors and check logs, and in each store
it leaves the pass collection as it was. -/
theorem checkOut_ignores_pass_status (now : Time) (user : User) (body : CheckOutBody)
    (s₁ s₂ : Store) (hvis : s₁.visitors = s₂.visitors)
    (hlogs : s₁.checkLogs = s₂.checkLogs)
    (hpasses : List.Forall₂ SameButStatusExpiry s₁.passes s₂.passes) :
    (checkOutVisitor now user body s₁).1 = (checkOutVisitor now user body s₂).1 ∧
      (checkOutVisitor now user body s₁).2.visitors =
        (checkOutVisitor now user body s₂).2.visitors ∧
      (checkOutVisitor now user body s₁).2.checkLogs =
        (checkOutVisitor now user body s₂).2.checkLogs ∧
      (checkOutVisitor now user body s₁).2.passes = s₁.passes ∧
      (checkOutVisitor now user body s₂).2.passes = s₂.passes := by
  refine ⟨?_, ?_, ?_, checkOutVisitor_passes now user body s₁,
    checkOutVisitor_passes now user body s₂⟩
  all_goals
    obtain ⟨visitors₁, passes₁, logs₁⟩ := s₁
    obtain ⟨visitors₂, passes₂, logs₂⟩ := s₂
    simp only at hvis hlogs hpasses
    subst hvis hlogs
    obtain ⟨qrData, location, notes⟩ := body
    cases qrData with
    | missing => rfl
    | malformed => rfl
    | json value =>
      cases value with
      | null => rfl
      | primitive => rfl
      | object payload =>
        cases hid : payload.passId with
        | none => simp [checkOutVisitor, JsonValue.passId, hid, Store.findPassById]
        | some id =>
          rcases find_sameButStatusExpiry id passes₁ passes₂ hpasses with
            ⟨h1, h2⟩ | ⟨p, q, h1, h2, hpq⟩
          · simp [checkOutVisitor, JsonValue.passId, hid, Store.findPassById, Store.findPass,
              h1, h2]
          · have hqid : q._id = p._id := by
              have := congrArg Pass._id hpq
              simpa using this
            have hqvis : q.visitorId = p.visitorId := by
              have := congrArg Pass.visitorId hpq
              simpa using this
            rw [checkOutVisitor_found now user _ payload id p
                (Store.mk visitors₁ passes₁ logs₁) rfl hid h1,
              checkOutVisitor_found now user _ payload id q
                (Store.mk visitors₁ passes₂ logs₁) rfl hid h2]
            simp only [Store.findVisitor, hqvis, checkOutLogOf, hqid, Store.insertCheckLog,
              Store.saveVisitor]
            cases hv : visitors₁.find? (fun v => v._id == p.visitorId) with
            | none => rfl
            | some visitor =>
              by_cases hst : visitor.status = VisitorStatus.checked_in
              · simp [hst]
              · simp [hst]

theorem checkOut_ignores_pass_status_witness :
    (checkOutVisitor 9500 sampleUser sampleCheckOut
        (storeWith PassStatus.active VisitorStatus.checked_in)).1 =
      (checkOutVisitor 9500 sampleUser sampleCheckOut
        { visitors := [{ sampleVisitor with status := VisitorStatus.checked_in }],
          passes := [{ samplePass with status := PassStatus.revoked, expiresAt := 100 }],
          checkLogs := [] }).1 ∧
    (checkOutVisitor 9500 sampleUser sampleCheckOut
        { visitors := [{ sampleVisitor with status := VisitorStatus.checked_in }],
          passes := [{ samplePass with status := PassStatus.revoked, expiresAt := 100 }],
          checkLogs := [] }).1.status = 201 := by
  refine ⟨(checkOut_ignores_pass_status 9500 sampleUser sampleCheckOut
      (storeWith PassStatus.active VisitorStatus.checked_in)
      { visitors := [{ sampleVisitor with status := VisitorStatus.checked_in }],
        passes := [{ samplePass with status := PassStatus.revoked, expiresAt := 100 }],
        checkLogs := [] } rfl rfl ?_).1, by decide⟩
  exact List.Forall₂.cons rfl List.Forall₂.nil

/-! ## Effects of the handlers on visitors and check logs -/

theorem issuePass_visitors_logs (env : Env) (user : User) (body : IssueBody) (s : Store) :
    (issuePass env user body s).2.visitors = s.visitors ∧
      (issuePass env user body s).2.checkLogs = s.checkLogs := by
  rw [(issuePass_store env user body s).1]
  exact ⟨rfl, rfl⟩

theorem revokePass_visitors_logs (id : ObjId) (s : Store) :
    (revokePass id s).2.visitors = s.visitors ∧
      (revokePass id s).2.checkLogs = s.checkLogs := by
  unfold revokePass
  repeat' split
  all_goals exact ⟨rfl, rfl⟩

theorem verifyPass_visitors_logs (now : Time) (qrData : QrData) (s : Store) :
    (verifyPass now qrData s).2.visitors = s.visitors ∧
      (verifyPass now qrData s).2.checkLogs = s.checkLogs := by
  rcases verifyPass_store now qrData s with h | ⟨_, _, _, _, _, _, _, _, h⟩
  · rw [h]; exact ⟨rfl, rfl⟩
  · rw [h]; exact ⟨rfl, rfl⟩

/-- A check-in that does not answer 201 writes no visitor and no check log. -/
theorem checkInVisitor_unchanged_or_created (now : Time) (user : User)
    (body : CheckInBody) (s : Store) :
    ((checkInVisitor now user body s).2.visitors = s.visitors ∧
        (checkInVisitor now user body s).2.checkLogs = s.checkLogs) ∨
      (checkInVisitor now user body s).1.status = 201 := by
  obtain ⟨qrData, location, temperature, notes⟩ := body
  cases qrData with
  | missing => left; exact ⟨rfl, rfl⟩
  | malformed => left; exact ⟨rfl, rfl⟩
  | json value =>
    cases value with
    | null => left; exact ⟨rfl, rfl⟩
    | primitive => left; exact ⟨rfl, rfl⟩
    | object payload =>
      cases hid : payload.passId with
      | none => left; simp [checkInVisitor, JsonValue.passId, hid, Store.findPassById]
      | some id =>
        cases hp : s.findPass id with
        | none => left; simp [checkInVisitor, JsonValue.passId, hid, Store.findPassById, hp]
        | some pass =>
          rw [checkInVisitor_found now user _ payload id pass s rfl hid hp]
          by_cases hact : pass.status = PassStatus.active
          · by_cases hexp : pass.expiresAt < now
            · left; simp [hact, hexp, Store.savePass]
            · cases hv : s.findVisitor pass.visitorId with
              | none => left; simp [hact, hexp, hv]
              | some visitor =>
                by_cases hin : alreadyCheckedIn (s.findExistingCheckIn now visitor._id) = true
                · left; simp [hact, hexp, hv, hin]
                · by_cases hval : temperatureValid temperature = true
                  · right; simp [hact, hexp, hv, hin, hval]
                  · left; simp [hact, hexp, hv, hin, hval]
          · left; simp [hact]

/-- A check-out answered 201 went through every guard. -/
theorem checkOutVisitor_created (now : Time) (user : User) (body : CheckOutBody) (s : Store)
    (h : (checkOutVisitor now user body s).1.status = 201) :
    ∃ payload id pass visitor,
      body.qrData = QrData.json (JsonValue.object payload) ∧ payload.passId = some id ∧
      s.findPass id = some pass ∧ s.findVisitor pass.visitorId = some visitor ∧
      visitor.status = VisitorStatus.checked_in ∧
      checkOutVisitor now user body s =
        ({ status := 201, message := "Visitor checked out successfully",
           checkLog := some (checkOutLogOf now user body pass visitor s),
           visitor := some { visitor with status := VisitorStatus.checked_out,
                                          actualDeparture := some now } },
          (s.insertCheckLog (checkOutLogOf now user body pass visitor s)).saveVisitor
            { visitor with status := VisitorStatus.checked_out,
                           actualDeparture := some now }) := by
  obtain ⟨qrData, location, notes⟩ := body
  cases qrData with
  | missing => simp [checkOutVisitor] at h
  | malformed => simp [checkOutVisitor] at h
  | json value =>
    cases value with
    | null => simp [checkOutVisitor, JsonValue.passId, serverError] at h
    | primitive => simp [checkOutVisitor, JsonValue.passId, Store.findPassById] at h
    | object payload =>
      cases hid : payload.passId with
      | none => simp [checkOutVisitor, JsonValue.passId, hid, Store.findPassById] at h
      | some id =>
        cases hp : s.findPass id with
        | none => simp [checkOutVisitor, JsonValue.passId, hid, Store.findPassById, hp] at h
        | some pass =>
          have hf := checkOutVisitor_found now user
            { qrData := QrData.json (JsonValue.object payload), location := location,
              notes := notes } payload id pass s rfl hid hp
          rw [hf] at h
          cases hv : s.findVisitor pass.visitorId with
          | none => simp [hv] at h
          | some visitor =>
            by_cases hst : visitor.status = VisitorStatus.checked_in
            · refine ⟨payload, id, pass, visitor, rfl, hid, hp, hv, hst, ?_⟩
              rw [hf]; simp [hv, hst]
            · simp [hv, hst] at h

/-- A check-out that does not answer 201 leaves the store as it is. -/
theorem checkOutVisitor_unchanged_or_created (now : Time) (user : User)
    (body : CheckOutBody) (s : Store) :
    (checkOutVisitor now user body s).2 = s ∨
      (checkOutVisitor now user body s).1.status = 201 := by
  obtain ⟨qrData, location, notes⟩ := body
  cases qrData with
  | missing => left; rfl
  | malformed => left; rfl
  | json value =>
    cases value with
    | null => left; rfl
    | primitive => left; rfl
    | object payload =>
      cases hid : payload.passId with
      | none => left; simp [checkOutVisitor, JsonValue.passId, hid, Store.findPassById]
      | some id =>
        cases hp : s.findPass id with
        | none => left; simp [checkOutVisitor, JsonValue.passId, hid, Store.findPassById, hp]
        | some pass =>
          rw [checkOutVisitor_found now user _ payload id pass s rfl hid hp]
          cases hv : s.findVisitor pass.visitorId with
          | none => left; simp [hv]
          | some visitor =>
            by_cases hst : visitor.status = VisitorStatus.checked_in
            · right; simp [hv, hst]
            · left; simp [hv, hst]

/-- The store after `createVisitor`: unchanged, or one pending visitor with a
fresh identifier appended. -/
theorem createVisitor_store (users : List User) (body : CreateVisitorBody) (s : Store) :
    (createVisitor users body s).2 = s ∨
      ∃ v : Visitor, v._id = freshId (s.visitors.map (fun x => x._id)) ∧
        v.status = VisitorStatus.pending ∧ v.actualArrival = none ∧
        v.actualDeparture = none ∧ (createVisitor users body s).2 = s.insertVisitor v := by
  unfold createVisitor
  split
  · left; rfl
  · split
    · left; rfl
    · dsimp only
      split
      · right; exact ⟨_, rfl, rfl, rfl, rfl, rfl⟩
      · left; rfl

/-- The store after `updateVisitor`: unchanged, or the loaded visitor saved
with the allowed fields applied. -/
theorem updateVisitor_store (id : ObjId) (user : User) (body : UpdateVisitorBody)
    (s : Store) :
    (updateVisitor id user body s).2 = s ∨
      ∃ old, s.findVisitor id = some old ∧
        (updateVisitor id user body s).2 =
          s.saveVisitor
            (applyAllowedFields (["admin", "security"].contains user.role) body old) := by
  unfold updateVisitor
  split
  · left; rfl
  · rename_i old hfind
    split
    · left; rfl
    · dsimp only
      split
      · right; exact ⟨old, hfind, rfl⟩
      · left; rfl

/-- The store after `uploadPhoto`: unchanged, or the loaded visitor saved with a
new `photo`. -/
theorem uploadPhoto_store (id : ObjId) (file : Option String) (s : Store) :
    (uploadPhoto id file s).2 = s ∨
      ∃ old filename, s.findVisitor id = some old ∧
        (uploadPhoto id file s).2 =
          s.saveVisitor { old with photo := some ("/uploads/" ++ filename) } := by
  unfold uploadPhoto
  split
  · left; rfl
  · rename_i old hfind
    split
    · left; rfl
    · rename_i filename
      right; exact ⟨old, filename, hfind, rfl⟩

/-- The store after `updateVisitorStatus`: unchanged, or the loaded visitor
saved with status `approved` or `rejected`. -/
theorem updateVisitorStatus_store (id : ObjId) (user : User)
    (status : Option VisitorStatus) (s : Store) :
    (updateVisitorStatus id user status s).2 = s ∨
      ∃ old st, s.findVisitor id = some old ∧
        (st = VisitorStatus.approved ∨ st = VisitorStatus.rejected) ∧
        (updateVisitorStatus id user status s).2 = s.saveVisitor { old with status := st } := by
  unfold updateVisitorStatus
  split
  · left; rfl
  · rename_i st
    split
    · left; rfl
    · rename_i hvalid
      split
      · left; rfl
      · rename_i old hfind
        dsimp only
        split
        · left; rfl
        · right
          refine ⟨old, st, hfind, ?_, rfl⟩
          cases st <;> simp at hvalid ⊢

/-- Replacing the first match by an element with the same image keeps the
list of images. -/
theorem map_replaceFirst {α β : Type} (f : α → β) (q : α → Bool) (a old : α) (l : List α)
    (hfind : l.find? q = some old) (hf : f a = f old) :
    (replaceFirst q a l).map f = l.map f := by
  obtain ⟨before, after, h1, h2, _⟩ := replaceFirst_split q a old l hfind
  rw [h2, h1]
  simp [hf]

/-- Saving a loaded visitor keeps the list of images of a function that agrees
on the old and the new document. -/
theorem map_saveVisitor {β : Type} (f : Visitor → β) (s : Store) (id : ObjId)
    (old new : Visitor) (hfind : s.findVisitor id = some old) (hid : new._id = id)
    (hf : f new = f old) : (s.saveVisitor new).visitors.map f = s.visitors.map f := by
  show (replaceFirst (fun x => x._id == new._id) new s.visitors).map f = _
  rw [hid]
  exact map_replaceFirst f _ new old s.visitors hfind hf

/-- The visitors after a pass or check-log call, seen through a function that
ignores what a check-in or check-out writes. -/
theorem map_visitors_apply {β : Type} (f : Visitor → β) (op : Op) (s : Store)
    (hin : ∀ (v : Visitor) (now : Time),
      (∃ now' user body, op = Op.checkIn now' user body) →
      f { v with status := VisitorStatus.checked_in, actualArrival := some now } = f v)
    (hout : ∀ (v : Visitor) (now : Time),
      (∃ now' user body, op = Op.checkOut now' user body) →
      f { v with status := VisitorStatus.checked_out, actualDeparture := some now } = f v) :
    (op.apply s).visitors.map f = s.visitors.map f := by
  cases op with
  | issue env user body => rw [Op.apply, (issuePass_visitors_logs env user body s).1]
  | revoke id => rw [Op.apply, (revokePass_visitors_logs id s).1]
  | verify now qrData => rw [Op.apply, (verifyPass_visitors_logs now qrData s).1]
  | checkIn now user body =>
    rcases checkInVisitor_unchanged_or_created now user body s with h | h
    · rw [Op.apply, h.1]
    · obtain ⟨_, _, pass, visitor, _, _, _, _, _, hv, _, hres⟩ :=
        checkInVisitor_created now user body s h
      rw [Op.apply, hres]
      exact map_saveVisitor f _ pass.visitorId visitor _ hv
        (findVisitor_id s pass.visitorId visitor hv) (hin visitor now ⟨now, user, body, rfl⟩)
  | checkOut now user body =>
    rcases checkOutVisitor_unchanged_or_created now user body s with h | h
    · rw [Op.apply, h]
    · obtain ⟨_, _, pass, visitor, _, _, _, hv, _, hres⟩ :=
        checkOutVisitor_created now user body s h
      rw [Op.apply, hres]
      exact map_saveVisitor f _ pass.visitorId visitor _ hv
        (findVisitor_id s pass.visitorId visitor hv) (hout visitor now ⟨now, user, body, rfl⟩)

/-- The visitors after a visitor call other than `createVisitor`, seen through
a function that ignores the fields those calls write. -/
theorem map_visitors_visitorOps {β : Type} (f : Visitor → β) (s : Store)
    (hupd : ∀ (v : Visitor) (b : Bool) (body : UpdateVisitorBody),
      f (applyAllowedFields b body v) = f v)
    (hphoto : ∀ (v : Visitor) (photo : Option String), f { v with photo := photo } = f v)
    (hstatus : ∀ (v : Visitor) (st : VisitorStatus), f { v with status := st } = f v) :
    (∀ id user body, (updateVisitor id user body s).2.visitors.map f = s.visitors.map f) ∧
    (∀ id file, (uploadPhoto id file s).2.visitors.map f = s.visitors.map f) ∧
    (∀ id user status,
      (updateVisitorStatus id user status s).2.visitors.map f = s.visitors.map f) := by
  refine ⟨?_, ?_, ?_⟩
  · intro id user body
    rcases updateVisitor_store id user body s with h | ⟨old, hfind, h⟩
    · rw [h]
    · rw [h]
      refine map_saveVisitor f s id old _ hfind ?_ (hupd old _ body)
      exact findVisitor_id s id old hfind
  · intro id file
    rcases uploadPhoto_store id file s with h | ⟨old, filename, hfind, h⟩
    · rw [h]
    · rw [h]
      exact map_saveVisitor f s id old _ hfind (findVisitor_id s id old hfind) (hphoto old _)
  · intro id user status
    rcases updateVisitorStatus_store id user status s with h | ⟨old, st, hfind, _, h⟩
    · rw [h]
    · rw [h]
      exact map_saveVisitor f s id old _ hfind (findVisitor_id s id old hfind) (hstatus old st)

/-- C19: after any call of the API the `actualArrival` of every visitor is as
before (a created visitor has none) unless the call is a `checkInVisitor`
answered 201, and the `actualDeparture` of every visitor is as before unless
the call is a `checkOutVisitor` answered 201; `updateVisitor` never writes
either, whatever its body carries. -/
theorem actual_times_written_only_by_check (op : ApiOp) (s : Store) :
    ((op.apply s).visitors.map (fun v => v.actualArrival) =
        s.visitors.map (fun v => v.actualArrival) ∨
      (∃ users body, op = ApiOp.createVisitor users body ∧
        (op.apply s).visitors.map (fun v => v.actualArrival) =
          s.visitors.map (fun v => v.actualArrival) ++ [none]) ∨
      (∃ now user body, op = ApiOp.pass (Op.checkIn now user body) ∧
        (checkInVisitor now user body s).1.status = 201)) ∧
    ((op.apply s).visitors.map (fun v => v.actualDeparture) =
        s.visitors.map (fun v => v.actualDeparture) ∨
      (∃ users body, op = ApiOp.createVisitor users body ∧
        (op.apply s).visitors.map (fun v => v.actualDeparture) =
          s.visitors.map (fun v => v.actualDeparture) ++ [none]) ∨
      (∃ now user body, op = ApiOp.pass (Op.checkOut now user body) ∧
        (checkOutVisitor now user body s).1.status = 201)) := by
  cases op with
  | pass op =>
    constructor
    · by_cases hop : ∃ now user body, op = Op.checkIn now user body
      · obtain ⟨now, user, body, rfl⟩ := hop
        rcases checkInVisitor_unchanged_or_created now user body s with h | h
        · left
          show (checkInVisitor now user body s).2.visitors.map _ = _
          rw [h.1]
        · right; right; exact ⟨now, user, body, rfl, h⟩
      · left
        exact map_visitors_apply (fun v => v.actualArrival) op s
          (fun _ _ h => absurd h hop) (fun _ _ _ => rfl)
    · by_cases hop : ∃ now user body, op = Op.checkOut now user body
      · obtain ⟨now, user, body, rfl⟩ := hop
        rcases checkOutVisitor_unchanged_or_created now user body s with h | h
        · left
          show (checkOutVisitor now user body s).2.visitors.map _ = _
          rw [h]
        · right; right; exact ⟨now, user, body, rfl, h⟩
      · left
        exact map_visitors_apply (fun v => v.actualDeparture) op s
          (fun _ _ _ => rfl) (fun _ _ h => absurd h hop)
  | createVisitor users body =>
    rcases createVisitor_store users body s with h | ⟨v, _, _, ha, hd, h⟩
    · constructor <;> (left; show (createVisitor users body s).2.visitors.map _ = _; rw [h])
    · constructor
      · right; left
        refine ⟨users, body, rfl, ?_⟩
        show (createVisitor users body s).2.visitors.map _ = _
        rw [h]; simp [Store.insertVisitor, ha]
      · right; left
        refine ⟨users, body, rfl, ?_⟩
        show (createVisitor users body s).2.visitors.map _ = _
        rw [h]; simp [Store.insertVisitor, hd]
  | updateVisitor id user body =>
    exact ⟨Or.inl ((map_visitors_visitorOps (fun v => v.actualArrival) s
        (fun _ _ _ => rfl) (fun _ _ => rfl) (fun _ _ => rfl)).1 id user body),
      Or.inl ((map_visitors_visitorOps (fun v => v.actualDeparture) s
        (fun _ _ _ => rfl) (fun _ _ => rfl) (fun _ _ => rfl)).1 id user body)⟩
  | uploadPhoto id file =>
    exact ⟨Or.inl ((map_visitors_visitorOps (fun v => v.actualArrival) s
        (fun _ _ _ => rfl) (fun _ _ => rfl) (fun _ _ => rfl)).2.1 id file),
      Or.inl ((map_visitors_visitorOps (fun v => v.actualDeparture) s
        (fun _ _ _ => rfl) (fun _ _ => rfl) (fun _ _ => rfl)).2.1 id file)⟩
  | updateVisitorStatus id user status =>
    exact ⟨Or.inl ((map_visitors_visitorOps (fun v => v.actualArrival) s
        (fun _ _ _ => rfl) (fun _ _ => rfl) (fun _ _ => rfl)).2.2 id user status),
      Or.inl ((map_visitors_visitorOps (fun v => v.actualDeparture) s
        (fun _ _ _ => rfl) (fun _ _ => rfl) (fun _ _ => rfl)).2.2 id user status)⟩

/-! ## Terminal pass states -/

/-- A position of the list keeps its element under `replaceFirst`, or it held
the first match and now holds the replacement. -/
theorem getElem?_replaceFirst {α : Type} (q : α → Bool) (a : α) (l : List α) (i : Nat)
    (x : α) (h : l[i]? = some x) :
    (replaceFirst q a l)[i]? = some x ∨
      ((replaceFirst q a l)[i]? = some a ∧ l.find? q = some x) := by
  induction l generalizing i with
  | nil => simp at h
  | cons y ys ih =>
    by_cases hq : q y = true
    · cases i with
      | zero =>
        right
        have hx : y = x := by simpa using h
        subst hx
        simp [replaceFirst, hq, List.find?]
      | succ n =>
        left
        have hx : ys[n]? = some x := by simpa using h
        simp [replaceFirst, hq, hx]
    · have hq1 : q y = false := by simpa using hq
      cases i with
      | zero =>
        left
        have hx : y = x := by simpa using h
        subst hx
        simp [replaceFirst, hq1]
      | succ n =>
        have hx : ys[n]? = some x := by simpa using h
        rcases ih n hx with h1 | ⟨h1, h2⟩
        · left; simp [replaceFirst, hq1, h1]
        · right; simp [replaceFirst, hq1, h1, List.find?, h2]

/-- `issuePass` leaves the pass collection as it is. -/
theorem issuePass_passes (env : Env) (user : User) (body : IssueBody) (s : Store) :
    (issuePass env user body s).2.passes = s.passes := by
  rw [(issuePass_store env user body s).1]

/-- The store after `revokePass`: unchanged, or the loaded pass, which was not
revoked, saved as revoked. -/
theorem revokePass_store (id : ObjId) (s : Store) :
    (revokePass id s).2 = s ∨
      ∃ pass, s.findPass id = some pass ∧ pass.status ≠ PassStatus.revoked ∧
        (revokePass id s).2 = s.savePass { pass with status := PassStatus.revoked } := by
  cases hp : s.findPass id with
  | none => left; simp [revokePass, hp]
  | some pass =>
    by_cases hr : pass.status = PassStatus.revoked
    · left; simp [revokePass, hp, hr]
    · right; exact ⟨pass, rfl, hr, by simp [revokePass, hp, hr]⟩

/-- A position of the pass collection after saving a loaded pass. -/
theorem getElem?_savePass (s : Store) (id : ObjId) (pass new : Pass) (i : Nat) (p : Pass)
    (hfind : s.findPass id = some pass) (hid : new._id = pass._id)
    (hp : s.passes[i]? = some p) :
    (s.savePass new).passes[i]? = some p ∨
      ((s.savePass new).passes[i]? = some new ∧ p = pass) := by
  have hpid := findPass_id s id pass hfind
  have hq : (fun x : Pass => x._id == new._id) = (fun x : Pass => x._id == id) := by
    rw [hid, hpid]
  rcases getElem?_replaceFirst (fun x : Pass => x._id == new._id) new s.passes i p hp with
    h | ⟨h1, h2⟩
  · exact Or.inl h
  · right
    refine ⟨h1, ?_⟩
    rw [hq] at h2
    have : some p = some pass := h2.symm.trans hfind
    exact Option.some.inj this

/-- C20 (as amended): a `revoked` pass is left as it is by every call of
`issuePass`, `revokePass`, `verifyPass`, `checkInVisitor` and
`checkOutVisitor`; an `expired` pass is left as it is by every such call except
a `revokePass`, which may rewrite it as `revoked`. -/
theorem revoked_terminal_expired_until_revoked (op : Op) (s : Store) (i : Nat) (p : Pass)
    (hp : s.passes[i]? = some p) :
    ∃ p', (op.apply s).passes[i]? = some p' ∧
      (p.status = PassStatus.revoked → p' = p) ∧
      (p.status = PassStatus.expired →
        p' = p ∨
          ((∃ id, op = Op.revoke id) ∧ p' = { p with status := PassStatus.revoked })) := by
  have hexp : ∀ (s' : Store) (id : ObjId) (pass : Pass), s.findPass id = some pass →
      pass.status = PassStatus.active →
      s'.passes = (s.savePass { pass with status := PassStatus.expired }).passes →
      ∃ p', s'.passes[i]? = some p' ∧
        (p.status = PassStatus.revoked → p' = p) ∧
        (p.status = PassStatus.expired →
          p' = p ∨
            ((∃ id, op = Op.revoke id) ∧ p' = { p with status := PassStatus.revoked })) := by
    intro s' id pass hfind hact hs'
    rw [hs']
    rcases getElem?_savePass s id pass { pass with status := PassStatus.expired } i p
      hfind rfl hp with h | ⟨h1, h2⟩
    · exact ⟨p, h, fun _ => rfl, fun _ => Or.inl rfl⟩
    · subst h2
      refine ⟨_, h1, ?_, ?_⟩
      · intro hr
        rw [hact] at hr
        cases hr
      · intro he
        rw [hact] at he
        cases he
  have hsame : ∀ s' : Store, s'.passes = s.passes →
      ∃ p', s'.passes[i]? = some p' ∧
        (p.status = PassStatus.revoked → p' = p) ∧
        (p.status = PassStatus.expired →
          p' = p ∨
            ((∃ id, op = Op.revoke id) ∧ p' = { p with status := PassStatus.revoked })) := by
    intro s' hs'
    rw [hs']
    exact ⟨p, hp, fun _ => rfl, fun _ => Or.inl rfl⟩
  cases op with
  | issue env user body => exact hsame _ (issuePass_passes env user body s)
  | revoke id =>
    rcases revokePass_store id s with h | ⟨pass, hfind, hnr, h⟩
    · exact hsame _ (by rw [Op.apply, h])
    · show ∃ p', (revokePass id s).2.passes[i]? = some p' ∧ _
      rw [h]
      rcases getElem?_savePass s id pass { pass with status := PassStatus.revoked } i p
        hfind rfl hp with h1 | ⟨h1, h2⟩
      · exact ⟨p, h1, fun _ => rfl, fun _ => Or.inl rfl⟩
      · subst h2
        exact ⟨_, h1, fun hr => absurd hr hnr, fun _ => Or.inr ⟨⟨id, rfl⟩, rfl⟩⟩
  | verify now qrData =>
    rcases verifyPass_store now qrData s with h | ⟨_, id, pass, _, _, hfind, hact, _, h⟩
    · exact hsame _ (by rw [Op.apply, h])
    · exact hexp _ id pass hfind hact (by rw [Op.apply, h])
  | checkIn now user body =>
    rcases checkInVisitor_passes now user body s with h | ⟨id, pass, hfind, hact, _, h⟩
    · exact hsame _ h
    · exact hexp _ id pass hfind hact (by rw [Op.apply, h])
  | checkOut now user body =>
    exact hsame _ (checkOutVisitor_passes now user body s)

theorem revoked_terminal_expired_until_revoked_witness :
    (storeWith PassStatus.revoked VisitorStatus.approved).passes[0]? =
        some { samplePass with status := PassStatus.revoked } ∧
      ∃ p', ((Op.revoke 1).apply
          (storeWith PassStatus.revoked VisitorStatus.approved)).passes[0]? = some p' ∧
        p' = { samplePass with status := PassStatus.revoked } := by
  refine ⟨rfl, ?_⟩
  obtain ⟨p', h1, h2, _⟩ :=
    revoked_terminal_expired_until_revoked (Op.revoke 1)
      (storeWith PassStatus.revoked VisitorStatus.approved) 0
      { samplePass with status := PassStatus.revoked } rfl
  exact ⟨p', h1, h2 rfl⟩

/-- C20 (the claim as stated fails): `revokePass` on an `expired` pass rewrites
its status as `revoked`. -/
theorem revoke_changes_expired_pass :
    ∃ p p', (storeWith PassStatus.expired VisitorStatus.approved).passes[0]? = some p ∧
      p.status = PassStatus.expired ∧
      ((Op.revoke 1).apply
        (storeWith PassStatus.expired VisitorStatus.approved)).passes[0]? = some p' ∧
      p'.status = PassStatus.revoked ∧ p'.status ≠ p.status :=
  ⟨{ samplePass with status := PassStatus.expired },
    { samplePass with status := PassStatus.revoked }, rfl, rfl, by decide, rfl, by decide⟩

/-! ## Status and check logs -/

theorem mostRecentLog_append_last (logs : List CheckLog) (l : CheckLog)
    (h : ∀ x ∈ logs, x.timestamp ≤ l.timestamp) : mostRecentLog (logs ++ [l]) = some l := by
  induction logs with
  | nil => rfl
  | cons x xs ih =>
    have hx : x.timestamp ≤ l.timestamp := h x (List.mem_cons_self _ _)
    have hxs : ∀ y ∈ xs, y.timestamp ≤ l.timestamp :=
      fun y hy => h y (List.mem_cons_of_mem _ hy)
    show mostRecentLog (x :: (xs ++ [l])) = some l
    unfold mostRecentLog
    rw [ih hxs]
    simp [not_lt.mpr hx]

theorem logsOf_append_other (visitorId : ObjId) (logs : List CheckLog) (l : CheckLog)
    (h : l.visitorId ≠ visitorId) : logsOf visitorId (logs ++ [l]) = logsOf visitorId logs := by
  simp [logsOf, List.filter_append, h]

theorem logsOf_append_same (visitorId : ObjId) (logs : List CheckLog) (l : CheckLog)
    (h : l.visitorId = visitorId) :
    logsOf visitorId (logs ++ [l]) = logsOf visitorId logs ++ [l] := by
  simp [logsOf, List.filter_append, h]

/-- After a log of a visitor is appended at a time not earlier than any logged
timestamp, it is the visitor's most recent log. -/
theorem mostRecent_after_append (visitorId : ObjId) (logs : List CheckLog) (l : CheckLog)
    (hvis : l.visitorId = visitorId) (hclock : ∀ x ∈ logs, x.timestamp ≤ l.timestamp) :
    (mostRecentLog (logsOf visitorId (logs ++ [l]))).map (fun x => x.type) = some l.type := by
  rw [logsOf_append_same visitorId logs l hvis, mostRecentLog_append_last]
  · rfl
  · intro x hx
    exact hclock x (List.mem_filter.mp hx).1

theorem map_id_replaceFirst (new : Visitor) (l : List Visitor) :
    (replaceFirst (fun x => x._id == new._id) new l).map (fun v => v._id) =
      l.map (fun v => v._id) := by
  induction l with
  | nil => rfl
  | cons y ys ih =>
    by_cases hq : (y._id == new._id) = true
    · have : new._id = y._id := by simpa using (beq_iff_eq.mp hq).symm
      simp [replaceFirst, hq, this]
    · have hq1 : (y._id == new._id) = false := by simpa using hq
      simp [replaceFirst, hq1]
      exact ih

theorem mem_replaceFirst_of_nodup (new : Visitor) (l : List Visitor)
    (hnd : (l.map (fun v => v._id)).Nodup) (v : Visitor)
    (hv : v ∈ replaceFirst (fun x => x._id == new._id) new l) :
    v = new ∨ (v ∈ l ∧ v._id ≠ new._id) := by
  induction l with
  | nil => simp [replaceFirst] at hv
  | cons y ys ih =>
    rw [List.map_cons, List.nodup_cons] at hnd
    by_cases hq : (y._id == new._id) = true
    · have hy : y._id = new._id := beq_iff_eq.mp hq
      simp only [replaceFirst, hq, if_true, List.mem_cons] at hv
      rcases hv with h | h
      · exact Or.inl h
      · right
        refine ⟨List.mem_cons_of_mem _ h, ?_⟩
        intro hvid
        apply hnd.1
        rw [hy, ← hvid]
        exact List.mem_map_of_mem _ h
    · have hq1 : (y._id == new._id) = false := by simpa using hq
      simp only [replaceFirst, hq1, Bool.false_eq_true, if_false, List.mem_cons] at hv
      rcases hv with h | h
      · right
        subst h
        exact ⟨List.mem_cons_self _ _, by simpa using hq⟩
      · rcases ih hnd.2 h with h1 | ⟨h1, h2⟩
        · exact Or.inl h1
        · exact Or.inr ⟨List.mem_cons_of_mem _ h1, h2⟩

/-- Unique identifiers and status/log consistency after a loaded visitor is
saved and the check logs become `logs`, when the logs of the other visitors are
as before and the saved status agrees with the visitor's most recent log. -/
theorem consistent_save (s : Store) (new : Visitor) (passes : List Pass)
    (logs : List CheckLog) (hu : UniqueVisitorIds s) (hc : StatusLogConsistent s)
    (hothers : ∀ vid, vid ≠ new._id → logsOf vid logs = logsOf vid s.checkLogs)
    (hin : new.status = VisitorStatus.checked_in →
      (mostRecentLog (logsOf new._id logs)).map (fun x => x.type) = some CheckType.check_in)
    (hout : new.status = VisitorStatus.checked_out →
      (mostRecentLog (logsOf new._id logs)).map (fun x => x.type) =
        some CheckType.check_out) :
    UniqueVisitorIds
        { visitors := replaceFirst (fun x => x._id == new._id) new s.visitors
          passes := passes
          checkLogs := logs } ∧
      StatusLogConsistent
        { visitors := replaceFirst (fun x => x._id == new._id) new s.visitors
          passes := passes
          checkLogs := logs } := by
  constructor
  · show ((replaceFirst (fun x => x._id == new._id) new s.visitors).map
      (fun v => v._id)).Nodup
    rw [map_id_replaceFirst]
    exact hu
  · intro v hv
    rcases mem_replaceFirst_of_nodup new s.visitors hu v hv with h | ⟨h1, h2⟩
    · subst h
      exact ⟨hin, hout⟩
    · have := hc v h1
      unfold Store.mostRecentType at this ⊢
      show (_ → (mostRecentLog (logsOf v._id logs)).map _ = _) ∧
        (_ → (mostRecentLog (logsOf v._id logs)).map _ = _)
      rw [hothers v._id h2]
      exact this

theorem consistent_of_eq (s s' : Store) (hv : s'.visitors = s.visitors)
    (hl : s'.checkLogs = s.checkLogs) (hu : UniqueVisitorIds s)
    (hc : StatusLogConsistent s) : UniqueVisitorIds s' ∧ StatusLogConsistent s' := by
  constructor
  · unfold UniqueVisitorIds; rw [hv]; exact hu
  · intro v hmem
    rw [hv] at hmem
    have := hc v hmem
    unfold Store.mostRecentType at this ⊢
    rw [hl]
    exact this

theorem findVisitor_mem (s : Store) (id : ObjId) (visitor : Visitor)
    (h : s.findVisitor id = some visitor) : visitor ∈ s.visitors :=
  List.mem_of_find?_eq_some h

/-- Saving a loaded visitor whose status is unchanged, or is neither
`checked_in` nor `checked_out`, keeps unique identifiers and consistency. -/
theorem consistent_saveVisitor (s : Store) (id : ObjId) (old new : Visitor)
    (hfind : s.findVisitor id = some old) (hid : new._id = old._id)
    (hstatus : new.status = old.status ∨
      (new.status ≠ VisitorStatus.checked_in ∧ new.status ≠ VisitorStatus.checked_out))
    (hu : UniqueVisitorIds s) (hc : StatusLogConsistent s) :
    UniqueVisitorIds (s.saveVisitor new) ∧ StatusLogConsistent (s.saveVisitor new) := by
  have hold := hc old (findVisitor_mem s id old hfind)
  unfold Store.mostRecentType at hold
  refine consistent_save s new s.passes s.checkLogs hu hc (fun _ _ => rfl) ?_ ?_
  · intro hin
    rcases hstatus with h | h
    · rw [hid]; exact hold.1 (h ▸ hin)
    · exact absurd hin h.1
  · intro hout
    rcases hstatus with h | h
    · rw [hid]; exact hold.2 (h ▸ hout)
    · exact absurd hout h.2

/-- One pass or check-log call with a monotone clock keeps unique identifiers
and status/log consistency. -/
theorem op_step (op : Op) (s : Store) (hclock : op.clockOk s) (hu : UniqueVisitorIds s)
    (hc : StatusLogConsistent s) :
    UniqueVisitorIds (op.apply s) ∧ StatusLogConsistent (op.apply s) := by
  cases op with
  | issue env user body =>
    exact consistent_of_eq s _ (issuePass_visitors_logs env user body s).1
      (issuePass_visitors_logs env user body s).2 hu hc
  | revoke id =>
    exact consistent_of_eq s _ (revokePass_visitors_logs id s).1
      (revokePass_visitors_logs id s).2 hu hc
  | verify now qrData =>
    exact consistent_of_eq s _ (verifyPass_visitors_logs now qrData s).1
      (verifyPass_visitors_logs now qrData s).2 hu hc
  | checkIn now user body =>
    rcases checkInVisitor_unchanged_or_created now user body s with h | h
    · exact consistent_of_eq s _ h.1 h.2 hu hc
    · obtain ⟨_, _, pass, visitor, _, _, _, _, _, _, _, hres⟩ :=
        checkInVisitor_created now user body s h
      show UniqueVisitorIds (checkInVisitor now user body s).2 ∧
        StatusLogConsistent (checkInVisitor now user body s).2
      rw [hres]
      refine consistent_save s
        { visitor with status := VisitorStatus.checked_in, actualArrival := some now }
        s.passes (s.checkLogs ++ [checkInLogOf now user body pass visitor s]) hu hc ?_ ?_ ?_
      · intro vid hvid
        exact logsOf_append_other vid s.checkLogs _ (fun h => hvid h.symm)
      · intro _
        exact mostRecent_after_append visitor._id s.checkLogs
          (checkInLogOf now user body pass visitor s) rfl hclock
      · intro hout
        cases hout
  | checkOut now user body =>
    rcases checkOutVisitor_unchanged_or_created now user body s with h | h
    · exact consistent_of_eq s _ (by rw [Op.apply, h]) (by rw [Op.apply, h]) hu hc
    · obtain ⟨_, _, pass, visitor, _, _, _, _, _, hres⟩ :=
        checkOutVisitor_created now user body s h
      show UniqueVisitorIds (checkOutVisitor now user body s).2 ∧
        StatusLogConsistent (checkOutVisitor now user body s).2
      rw [hres]
      refine consistent_save s
        { visitor with status := VisitorStatus.checked_out, actualDeparture := some now }
        s.passes (s.checkLogs ++ [checkOutLogOf now user body pass visitor s]) hu hc ?_ ?_ ?_
      · intro vid hvid
        exact logsOf_append_other vid s.checkLogs _ (fun h => hvid h.symm)
      · intro hin
        cases hin
      · intro _
        exact mostRecent_after_append visitor._id s.checkLogs
          (checkOutLogOf now user body pass visitor s) rfl hclock

/-- `updateVisitorStatus` keeps unique identifiers and status/log
consistency. -/
theorem updateVisitorStatus_step (id : ObjId) (user : User) (status : Option VisitorStatus)
    (s : Store) (hu : UniqueVisitorIds s) (hc : StatusLogConsistent s) :
    UniqueVisitorIds (updateVisitorStatus id user status s).2 ∧
      StatusLogConsistent (updateVisitorStatus id user status s).2 := by
  rcases updateVisitorStatus_store id user status s with h | ⟨old, st, hfind, hst, h⟩
  · rw [h]; exact ⟨hu, hc⟩
  · rw [h]
    refine consistent_saveVisitor s id old _ hfind rfl (Or.inr ?_) hu hc
    rcases hst with h1 | h1 <;> subst h1 <;> constructor <;> (intro h2; simp at h2)

/-- One admissible call of the API keeps unique identifiers and status/log
consistency. -/
theorem apiOp_step (op : ApiOp) (s : Store) (hadm : op.admissible s)
    (hu : UniqueVisitorIds s) (hc : StatusLogConsistent s) :
    UniqueVisitorIds (op.apply s) ∧ StatusLogConsistent (op.apply s) := by
  cases op with
  | pass op => exact op_step op s hadm hu hc
  | createVisitor users body =>
    show UniqueVisitorIds (createVisitor users body s).2 ∧
      StatusLogConsistent (createVisitor users body s).2
    rcases createVisitor_store users body s with h | ⟨v, hid, hst, _, _, h⟩
    · rw [h]; exact ⟨hu, hc⟩
    · rw [h]
      constructor
      · show ((s.visitors ++ [v]).map (fun x => x._id)).Nodup
        rw [List.map_append, List.nodup_append]
        refine ⟨hu, by simp, ?_⟩
        intro a ha hb
        have hav : a = v._id := by simpa using hb
        have := lt_freshId (s.visitors.map (fun x => x._id)) a ha
        rw [hav, hid] at this
        exact absurd this (lt_irrefl _)
      · intro x hx
        have hx' : x ∈ s.visitors ∨ x = v := by
          simpa [Store.insertVisitor] using hx
        rcases hx' with h1 | h1
        · exact hc x h1
        · subst h1
          rw [hst]
          constructor <;> (intro h2; cases h2)
  | updateVisitor id user body =>
    show UniqueVisitorIds (updateVisitor id user body s).2 ∧
      StatusLogConsistent (updateVisitor id user body s).2
    rcases updateVisitor_store id user body s with h | ⟨old, hfind, h⟩
    · rw [h]; exact ⟨hu, hc⟩
    · rw [h]
      refine consistent_saveVisitor s id old _ hfind rfl ?_ hu hc
      by_cases hrole : ["admin", "security"].contains user.role = true
      · have hbody := hadm hrole
        cases hb : body.status with
        | none => left; simp [applyAllowedFields, hb]
        | some st =>
          right
          simp only [applyAllowedFields, hrole, hb, if_true, Option.getD_some]
          rw [hb] at hbody
          exact ⟨fun h1 => hbody.1 (by rw [h1]), fun h1 => hbody.2 (by rw [h1])⟩
      · left
        have hrole' : ["admin", "security"].contains user.role = false :=
          Bool.eq_false_iff.mpr hrole
        simp only [applyAllowedFields, hrole', Bool.false_eq_true, if_false]
  | uploadPhoto id file =>
    show UniqueVisitorIds (uploadPhoto id file s).2 ∧
      StatusLogConsistent (uploadPhoto id file s).2
    rcases uploadPhoto_store id file s with h | ⟨old, filename, hfind, h⟩
    · rw [h]; exact ⟨hu, hc⟩
    · rw [h]
      exact consistent_saveVisitor s id old _ hfind rfl (Or.inl rfl) hu hc
  | updateVisitorStatus id user status =>
    exact updateVisitorStatus_step id user status s hu hc

/-- A run of admissible calls keeps unique identifiers and status/log
consistency. -/
theorem runApi_consistent (ops : List ApiOp) (s : Store) (hadm : admissibleRun ops s)
    (hu : UniqueVisitorIds s) (hc : StatusLogConsistent s) :
    UniqueVisitorIds (runApi ops s) ∧ StatusLogConsistent (runApi ops s) := by
  induction ops generalizing s with
  | nil => exact ⟨hu, hc⟩
  | cons op ops ih =>
    obtain ⟨h1, h2⟩ := hadm
    obtain ⟨hu1, hc1⟩ := apiOp_step op s h1 hu hc
    exact ih (op.apply s) h2 hu1 hc1

/-- C17 (the claim as stated fails): after a visitor is registered, an
`updateVisitor` of an admin that carries `status: 'checked_in'` leaves a visitor
with status `checked_in` in a store with no check log. -/
theorem updateVisitor_breaks_status_log_consistency :
    ¬ StatusLogConsistent
      (runApi [ApiOp.createVisitor [sampleHost] sampleCreate,
               ApiOp.updateVisitor 1 sampleAdmin forceCheckedIn] emptyStore) := by
  unfold StatusLogConsistent
  decide

/-- C17 (as amended): in every store reached from the empty store, and from
any store with unique visitor identifiers in which status and check logs agree,
by a sequence of API calls executed one at a time, in which the clock of a
check-in or check-out is never earlier than a logged timestamp and no
`updateVisitor` of an admin or security user carries status `checked_in` or
`checked_out`, each visitor with status `checked_in` has a most recent check log
of type `check_in` and each visitor with status `checked_out` one of type
`check_out`. -/
theorem status_log_consistent_reachable (ops : List ApiOp) (s : Store)
    (hu : UniqueVisitorIds s) (hc : StatusLogConsistent s) (hadm : admissibleRun ops s) :
    StatusLogConsistent (runApi ops s) ∧
      ∀ ops' : List ApiOp, admissibleRun ops' emptyStore →
        StatusLogConsistent (runApi ops' emptyStore) :=
  ⟨(runApi_consistent ops s hadm hu hc).2,
    fun ops' hadm' => (runApi_consistent ops' emptyStore hadm' List.nodup_nil
      (fun _ hv => absurd hv (List.not_mem_nil _))).2⟩

theorem status_log_consistent_reachable_witness :
    UniqueVisitorIds (storeWith PassStatus.active VisitorStatus.approved) ∧
      StatusLogConsistent (storeWith PassStatus.active VisitorStatus.approved) ∧
      admissibleRun
        [ApiOp.pass (Op.checkIn 6000 sampleUser sampleCheckIn),
         ApiOp.createVisitor [sampleHost] sampleCreate,
         ApiOp.pass (Op.checkOut 7000 sampleUser sampleCheckOut),
         ApiOp.updateVisitor 2 sampleHost forceCheckedIn]
        (storeWith PassStatus.active VisitorStatus.approved) ∧
      (runApi
        [ApiOp.pass (Op.checkIn 6000 sampleUser sampleCheckIn),
         ApiOp.createVisitor [sampleHost] sampleCreate,
         ApiOp.pass (Op.checkOut 7000 sampleUser sampleCheckOut),
         ApiOp.updateVisitor 2 sampleHost forceCheckedIn]
        (storeWith PassStatus.active VisitorStatus.approved)).visitors.map
          (fun v => v.status) = [VisitorStatus.checked_out, VisitorStatus.pending] ∧
      StatusLogConsistent
        (runApi
          [ApiOp.pass (Op.checkIn 6000 sampleUser sampleCheckIn),
           ApiOp.createVisitor [sampleHost] sampleCreate,
           ApiOp.pass (Op.checkOut 7000 sampleUser sampleCheckOut),
           ApiOp.updateVisitor 2 sampleHost forceCheckedIn]
          (storeWith PassStatus.active VisitorStatus.approved)) := by
  have hu : UniqueVisitorIds (storeWith PassStatus.active VisitorStatus.approved) := by
    unfold UniqueVisitorIds; decide
  have hc : StatusLogConsistent (storeWith PassStatus.active VisitorStatus.approved) := by
    unfold StatusLogConsistent; decide
  have hadm : admissibleRun
      [ApiOp.pass (Op.checkIn 6000 sampleUser sampleCheckIn),
       ApiOp.createVisitor [sampleHost] sampleCreate,
       ApiOp.pass (Op.checkOut 7000 sampleUser sampleCheckOut),
       ApiOp.updateVisitor 2 sampleHost forceCheckedIn]
      (storeWith PassStatus.active VisitorStatus.approved) := by
    refine ⟨?_, trivial, ?_, ?_, trivial⟩
    · intro l hl
      exact absurd hl (List.not_mem_nil _)
    · show ∀ l ∈ (ApiOp.apply (ApiOp.createVisitor [sampleHost] sampleCreate)
          (ApiOp.apply (ApiOp.pass (Op.checkIn 6000 sampleUser sampleCheckIn))
            (storeWith PassStatus.active VisitorStatus.approved))).checkLogs,
        l.timestamp ≤ 7000
      decide
    · intro hrole
      exact absurd hrole (by decide)
  exact ⟨hu, hc, hadm, by decide,
    (status_log_consistent_reachable _ _ hu hc hadm).1⟩

/-- C18: from a store with unique visitor identifiers in which status and check
logs agree, one call of `issuePass`, `revokePass`, `verifyPass`,
`checkInVisitor` or `checkOutVisitor` whose clock is not earlier than any logged
timestamp, and one call of `updateVisitorStatus`, lead to a store in which
status and check logs agree (and identifiers are unique). -/
theorem status_log_consistency_step (s : Store) (hu : UniqueVisitorIds s)
    (hc : StatusLogConsistent s) :
    (∀ op : Op, op.clockOk s →
      StatusLogConsistent (op.apply s) ∧ UniqueVisitorIds (op.apply s)) ∧
    (∀ id user status,
      StatusLogConsistent (updateVisitorStatus id user status s).2 ∧
        UniqueVisitorIds (updateVisitorStatus id user status s).2) :=
  ⟨fun op hclock => (op_step op s hclock hu hc).symm,
    fun id user status => (updateVisitorStatus_step id user status s hu hc).symm⟩

theorem status_log_consistency_step_witness :
    UniqueVisitorIds staleStore ∧ StatusLogConsistent staleStore ∧
      (Op.checkIn 181400001 sampleUser sampleCheckIn).clockOk staleStore ∧
      (checkInVisitor 181400001 sampleUser sampleCheckIn staleStore).1.status = 201 ∧
      StatusLogConsistent ((Op.checkIn 181400001 sampleUser sampleCheckIn).apply staleStore) ∧
      StatusLogConsistent
        (updateVisitorStatus 1 sampleAdmin (some VisitorStatus.approved) staleStore).2 := by
  have hu : UniqueVisitorIds staleStore := by
    unfold UniqueVisitorIds; decide
  have hc : StatusLogConsistent staleStore := by
    unfold StatusLogConsistent; decide
  have hclock : (Op.checkIn 181400001 sampleUser sampleCheckIn).clockOk staleStore := by
    show ∀ l ∈ staleStore.checkLogs, l.timestamp ≤ 181400001
    decide
  exact ⟨hu, hc, hclock, by decide,
    ((status_log_consistency_step staleStore hu hc).1 _ hclock).1,
    ((status_log_consistency_step staleStore hu hc).2 1 sampleAdmin
      (some VisitorStatus.approved)).1⟩

/-! ## Claims on revocation and on the visitor update -/

/-- C21: `revokePass` answers 404 for a missing pass and 400
`Pass is already revoked` for a revoked pass, with the store unchanged; for any
other existing pass it answers 200 and the store differs in exactly that pass,
whose status becomes `revoked` with every other field kept. -/
theorem revokePass_effect (id : ObjId) (s : Store) :
    (s.findPass id = none →
      revokePass id s = ({ status := 404, message := "Pass not found" }, s)) ∧
    (∀ pass, s.findPass id = some pass → pass.status = PassStatus.revoked →
      revokePass id s = ({ status := 400, message := "Pass is already revoked" }, s)) ∧
    (∀ pass, s.findPass id = some pass → pass.status ≠ PassStatus.revoked →
      ∃ before after, s.passes = before ++ pass :: after ∧
        (∀ other ∈ before, other._id ≠ id) ∧
        revokePass id s =
          ({ status := 200, message := "Pass revoked successfully",
             pass := some { pass with status := PassStatus.revoked } },
           { visitors := s.visitors
             passes := before ++ { pass with status := PassStatus.revoked } :: after
             checkLogs := s.checkLogs })) := by
  refine ⟨?_, ?_, ?_⟩
  · intro hp
    simp [revokePass, hp]
  · intro pass hp hr
    simp [revokePass, hp, hr]
  · intro pass hp hr
    have hpid := findPass_id s id pass hp
    subst hpid
    obtain ⟨before, after, h1, h2, h3⟩ :=
      replaceFirst_split (fun x : Pass => x._id == pass._id)
        { pass with status := PassStatus.revoked } pass s.passes hp
    refine ⟨before, after, h1, ?_, ?_⟩
    · intro other ho
      simpa using h3 other ho
    · simp only [revokePass, hp, hr, if_false, Store.savePass, h2]

theorem revokePass_effect_witness :
    revokePass 1 sampleStore = ({ status := 404, message := "Pass not found" }, sampleStore) ∧
      revokePass 1 (storeWith PassStatus.revoked VisitorStatus.approved) =
        ({ status := 400, message := "Pass is already revoked" },
          storeWith PassStatus.revoked VisitorStatus.approved) ∧
      (revokePass 1 (storeWith PassStatus.active VisitorStatus.approved)).1 =
        { status := 200, message := "Pass revoked successfully",
          pass := some { samplePass with status := PassStatus.revoked } } := by
  refine ⟨(revokePass_effect 1 sampleStore).1 rfl,
    (revokePass_effect 1 (storeWith PassStatus.revoked VisitorStatus.approved)).2.1
      { samplePass with status := PassStatus.revoked } rfl rfl, ?_⟩
  obtain ⟨before, after, _, _, h⟩ :=
    (revokePass_effect 1 (storeWith PassStatus.active VisitorStatus.approved)).2.2
      samplePass rfl (by decide)
  rw [h]

theorem not_admin_or_security (role : String) (h1 : role ≠ "admin") (h2 : role ≠ "security") :
    ["admin", "security"].contains role = false := by
  simp [h1, h2]

/-- C28: `updateVisitor` of a user whose role is neither `admin` nor
`security` leaves the status of every visitor unchanged, whatever the body; an
employee who is not the visitor's host gets 403 `Access denied` with the store
unchanged; and for every user the store is unchanged or differs in the one
loaded visitor, whose `_id`, `hostId`, `photo`, `idProof`, `actualArrival` and
`actualDeparture` are kept (and whose `status` is kept unless the user is admin
or security). -/
theorem updateVisitor_frame (id : ObjId) (user : User) (body : UpdateVisitorBody)
    (s : Store) :
    (user.role ≠ "admin" → user.role ≠ "security" →
      (updateVisitor id user body s).2.visitors.map (fun v => v.status) =
        s.visitors.map (fun v => v.status)) ∧
    (∀ visitor, s.findVisitor id = some visitor → user.role = "employee" →
      visitor.hostId ≠ user._id →
      updateVisitor id user body s = ({ status := 403, message := "Access denied" }, s)) ∧
    ((updateVisitor id user body s).2 = s ∨
      ∃ before old after new,
        s.findVisitor id = some old ∧ s.visitors = before ++ old :: after ∧
        (updateVisitor id user body s).2 =
          { visitors := before ++ new :: after
            passes := s.passes
            checkLogs := s.checkLogs } ∧
        new._id = old._id ∧ new.hostId = old.hostId ∧ new.photo = old.photo ∧
        new.idProof = old.idProof ∧ new.actualArrival = old.actualArrival ∧
        new.actualDeparture = old.actualDeparture ∧
        (user.role ≠ "admin" → user.role ≠ "security" → new.status = old.status)) := by
  refine ⟨?_, ?_, ?_⟩
  · intro h1 h2
    have hrole := not_admin_or_security user.role h1 h2
    rcases updateVisitor_store id user body s with h | ⟨old, hfind, h⟩
    · rw [h]
    · rw [h, hrole]
      exact map_saveVisitor (fun v => v.status) s id old _ hfind
        (findVisitor_id s id old hfind) (by simp [applyAllowedFields])
  · intro visitor hv hrole hhost
    simp [updateVisitor, hv, hrole, hhost]
  · rcases updateVisitor_store id user body s with h | ⟨old, hfind, h⟩
    · exact Or.inl h
    · right
      obtain ⟨before, after, h1, _, h3⟩ :=
        saveVisitor_split s id old
          (applyAllowedFields (["admin", "security"].contains user.role) body old) hfind
          (findVisitor_id s id old hfind)
      refine ⟨before, old, after,
        applyAllowedFields (["admin", "security"].contains user.role) body old,
        hfind, h1, ?_, rfl, rfl, rfl, rfl, rfl, rfl, ?_⟩
      · rw [h]
        exact congrArg (fun vs => Store.mk vs s.passes s.checkLogs) h3
      · intro h1 h2
        rw [not_admin_or_security user.role h1 h2]
        simp [applyAllowedFields]

theorem updateVisitor_frame_witness :
    (updateVisitor 1 sampleHost forceCheckedIn sampleStore).2.visitors.map
        (fun v => v.status) = sampleStore.visitors.map (fun v => v.status) ∧
      updateVisitor 1 { _id := 3, role := "employee" } forceCheckedIn sampleStore =
        ({ status := 403, message := "Access denied" }, sampleStore) :=
  ⟨(updateVisitor_frame 1 sampleHost forceCheckedIn sampleStore).1 (by decide) (by decide),
    (updateVisitor_frame 1 { _id := 3, role := "employee" } forceCheckedIn sampleStore).2.1
      sampleVisitor rfl rfl (by decide)⟩

/-! ## Claims on what a scan depends on -/

/-- Looking a visitor up by identifier in two collections that agree up to
`status` finds nothing in both, or two visitors that agree up to `status`. -/
theorem find_sameButStatus (id : ObjId) (l₁ l₂ : List Visitor)
    (h : List.Forall₂ SameButStatus l₁ l₂) :
    (l₁.find? (fun v => v._id == id) = none ∧ l₂.find? (fun v => v._id == id) = none) ∨
      ∃ v w, l₁.find? (fun v => v._id == id) = some v ∧
        l₂.find? (fun v => v._id == id) = some w ∧ SameButStatus v w := by
  induction h with
  | nil => left; exact ⟨rfl, rfl⟩
  | @cons v w _ _ hvw _ ih =>
    have hidEq : w._id = v._id := by
      have := congrArg Visitor._id hvw
      simpa using this
    by_cases hv : v._id = id
    · right
      exact ⟨v, w, by simp [List.find?, hv], by simp [List.find?, hidEq, hv], hvw⟩
    · have hb : (v._id == id) = false := by simpa using hv
      have hb' : (w._id == id) = false := by rw [hidEq]; exact hb
      rcases ih with ⟨h1, h2⟩ | ⟨v', w', h1, h2, h3⟩
      · left
        exact ⟨by simp [List.find?, hb, h1], by simp [List.find?, hb', h2]⟩
      · right
        exact ⟨v', w', by simp [List.find?, hb, h1], by simp [List.find?, hb', h2], h3⟩

/-- C30: on two stores with the same passes and check logs whose visitors
agree on every field other than `status`, `checkInVisitor` gives the same
answer, the same check logs and the same passes: the status of the visitor is
never read. -/
theorem checkIn_ignores_visitor_status (now : Time) (user : User) (body : CheckInBody)
    (s₁ s₂ : Store) (hpasses : s₁.passes = s₂.passes)
    (hlogs : s₁.checkLogs = s₂.checkLogs)
    (hvis : List.Forall₂ SameButStatus s₁.visitors s₂.visitors) :
    (checkInVisitor now user body s₁).1 = (checkInVisitor now user body s₂).1 ∧
      (checkInVisitor now user body s₁).2.checkLogs =
        (checkInVisitor now user body s₂).2.checkLogs ∧
      (checkInVisitor now user body s₁).2.passes =
        (checkInVisitor now user body s₂).2.passes := by
  obtain ⟨visitors₁, passes₁, logs₁⟩ := s₁
  obtain ⟨visitors₂, passes₂, logs₂⟩ := s₂
  simp only at hpasses hlogs hvis
  subst hpasses hlogs
  obtain ⟨qrData, location, temperature, notes⟩ := body
  cases qrData with
  | missing => exact ⟨rfl, rfl, rfl⟩
  | malformed => exact ⟨rfl, rfl, rfl⟩
  | json value =>
    cases value with
    | null => exact ⟨rfl, rfl, rfl⟩
    | primitive => exact ⟨rfl, rfl, rfl⟩
    | object payload =>
      cases hid : payload.passId with
      | none => simp [checkInVisitor, JsonValue.passId, hid, Store.findPassById]
      | some id =>
        cases hp : passes₁.find? (fun p => p._id == id) with
        | none =>
          simp [checkInVisitor, JsonValue.passId, hid, Store.findPassById, Store.findPass, hp]
        | some pass =>
          rw [checkInVisitor_found now user _ payload id pass
              (Store.mk visitors₁ passes₁ logs₁) rfl hid hp,
            checkInVisitor_found now user _ payload id pass
              (Store.mk visitors₂ passes₁ logs₁) rfl hid hp]
          by_cases hact : pass.status = PassStatus.active
          · by_cases hexp : pass.expiresAt < now
            · simp [hact, hexp, Store.savePass]
            · rcases find_sameButStatus pass.visitorId visitors₁ visitors₂ hvis with
                ⟨h1, h2⟩ | ⟨v, w, h1, h2, hvw⟩
              · simp [hact, hexp, Store.findVisitor, h1, h2]
              · have hwid : w._id = v._id := by
                  have := congrArg Visitor._id hvw
                  simpa using this
                have hw : ({ w with status := VisitorStatus.checked_in,
                                    actualArrival := some now } : Visitor) =
                    { v with status := VisitorStatus.checked_in,
                             actualArrival := some now } := by
                  rw [hvw]
                simp only [hact, ne_eq, not_true_eq_false, if_false, hexp, Store.findVisitor,
                  h1, h2, hw, hwid, Store.findExistingCheckIn, checkInLogOf]
                by_cases hin : alreadyCheckedIn
                    (latestLog (logs₁.filter (checkInQuery now v._id))) = true
                · simp [hin]
                · simp only [Visitor.mk.injEq] at hw
                  cases hval : temperatureValid temperature <;>
                    simp [hin, hval, Store.saveVisitor, Store.insertCheckLog, hw]
          · simp [hact]

theorem checkIn_ignores_visitor_status_witness :
    (checkInVisitor 6000 sampleUser sampleCheckIn
        (storeWith PassStatus.active VisitorStatus.rejected)).1 =
      (checkInVisitor 6000 sampleUser sampleCheckIn
        (storeWith PassStatus.active VisitorStatus.approved)).1 ∧
    (checkInVisitor 6000 sampleUser sampleCheckIn
        (storeWith PassStatus.active VisitorStatus.rejected)).1.status = 201 := by
  have h := (checkIn_ignores_visitor_status 6000 sampleUser sampleCheckIn
    (storeWith PassStatus.active VisitorStatus.rejected)
    (storeWith PassStatus.active VisitorStatus.approved) rfl rfl
    (List.Forall₂.cons rfl List.Forall₂.nil)).1
  exact ⟨h, by rw [h]; decide⟩

/-- C24: `verifyPass`, `checkInVisitor` and `checkOutVisitor` give the same
answer and the same store for any two object payloads with the same `passId`,
whatever their other members; and the token drawn at issuance is stored on no
pass record: with any other token `issuePass` leaves the same store, whose pass
collection is the one it started from. -/
theorem scan_reads_only_passId (now : Time) (user : User) (location : Option String)
    (temperature : Option Int) (notes : Option String) (p₁ p₂ : QrPayload) (s : Store)
    (h : p₁.passId = p₂.passId) :
    verifyPass now (QrData.json (JsonValue.object p₁)) s =
        verifyPass now (QrData.json (JsonValue.object p₂)) s ∧
      checkInVisitor now user
          { qrData := QrData.json (JsonValue.object p₁), location := location,
            temperature := temperature, notes := notes } s =
        checkInVisitor now user
          { qrData := QrData.json (JsonValue.object p₂), location := location,
            temperature := temperature, notes := notes } s ∧
      checkOutVisitor now user
          { qrData := QrData.json (JsonValue.object p₁), location := location,
            notes := notes } s =
        checkOutVisitor now user
          { qrData := QrData.json (JsonValue.object p₂), location := location,
            notes := notes } s ∧
      ∀ (env : Env) (token : String) (issuer : User) (body : IssueBody),
        (issuePass { env with token := token } issuer body s).2 =
            (issuePass env issuer body s).2 ∧
          (issuePass env issuer body s).2.passes = s.passes := by
  refine ⟨?_, ?_, ?_, ?_⟩
  · simp only [verifyPass, JsonValue.passId, h]
  · simp only [checkInVisitor, JsonValue.passId, h]
  · simp only [checkOutVisitor, JsonValue.passId, h]
  · intro env token issuer body
    rw [(issuePass_store env issuer body s).1,
      (issuePass_store { env with token := token } issuer body s).1]
    exact ⟨rfl, rfl⟩

theorem scan_reads_only_passId_witness :
    verifyPass 6000
        (QrData.json (JsonValue.object { samplePayload with token := none }))
        (storeWith PassStatus.active VisitorStatus.approved) =
      verifyPass 6000 (QrData.json (JsonValue.object samplePayload))
        (storeWith PassStatus.active VisitorStatus.approved) ∧
    (verifyPass 6000
        (QrData.json (JsonValue.object { samplePayload with token := none }))
        (storeWith PassStatus.active VisitorStatus.approved)).1.status = 200 ∧
    (issuePass { sampleEnv with token := "cd34" } sampleUser sampleIssue sampleStore).2 =
      (issuePass sampleEnv sampleUser sampleIssue sampleStore).2 := by
  have h := scan_reads_only_passId 6000 sampleUser none none none
    { samplePayload with token := none } samplePayload
    (storeWith PassStatus.active VisitorStatus.approved) rfl
  have h' := scan_reads_only_passId 6000 sampleUser none none none
    { samplePayload with token := none } samplePayload sampleStore rfl
  exact ⟨h.1, by rw [h.1]; decide, (h'.2.2.2 sampleEnv "cd34" sampleUser sampleIssue).1⟩

/-! ## Claims on the pass number -/

theorem lastSix_length (s : String) (h : 6 ≤ s.length) : (lastSix s).data.length = 6 := by
  have hlen : s.toList.length = s.length := rfl
  show (s.toList.drop (s.toList.length - 6)).length = 6
  rw [List.length_drop, hlen]
  omega

/-- C25 (the claim as stated fails): two passes created 1000000 milliseconds
apart with the same random draw get the same pass number. -/
theorem passNumber_collision :
    (1700000000000 : Time) ≠ 1700001000000 ∧
      generatePassNumber 1700000000000 "0.k3j9x2abcd" =
        generatePassNumber 1700001000000 "0.k3j9x2abcd" ∧
      generatePassNumber 1700000000000 "0.k3j9x2abcd" =
        generatePassNumber 1700001000000 "0.k3j9x2zzzz" := by
  decide

/-- C25 (as amended): for timestamps whose decimal text has at least six
digits, two numbers generated by the pre-save hook are equal exactly when the
last six digits of the timestamps are equal and the upper-cased random blocks
are equal; passes that differ in either receive different numbers. -/
theorem passNumber_eq_iff (now now' : Time) (random36 random36' : String)
    (h6 : 6 ≤ (toString now).length) (h6' : 6 ≤ (toString now').length) :
    generatePassNumber now random36 = generatePassNumber now' random36' ↔
      lastSix (toString now) = lastSix (toString now') ∧
        randomBlock random36 = randomBlock random36' := by
  constructor
  · intro h
    have hd := congrArg String.data h
    simp only [generatePassNumber, String.data_append, List.append_assoc] at hd
    have h1 := List.append_cancel_left hd
    have hlen : (lastSix (toString now)).data.length =
        (lastSix (toString now')).data.length := by
      rw [lastSix_length _ h6, lastSix_length _ h6']
    obtain ⟨ha, hb⟩ := List.append_inj h1 hlen
    have hb' := List.append_cancel_left hb
    exact ⟨String.ext ha, String.ext hb'⟩
  · rintro ⟨ha, hb⟩
    simp only [generatePassNumber, ha, hb]

theorem passNumber_eq_iff_witness :
    6 ≤ (toString (1700000000000 : Time)).length ∧
      6 ≤ (toString (1700001000000 : Time)).length ∧
      (generatePassNumber 1700000000000 "0.k3j9x2abcd" =
          generatePassNumber 1700001000000 "0.zzzzzzabcd" ↔
        lastSix (toString (1700000000000 : Time)) =
            lastSix (toString (1700001000000 : Time)) ∧
          randomBlock "0.k3j9x2abcd" = randomBlock "0.zzzzzzabcd") :=
  ⟨by decide, by decide,
    passNumber_eq_iff 1700000000000 1700001000000 "0.k3j9x2abcd" "0.zzzzzzabcd"
      (by decide) (by decide)⟩

/-! ## Claims on the guard and the routes -/

/-- C22: the guard `authorizeRoles('admin', 'security')` calls `next()` exactly
when a user is present whose role is `admin` or `security`, and the handler
then runs; with no user the route answers 401, with any other role 403
`Insufficient permissions`, in both cases with the store unchanged and whatever
the handler is. -/
theorem authorizeRoles_admin_security (user : Option User)
    (handler : User → Store → Response × Store) (s : Store) :
    ((∃ u, authorizeRoles ["admin", "security"] user = Except.ok u) ↔
      ∃ u, user = some u ∧ (u.role = "admin" ∨ u.role = "security")) ∧
    (user = none →
      guardedRoute ["admin", "security"] handler user s =
        ({ status := 401, message := "Authentication required" }, s)) ∧
    (∀ u, user = some u → u.role ≠ "admin" → u.role ≠ "security" →
      guardedRoute ["admin", "security"] handler user s =
        ({ status := 403, message := "Insufficient permissions" }, s)) ∧
    (∀ u, user = some u → (u.role = "admin" ∨ u.role = "security") →
      guardedRoute ["admin", "security"] handler user s = handler u s) := by
  refine ⟨?_, ?_, ?_, ?_⟩
  · cases user with
    | none => simp [authorizeRoles]
    | some u =>
      by_cases hrole : ["admin", "security"].contains u.role = true
      · have hor : u.role = "admin" ∨ u.role = "security" := by simpa using hrole
        simp only [authorizeRoles, hrole, Bool.not_true, Bool.false_eq_true, if_false]
        exact ⟨fun _ => ⟨u, rfl, hor⟩, fun _ => ⟨u, rfl⟩⟩
      · have hrole' : ["admin", "security"].contains u.role = false :=
          Bool.eq_false_iff.mpr hrole
        have hnor : ¬ (u.role = "admin" ∨ u.role = "security") := by simpa using hrole
        simp only [authorizeRoles, hrole', Bool.not_false, if_true]
        constructor
        · rintro ⟨_, h⟩
          cases h
        · rintro ⟨v, hv, hor⟩
          cases hv
          exact absurd hor hnor
  · intro hnone
    subst hnone
    rfl
  · intro u hu h1 h2
    subst hu
    simp only [guardedRoute, authorizeRoles, not_admin_or_security u.role h1 h2,
      Bool.not_false, if_true]
  · intro u hu hor
    subst hu
    have hrole : ["admin", "security"].contains u.role = true := by simpa using hor
    simp only [guardedRoute, authorizeRoles, hrole, Bool.not_true, Bool.false_eq_true,
      if_false]

theorem authorizeRoles_admin_security_witness :
    postPass sampleEnv sampleIssue none sampleStore =
        ({ status := 401, message := "Authentication required" }, sampleStore) ∧
      postPass sampleEnv sampleIssue (some sampleHost) sampleStore =
        ({ status := 403, message := "Insufficient permissions" }, sampleStore) ∧
      postPass sampleEnv sampleIssue (some sampleUser) sampleStore =
        issuePass sampleEnv sampleUser sampleIssue sampleStore :=
  ⟨(authorizeRoles_admin_security none (fun u => issuePass sampleEnv u sampleIssue)
      sampleStore).2.1 rfl,
    (authorizeRoles_admin_security (some sampleHost)
      (fun u => issuePass sampleEnv u sampleIssue) sampleStore).2.2.1 sampleHost rfl
      (by decide) (by decide),
    (authorizeRoles_admin_security (some sampleUser)
      (fun u => issuePass sampleEnv u sampleIssue) sampleStore).2.2.2 sampleUser rfl
      (Or.inr rfl)⟩

/-- C23 (the code departs from the claim): the route `GET /:id` is registered
before `GET /stats`, so a GET request for `/stats` is dispatched to
`getCheckLogById` with no role guard, and no GET path reaches
`getCheckLogStats`, although its route is registered. -/
theorem stats_route_shadowed :
    dispatch checklogRoutes Method.get ["stats"] =
        some { method := Method.get, path := [Segment.param "id"], guard := none,
               handler := CheckLogHandler.getCheckLogById } ∧
      ({ method := Method.get, path := [Segment.literal "stats"],
         guard := some ["admin", "security"],
         handler := CheckLogHandler.getCheckLogStats } : Route) ∈ checklogRoutes ∧
      ∀ path : List String,
        (dispatch checklogRoutes Method.get path).map (fun r => r.handler) ≠
          some CheckLogHandler.getCheckLogStats := by
  refine ⟨by decide, by decide, ?_⟩
  intro path
  rcases path with _ | ⟨x, _ | ⟨y, rest⟩⟩
  · decide
  · simp [dispatch, checklogRoutes, pathMatches, Segment.accepts, List.find?]
  · have hp : ∀ (name seg : String), (Segment.param name).accepts seg = true :=
      fun _ _ => rfl
    by_cases hx : (Segment.literal "visitor").accepts x = true
    · cases rest with
      | nil => simp [dispatch, checklogRoutes, pathMatches, List.find?, hx, hp]
      | cons z zs => simp [dispatch, checklogRoutes, pathMatches, List.find?, hx, hp]
    · have hx' : (Segment.literal "visitor").accepts x = false := Bool.eq_false_iff.mpr hx
      simp [dispatch, checklogRoutes, pathMatches, List.find?, hx', hp]

/-! ## Claims on interleaved and failing executions -/

/-- `checkInVisitor` is its reads followed by its writes. -/
theorem checkInVisitor_eq_reads_writes (now : Time) (user : User) (body : CheckInBody)
    (s : Store) :
    checkInVisitor now user body s =
      match checkInReads now body s with
      | Except.error r => r
      | Except.ok docs => checkInWrites now user body docs s := by
  obtain ⟨qrData, location, temperature, notes⟩ := body
  cases qrData with
  | missing => rfl
  | malformed => rfl
  | json value =>
    cases value with
    | null => rfl
    | primitive => rfl
    | object payload =>
      cases hid : payload.passId with
      | none => simp [checkInVisitor, checkInReads, JsonValue.passId, hid, Store.findPassById]
      | some id =>
        cases hp : s.findPass id with
        | none =>
          simp [checkInVisitor, checkInReads, JsonValue.passId, hid, Store.findPassById, hp]
        | some pass =>
          rw [checkInVisitor_found now user _ payload id pass s rfl hid hp]
          simp only [checkInReads, JsonValue.passId, hid, Store.findPassById, Option.bind, hp]
          by_cases hact : pass.status = PassStatus.active
          · by_cases hexp : pass.expiresAt < now
            · simp [hact, hexp]
            · cases hv : s.findVisitor pass.visitorId with
              | none => simp [hact, hexp, hv]
              | some visitor =>
                by_cases hin : alreadyCheckedIn (s.findExistingCheckIn now visitor._id) = true
                · simp [hact, hexp, hv, hin]
                · cases hval : temperatureValid temperature <;>
                    simp [hact, hexp, hv, hin, checkInWrites, checkLogValid, checkInLogOf, hval]
          · simp [hact]

/-- On the store a successful check-in leaves, a check-in that scans the same
pass within 24 hours and before the pass expires stops at the guard. -/
theorem checkIn_after_created (t t' : Time) (user user' : User) (body body' : CheckInBody)
    (payload' : QrPayload) (id : ObjId) (pass : Pass) (visitor : Visitor) (s : Store)
    (hq' : body'.qrData = QrData.json (JsonValue.object payload'))
    (hid' : payload'.passId = some id) (hp : s.findPass id = some pass)
    (hact : pass.status = PassStatus.active)
    (hv : s.findVisitor pass.visitorId = some visitor)
    (hwindow : t' ≤ t + dayMs) (hvalid : t' ≤ pass.expiresAt) :
    checkInVisitor t' user' body'
        ((s.insertCheckLog (checkInLogOf t user body pass visitor s)).saveVisitor
          { visitor with status := VisitorStatus.checked_in, actualArrival := some t }) =
      ({ status := 400, message := "Visitor is already checked in" },
        (s.insertCheckLog (checkInLogOf t user body pass visitor s)).saveVisitor
          { visitor with status := VisitorStatus.checked_in, actualArrival := some t }) := by
  have hvid := findVisitor_id s pass.visitorId visitor hv
  have hp1 : ((s.insertCheckLog (checkInLogOf t user body pass visitor s)).saveVisitor
      { visitor with status := VisitorStatus.checked_in, actualArrival := some t }).findPass
        id = some pass := hp
  have hv1 : ((s.insertCheckLog (checkInLogOf t user body pass visitor s)).saveVisitor
      { visitor with status := VisitorStatus.checked_in, actualArrival := some t }).findVisitor
        pass.visitorId =
        some { visitor with status := VisitorStatus.checked_in, actualArrival := some t } :=
    findVisitor_saveVisitor (s.insertCheckLog (checkInLogOf t user body pass visitor s))
      pass.visitorId visitor _ hv hvid
  have hexp : ¬ pass.expiresAt < t' := not_lt.mpr hvalid
  rw [checkInVisitor_found t' user' body' payload' id pass _ hq' hid' hp1]
  have hin := (alreadyCheckedIn_iff
    ((s.insertCheckLog (checkInLogOf t user body pass visitor s)).saveVisitor
      { visitor with status := VisitorStatus.checked_in, actualArrival := some t })
    t' visitor._id).mpr
    ⟨checkInLogOf t user body pass visitor s,
      by simp [Store.saveVisitor, Store.insertCheckLog], rfl, rfl,
      sub_le_iff_le_add.mpr hwindow⟩
  simp only [hact, ne_eq, not_true_eq_false, if_false, hexp, hv1, hin, if_true]

/-- C26 (the claim as stated fails): when the second of two check-ins for the
same visitor and pass reads the store before the first has written, both calls
answer 201 and two check logs of type `check_in` are appended. -/
theorem interleaved_checkIns_both_succeed :
    (storeWith PassStatus.active VisitorStatus.approved).checkLogs = [] ∧
      (checkInBothReadFirst 6000 sampleUser sampleCheckIn 6001 sampleUser sampleCheckIn
        (storeWith PassStatus.active VisitorStatus.approved)).1.status = 201 ∧
      (checkInBothReadFirst 6000 sampleUser sampleCheckIn 6001 sampleUser sampleCheckIn
        (storeWith PassStatus.active VisitorStatus.approved)).2.1.status = 201 ∧
      ((checkInBothReadFirst 6000 sampleUser sampleCheckIn 6001 sampleUser sampleCheckIn
        (storeWith PassStatus.active VisitorStatus.approved)).2.2.checkLogs.map
          (fun l => l.type)) = [CheckType.check_in, CheckType.check_in] := by
  decide

/-- The reads of a check-in answered 201 end with the scanned pass and its
visitor loaded. -/
theorem checkInReads_of_created (now : Time) (user : User) (body : CheckInBody) (s : Store)
    (h : (checkInVisitor now user body s).1.status = 201) :
    ∃ docs, checkInReads now body s = Except.ok docs ∧
      s.findVisitor docs.pass.visitorId = some docs.visitor := by
  obtain ⟨payload, id, pass, visitor, hq, hid, hp, hact, hle, hv, hin, _⟩ :=
    checkInVisitor_created now user body s h
  refine ⟨{ pass := pass, visitor := visitor }, ?_, hv⟩
  simp only [checkInReads, hq, JsonValue.passId, hid, Store.findPassById, Option.bind, hp,
    hact, ne_eq, not_true_eq_false, if_false, not_lt.mpr hle, hv, hin, Bool.false_eq_true]

/-- The writes of a check-in whose temperature passes validation. -/
theorem checkInWrites_valid (now : Time) (user : User) (body : CheckInBody)
    (docs : CheckInDocs) (s : Store) (hval : temperatureValid body.temperature = true) :
    checkInWrites now user body docs s =
      ({ status := 201, message := "Visitor checked in successfully",
         checkLog := some (checkInLogOf now user body docs.pass docs.visitor s),
         visitor := some { docs.visitor with status := VisitorStatus.checked_in,
                                             actualArrival := some now } },
        (s.insertCheckLog (checkInLogOf now user body docs.pass docs.visitor s)).saveVisitor
          { docs.visitor with status := VisitorStatus.checked_in,
                              actualArrival := some now }) := by
  simp only [checkInWrites, checkLogValid, checkInLogOf, hval, if_true]

/-- Two check-ins that scan the same pass within 24 hours, each answered 201
when run alone on the store: run one after the other, the second is rejected at
the guard and one check log is appended. -/
theorem checkIns_one_after_the_other (t t' : Time) (user user' : User)
    (body body' : CheckInBody) (payload payload' : QrPayload) (id : ObjId) (s : Store)
    (hq : body.qrData = QrData.json (JsonValue.object payload))
    (hid : payload.passId = some id)
    (hq' : body'.qrData = QrData.json (JsonValue.object payload'))
    (hid' : payload'.passId = some id)
    (halone : (checkInVisitor t user body s).1.status = 201)
    (halone' : (checkInVisitor t' user' body' s).1.status = 201)
    (hwindow : t' ≤ t + dayMs) :
    (checkInVisitor t' user' body' (checkInVisitor t user body s).2).1 =
        { status := 400, message := "Visitor is already checked in" } ∧
      ∃ log : CheckLog, log.type = CheckType.check_in ∧
        (checkInVisitor t' user' body' (checkInVisitor t user body s).2).2.checkLogs =
          s.checkLogs ++ [log] := by
  obtain ⟨payload0, id0, pass, visitor, hq0, hid0, hp, hact, _, hv, _, hres⟩ :=
    checkInVisitor_created t user body s halone
  obtain ⟨payload1, id1, pass1, _, hq1, hid1, hp1, _, hle1, _, _, _⟩ :=
    checkInVisitor_created t' user' body' s halone'
  have hpay : payload0 = payload := by
    rw [hq] at hq0
    injection hq0 with h1
    injection h1 with h2
    exact h2.symm
  subst hpay
  have hidEq : id0 = id := by
    rw [hid] at hid0
    injection hid0 with h1
    exact h1.symm
  subst hidEq
  have hpay1 : payload1 = payload' := by
    rw [hq'] at hq1
    injection hq1 with h1
    injection h1 with h2
    exact h2.symm
  subst hpay1
  have hidEq1 : id1 = id0 := by
    rw [hid'] at hid1
    injection hid1 with h1
    exact h1.symm
  subst hidEq1
  have hpassEq : pass1 = pass := by
    rw [hp] at hp1
    injection hp1 with h1
    exact h1.symm
  subst hpassEq
  rw [hres, checkIn_after_created t t' user user' body body' payload1 id1 pass1 visitor s
    hq' hid' hp hact hv hwindow hle1]
  exact ⟨rfl, checkInLogOf t user body pass1 visitor s, rfl, rfl⟩

/-- Two check-ins each answered 201 when run alone on the store: when the
second reads before the first writes, both answer 201 and two check logs are
appended. -/
theorem checkIns_overlapped (t t' : Time) (user user' : User) (body body' : CheckInBody)
    (s : Store) (halone : (checkInVisitor t user body s).1.status = 201)
    (halone' : (checkInVisitor t' user' body' s).1.status = 201) :
    (checkInBothReadFirst t user body t' user' body' s).1.status = 201 ∧
      (checkInBothReadFirst t user body t' user' body' s).2.1.status = 201 ∧
      ∃ log log' : CheckLog, log.type = CheckType.check_in ∧
        log'.type = CheckType.check_in ∧
        (checkInBothReadFirst t user body t' user' body' s).2.2.checkLogs =
          s.checkLogs ++ [log, log'] := by
  obtain ⟨docs, hr, _⟩ := checkInReads_of_created t user body s halone
  obtain ⟨docs', hr', _⟩ := checkInReads_of_created t' user' body' s halone'
  have hval := checkInVisitor_created_valid t user body s halone
  have hval' := checkInVisitor_created_valid t' user' body' s halone'
  have hb : checkInBothReadFirst t user body t' user' body' s =
      ((checkInWrites t user body docs s).1,
        (checkInWrites t' user' body' docs' (checkInWrites t user body docs s).2).1,
        (checkInWrites t' user' body' docs' (checkInWrites t user body docs s).2).2) := by
    simp only [checkInBothReadFirst, hr, hr']
  rw [hb, checkInWrites_valid t' user' body' docs' _ hval',
    checkInWrites_valid t user body docs s hval]
  exact ⟨rfl, rfl, checkInLogOf t user body docs.pass docs.visitor s,
    checkInLogOf t' user' body' docs'.pass docs'.visitor
      ((s.insertCheckLog (checkInLogOf t user body docs.pass docs.visitor s)).saveVisitor
        { docs.visitor with status := VisitorStatus.checked_in, actualArrival := some t }),
    rfl, rfl, by simp [Store.insertCheckLog, Store.saveVisitor]⟩

/-- C26 (as amended): take two check-ins for the same visitor and pass, with
clocks within 24 hours of each other, each of which answers 201 when it runs
alone on the store.  When one call runs after the other has finished, in either
order, the later call answers 400 `Visitor is already checked in` and the final
store holds exactly one appended check log, of type `check_in`.  When both calls
read before either writes, whichever writes first, both answer 201 and the
final store holds two appended check logs of type `check_in`. -/
theorem two_checkIns_serial_or_overlapped (t₁ t₂ : Time) (user₁ user₂ : User)
    (body₁ body₂ : CheckInBody) (payload₁ payload₂ : QrPayload) (id : ObjId) (s : Store)
    (hq₁ : body₁.qrData = QrData.json (JsonValue.object payload₁))
    (hid₁ : payload₁.passId = some id)
    (hq₂ : body₂.qrData = QrData.json (JsonValue.object payload₂))
    (hid₂ : payload₂.passId = some id)
    (halone₁ : (checkInVisitor t₁ user₁ body₁ s).1.status = 201)
    (halone₂ : (checkInVisitor t₂ user₂ body₂ s).1.status = 201)
    (hwindow₁ : t₂ ≤ t₁ + dayMs) (hwindow₂ : t₁ ≤ t₂ + dayMs) :
    ((checkInVisitor t₂ user₂ body₂ (checkInVisitor t₁ user₁ body₁ s).2).1 =
        { status := 400, message := "Visitor is already checked in" } ∧
      ∃ log : CheckLog, log.type = CheckType.check_in ∧
        (checkInVisitor t₂ user₂ body₂ (checkInVisitor t₁ user₁ body₁ s).2).2.checkLogs =
          s.checkLogs ++ [log]) ∧
    ((checkInVisitor t₁ user₁ body₁ (checkInVisitor t₂ user₂ body₂ s).2).1 =
        { status := 400, message := "Visitor is already checked in" } ∧
      ∃ log : CheckLog, log.type = CheckType.check_in ∧
        (checkInVisitor t₁ user₁ body₁ (checkInVisitor t₂ user₂ body₂ s).2).2.checkLogs =
          s.checkLogs ++ [log]) ∧
    ((checkInBothReadFirst t₁ user₁ body₁ t₂ user₂ body₂ s).1.status = 201 ∧
      (checkInBothReadFirst t₁ user₁ body₁ t₂ user₂ body₂ s).2.1.status = 201 ∧
      ∃ log log' : CheckLog, log.type = CheckType.check_in ∧
        log'.type = CheckType.check_in ∧
        (checkInBothReadFirst t₁ user₁ body₁ t₂ user₂ body₂ s).2.2.checkLogs =
          s.checkLogs ++ [log, log']) ∧
    ((checkInBothReadFirst t₂ user₂ body₂ t₁ user₁ body₁ s).1.status = 201 ∧
      (checkInBothReadFirst t₂ user₂ body₂ t₁ user₁ body₁ s).2.1.status = 201 ∧
      ∃ log log' : CheckLog, log.type = CheckType.check_in ∧
        log'.type = CheckType.check_in ∧
        (checkInBothReadFirst t₂ user₂ body₂ t₁ user₁ body₁ s).2.2.checkLogs =
          s.checkLogs ++ [log, log']) :=
  ⟨checkIns_one_after_the_other t₁ t₂ user₁ user₂ body₁ body₂ payload₁ payload₂ id s
      hq₁ hid₁ hq₂ hid₂ halone₁ halone₂ hwindow₁,
    checkIns_one_after_the_other t₂ t₁ user₂ user₁ body₂ body₁ payload₂ payload₁ id s
      hq₂ hid₂ hq₁ hid₁ halone₂ halone₁ hwindow₂,
    checkIns_overlapped t₁ t₂ user₁ user₂ body₁ body₂ s halone₁ halone₂,
    checkIns_overlapped t₂ t₁ user₂ user₁ body₂ body₁ s halone₂ halone₁⟩

theorem two_checkIns_serial_or_overlapped_witness :
    (checkInVisitor 6000 sampleUser sampleCheckIn
        (storeWith PassStatus.active VisitorStatus.approved)).1.status = 201 ∧
      (checkInVisitor 6001 sampleUser sampleCheckIn
        (storeWith PassStatus.active VisitorStatus.approved)).1.status = 201 ∧
      (checkInVisitor 6001 sampleUser sampleCheckIn
          (checkInVisitor 6000 sampleUser sampleCheckIn
            (storeWith PassStatus.active VisitorStatus.approved)).2).1 =
        { status := 400, message := "Visitor is already checked in" } ∧
      (checkInBothReadFirst 6000 sampleUser sampleCheckIn 6001 sampleUser sampleCheckIn
        (storeWith PassStatus.active VisitorStatus.approved)).2.1.status = 201 := by
  have h := two_checkIns_serial_or_overlapped 6000 6001 sampleUser sampleUser sampleCheckIn
    sampleCheckIn samplePayload samplePayload 1
    (storeWith PassStatus.active VisitorStatus.approved) rfl rfl rfl rfl
    (by decide) (by decide) (by decide) (by decide)
  exact ⟨by decide, by decide, h.1.1, h.2.2.1.2.1⟩

/-- C27 (the claim as stated fails): when `visitor.save()` rejects after the
check log was saved, `checkInVisitor` and `checkOutVisitor` answer 500 and the
store keeps the new check log while the visitor is as before. -/
theorem failed_visitor_save_keeps_check_log :
    (checkInVisitorSaveFails 6000 sampleUser sampleCheckIn
        (storeWith PassStatus.active VisitorStatus.approved)).1.status = 500 ∧
      (checkInVisitorSaveFails 6000 sampleUser sampleCheckIn
        (storeWith PassStatus.active VisitorStatus.approved)).2.visitors =
        (storeWith PassStatus.active VisitorStatus.approved).visitors ∧
      ((checkInVisitorSaveFails 6000 sampleUser sampleCheckIn
        (storeWith PassStatus.active VisitorStatus.approved)).2.checkLogs.map
          (fun l => l.type)) = [CheckType.check_in] ∧
      (storeWith PassStatus.active VisitorStatus.approved).checkLogs = [] ∧
      (checkOutVisitorSaveFails 7000 sampleUser sampleCheckOut
        (storeWith PassStatus.active VisitorStatus.checked_in)).1.status = 500 ∧
      ((checkOutVisitorSaveFails 7000 sampleUser sampleCheckOut
        (storeWith PassStatus.active VisitorStatus.checked_in)).2.checkLogs.map
          (fun l => l.type)) = [CheckType.check_out] := by
  decide

/-- C27 (as amended): in every execution in which the store writes succeed, a
`checkInVisitor` or `checkOutVisitor` that does not answer 201 leaves the check
logs and every visitor as they were. -/
theorem no_partial_write_when_writes_succeed (now : Time) (user : User) (s : Store) :
    (∀ body : CheckInBody, (checkInVisitor now user body s).1.status ≠ 201 →
      (checkInVisitor now user body s).2.checkLogs = s.checkLogs ∧
        (checkInVisitor now user body s).2.visitors = s.visitors) ∧
    (∀ body : CheckOutBody, (checkOutVisitor now user body s).1.status ≠ 201 →
      (checkOutVisitor now user body s).2.checkLogs = s.checkLogs ∧
        (checkOutVisitor now user body s).2.visitors = s.visitors) := by
  constructor
  · intro body h
    rcases checkInVisitor_unchanged_or_created now user body s with h1 | h1
    · exact ⟨h1.2, h1.1⟩
    · exact absurd h1 h
  · intro body h
    rcases checkOutVisitor_unchanged_or_created now user body s with h1 | h1
    · rw [h1]; exact ⟨rfl, rfl⟩
    · exact absurd h1 h

theorem no_partial_write_when_writes_succeed_witness :
    (checkInVisitor 9500 sampleUser sampleCheckIn
        (storeWith PassStatus.active VisitorStatus.approved)).1.status ≠ 201 ∧
      (checkInVisitor 9500 sampleUser sampleCheckIn
        (storeWith PassStatus.active VisitorStatus.approved)).2.checkLogs =
        (storeWith PassStatus.active VisitorStatus.approved).checkLogs :=
  ⟨by decide,
    ((no_partial_write_when_writes_succeed 9500 sampleUser
      (storeWith PassStatus.active VisitorStatus.approved)).1 sampleCheckIn (by decide)).1⟩

/-! ## Claims on the appointment search -/

/-- C29 (the code departs from the claim): for an employee the permission
filter is assigned to the key `$or` that held the search filter, so the search
term is dropped: the answer is the same for every search term, and an employee
searching `budget` is given an appointment they host whose title and
description do not hold it. -/
theorem employee_search_is_dropped :
    (∀ (regexI : String → String → Bool) (user : User) (params : AppointmentsParams)
        (search : Option String) (appointments : List Appointment),
        user.role = "employee" →
        getAppointments regexI user { params with search := search } appointments =
          getAppointments regexI user { params with search := none } appointments) ∧
      plainRegexI "budget" lunchAppointment.title = false ∧
      plainRegexI "budget" "Canteen" = false ∧
      (getAppointments plainRegexI sampleHost searchBudget [lunchAppointment]).appointments =
        [lunchAppointment] ∧
      (getAppointments plainRegexI sampleAdmin searchBudget [lunchAppointment]).appointments =
        [] := by
  refine ⟨?_, by decide, by decide, by decide, by decide⟩
  intro regexI user params search appointments hrole
  have hq : buildAppointmentQuery user { params with search := search } =
      buildAppointmentQuery user { params with search := none } := by
    simp only [buildAppointmentQuery, hrole, if_true]
    cases search with
    | none => rfl
    | some t =>
      by_cases ht : t = ""
      · simp [ht]
      · simp [ht]
  simp only [getAppointments, hq]

end VisitorPass
